import Mathlib

/-!
Verification development for the `schema_automation` repository
(fintech JSON-LD schema builder).

The Python sources are shallowly embedded:
* JSON-like Python values (`dict` / `list` / `str` / numbers / `None`)
  become the inductive `JValue`; Python dicts are insertion-ordered
  association lists (`Obj`), mirroring CPython dict semantics
  (in-place assignment keeps the key's position, new keys append).
* Pure functions (`deep_merge`, `clean_text`, the FAQ dedup loops,
  graph builders) become Lean functions over those values.
* `date.today()` and derived dates are threaded through an explicit
  `Clock` argument holding the already-rendered ISO strings, since no
  claim depends on actual calendar arithmetic.
-/

namespace SchemaAutomation

/-- Embedding of the Python values flowing through the schema builders:
`None`, booleans, numbers (modelled as rationals, covering the ints and
decimal literals of `config.py`), strings, lists and insertion-ordered
dicts. -/
inductive JValue where
  | null : JValue
  | bool : Bool → JValue
  | num : Rat → JValue
  | str : String → JValue
  | arr : List JValue → JValue
  | obj : List (String × JValue) → JValue
deriving Inhabited

/-- A Python dict: an insertion-ordered association list. -/
abbrev Obj := List (String × JValue)

/-- First binding of a key in a dict (`d[k]` / `k in d`). CPython dicts
have unique keys; on the lists we build, keys are unique as well. -/
def getField? (fields : Obj) (k : String) : Option JValue :=
  match fields with
  | [] => none
  | (k', v) :: rest => if k' = k then some v else getField? rest k

/-- `d[k] = v` on an insertion-ordered dict: overwrite in place if the
key exists (keeping its position), otherwise append at the end. -/
def setField (fields : Obj) (k : String) (v : JValue) : Obj :=
  match fields with
  | [] => [(k, v)]
  | (k', v') :: rest => if k' = k then (k, v) :: rest else (k', v') :: setField rest k v

/-- `d.get(k)`: `None` when the key is absent. -/
def jGet (fields : Obj) (k : String) : JValue :=
  (getField? fields k).getD JValue.null

/-- `d.get(k, default)`: the default applies only when the key is absent
(a stored `None` is returned as `None`). -/
def jGetD (fields : Obj) (k : String) (dflt : JValue) : JValue :=
  (getField? fields k).getD dflt

/-- `d.update(other)` / sequential `d[k] = v` assignments. -/
def updateFields (node : Obj) (data : Obj) : Obj :=
  data.foldl (fun n kv => setField n kv.1 kv.2) node

/-- `d.setdefault(k, v)`. -/
def setdefault (o : Obj) (k : String) (v : JValue) : Obj :=
  match getField? o k with
  | some _ => o
  | none => o ++ [(k, v)]

/-- Python truthiness of the embedded values. -/
def jTruthy : JValue → Bool
  | .null => false
  | .bool b => b
  | .num q => q ≠ 0
  | .str s => s ≠ ""
  | .arr xs => !xs.isEmpty
  | .obj fs => !fs.isEmpty

/-- Truthiness of an `Optional[str]` (`None` and `""` are falsy). -/
def optStrTruthy : Option String → Bool
  | none => false
  | some s => s ≠ ""

mutual

/-- Structural equality test mirroring Python `==` on these values
(mutually with its list and dict variants). -/
def jEq : JValue → JValue → Bool
  | .null, .null => true
  | .bool a, .bool b => a == b
  | .num a, .num b => a == b
  | .str a, .str b => a == b
  | .arr xs, .arr ys => jEqArr xs ys
  | .obj xs, .obj ys => jEqObj xs ys
  | _, _ => false

def jEqArr : List JValue → List JValue → Bool
  | [], [] => true
  | x :: xs, y :: ys => jEq x y && jEqArr xs ys
  | _, _ => false

def jEqObj : List (String × JValue) → List (String × JValue) → Bool
  | [], [] => true
  | (k, v) :: xs, (k', v') :: ys => k == k' && jEq v v' && jEqObj xs ys
  | _, _ => false

end

/-- The `@type` of a graph node, when it is a plain string. -/
def typeOf : JValue → Option String
  | .obj fs =>
    match getField? fs "@type" with
    | some (.str s) => some s
    | _ => none
  | _ => none

/-- The `@id` of a graph node, when present as a string. -/
def idOf? : JValue → Option String
  | .obj fs =>
    match getField? fs "@id" with
    | some (.str s) => some s
    | _ => none
  | _ => none

/-- All node identifiers appearing in a graph, in order. -/
def idsOf (graph : List JValue) : List String :=
  graph.filterMap idOf?

/-- String-valued field projection, convenient for decidable statements. -/
def fieldStr? (node : JValue) (k : String) : Option String :=
  match node with
  | .obj fs =>
    match getField? fs k with
    | some (.str s) => some s
    | _ => none
  | _ => none

/-- Whether an object node carries a given field at all. -/
def hasField (node : JValue) (k : String) : Bool :=
  match node with
  | .obj fs => (getField? fs k).isSome
  | _ => false

/-!
### `deep_merge` (schema/builders.py lines 27-36)

The Python function copies the base dict (`deepcopy`), then walks the
override items: where both sides hold dicts it recurses, otherwise the
override value replaces the default. The embedding is pure, so the
`deepcopy` calls - whose only purpose is to keep the inputs unmutated -
are implicit in value semantics.
-/

mutual

/-- `deep_merge(base, overrides)` from `schema/builders.py`, mutually
with the body of its loop (`deepMergeStep`): where both sides hold
dicts the merge recurses, otherwise the override value replaces the
default. -/
def deepMerge : Obj → Obj → Obj
  | base, [] => base
  | base, (k, v) :: rest => deepMerge (deepMergeStep base k v) rest

def deepMergeStep : Obj → String → JValue → Obj
  | base, k, JValue.obj m' =>
    (match getField? base k with
     | some (JValue.obj m) => setField base k (JValue.obj (deepMerge m m'))
     | _ => setField base k (JValue.obj m'))
  | base, k, v => setField base k v

end

/-- The keys of a dict, in insertion order. -/
def keysOf (o : Obj) : List String := o.map Prod.fst

/-!
### `clean_text` (extraction/text.py lines 14-19)

The Python function runs, in order: `unicodedata.normalize("NFKC", ·)`,
`.replace("\xa0", " ")`, `.replace("​", "")`, `re.sub(r"\s+", " ", ·)`
and `.strip()`, with `value or ""` handling `None`/empty input.
Strings are modelled as their character lists.
-/

/-- The characters matched by Python's `\s` regex class on `str` (also
the set stripped by `str.strip()`): ASCII whitespace, the C1 controls
`\x1c`-`\x1f` and `\x85`, NBSP, and the Unicode space separators. -/
def isPyWs (c : Char) : Bool :=
  let n := c.toNat
  n = 32 || n = 9 || n = 10 || n = 11 || n = 12 || n = 13 ||
  (28 ≤ n && n ≤ 31) || n = 0x85 || n = 0xa0 || n = 0x1680 ||
  (0x2000 ≤ n && n ≤ 0x200a) || n = 0x2028 || n = 0x2029 ||
  n = 0x202f || n = 0x205f || n = 0x3000

/-- Zero-width space U+200B (explicitly removed by `clean_text`). -/
def zwspChar : Char := Char.ofNat 0x200b

/-- No-break space U+00A0 (explicitly replaced by `clean_text`). -/
def nbspChar : Char := Char.ofNat 0xa0

/-- Combining acute accent U+0301. -/
def acuteChar : Char := Char.ofNat 0x301

/-- NFKC compatibility mapping restricted to the code points this
development models, per the Unicode UCD: the space-like characters with
a compatibility decomposition to SPACE (U+00A0, U+2000-U+200A, U+202F,
U+205F, U+3000) map to U+0020; ASCII, U+200B (which NFKC leaves alone -
that is why the source removes it by hand) and the combining acute have
no decomposition. Identity on every other character (the claims never
exercise them). -/
def compatChar (c : Char) : Char :=
  if c.toNat = 0xa0 || (0x2000 ≤ c.toNat && c.toNat ≤ 0x200a) || c.toNat = 0x202f ||
      c.toNat = 0x205f || c.toNat = 0x3000
  then ' ' else c

/-- NFKC canonical composition restricted to the modelled pair:
`e` followed by combining acute U+0301 composes to `é` (U+00E9).
All other modelled adjacent pairs have no primary composite. -/
def composeChars : List Char → List Char
  | [] => []
  | [c] => [c]
  | c1 :: c2 :: rest =>
    if c1 = 'e' ∧ c2 = acuteChar then 'é' :: composeChars rest
    else c1 :: composeChars (c2 :: rest)

/-- `unicodedata.normalize("NFKC", ·)` on the modelled character set:
compatibility decomposition followed by canonical composition. -/
def nfkc (l : List Char) : List Char := composeChars (l.map compatChar)

/-- `str.replace(old_char, new_char)` for one-character patterns. -/
def replaceChar (x y : Char) (l : List Char) : List Char :=
  l.map (fun c => if c = x then y else c)

/-- `str.replace(ch, "")` for a one-character pattern. -/
def removeChar (x : Char) (l : List Char) : List Char :=
  l.filter (fun c => c ≠ x)

/-- `re.sub(r"\s+", " ", ·)`: every maximal whitespace run becomes one
ASCII space. The flag records whether the previous character was part of
a whitespace run already rendered as `' '`. -/
def collapseWsAux (prevWs : Bool) : List Char → List Char
  | [] => []
  | c :: rest =>
    if isPyWs c then
      (if prevWs then [] else [' ']) ++ collapseWsAux true rest
    else c :: collapseWsAux false rest

def collapseWs (l : List Char) : List Char := collapseWsAux false l

/-- `str.strip()` on character lists. -/
def stripChars (l : List Char) : List Char :=
  ((l.dropWhile isPyWs).reverse.dropWhile isPyWs).reverse

/-- `str.strip()`. -/
def pyStrip (s : String) : String := ⟨stripChars s.data⟩

/-- `clean_text` from `extraction/text.py`, on character lists. -/
def cleanTextChars (l : List Char) : List Char :=
  stripChars (collapseWs (removeChar zwspChar (replaceChar nbspChar ' ' (nfkc l))))

/-- `clean_text(value)` for a string argument. -/
def cleanText (s : String) : String := ⟨cleanTextChars s.data⟩

/-- `clean_text(value)` with the `value or ""` guard for `None`. -/
def cleanTextOpt (v : Option String) : String := cleanText (v.getD "")
/-- No two adjacent whitespace characters. -/
def NoWsPair (a b : Char) : Prop := ¬(isPyWs a = true ∧ isPyWs b = true)

/-- No adjacent NFKC-composable pair (`e` then U+0301). -/
def NoCompose (a b : Char) : Prop := ¬(a = 'e' ∧ b = acuteChar)

/-- The shape `clean_text` leaves its output in: every whitespace
character is an ASCII space, no two adjacent whitespace characters,
no leading or trailing whitespace, no zero-width space, and no
NFKC-composable pair. A list in this form is a fixed point of
`clean_text`. -/
def CleanForm (l : List Char) : Prop :=
  (∀ c ∈ l, isPyWs c = true → c = ' ') ∧
  l.Chain' NoWsPair ∧
  (∀ c, l.head? = some c → isPyWs c = false) ∧
  (∀ c, l.getLast? = some c → isPyWs c = false) ∧
  zwspChar ∉ l ∧
  l.Chain' NoCompose

/-!
### FAQ extraction (extraction/faqs.py)

The two strategies walk a bs4 DOM through fixed CSS selectors. The
selector plumbing is abstracted into input records holding exactly the
texts the source reads (`get_text` results); the repository's own logic
- cleaning, question-mark filtering, answer assembly, validity checks
and deduplication - is embedded as is.
-/

/-- A `{"question": ..., "answer": ...}` FAQ entry. -/
structure Faq where
  question : String
  answer : String
deriving DecidableEq, Inhabited

/-- The answer panel of one accordion item, as consumed by
`_extract_answer_text` (faqs.py lines 16-39): the `get_text` of its
`<p>` elements, of the `<li>` children of each of its lists, and its raw
flattened text. -/
structure BodyContent where
  paragraphs : List String
  lists : List (List String)
  raw : String
deriving DecidableEq, Inhabited

/-- One top-level `<li>` of an accordion root (faqs.py lines 52-77):
the heading text (primary selector `h3.accordion-label`, else the
fallback selector; `none` when both miss) and the answer body (the body
selectors, else the heading-sibling fallback; `none` when all miss). -/
structure AccordionLi where
  questionText : Option String
  body : Option BodyContent
deriving DecidableEq, Inhabited

/-- One heading/button element seen by the fallback strategy
(faqs.py lines 93-102): its text and its next sibling's text
(`none` when the sibling is not a Tag). -/
structure FallbackNode where
  text : String
  siblingText : Option String
deriving DecidableEq, Inhabited

/-- A parsed page, reduced to what the two FAQ strategies consume. -/
structure FaqPage where
  accordionRoots : List (List AccordionLi)
  fallbackNodes : List FallbackNode
deriving DecidableEq, Inhabited

/-- Python `sep.join(strings)`. -/
def joinSep (sep : String) : List String → String
  | [] => ""
  | [s] => s
  | s :: rest => s ++ sep ++ joinSep sep rest

/-- The `"• "` marker prefixed to each list item. -/
def bulletPrefix : String := ⟨[Char.ofNat 0x2022, ' ']⟩

/-- `_extract_answer_text` (faqs.py lines 16-39): paragraph texts, then
bulleted list blocks, falling back to the raw flattened text when both
are empty; blocks joined by a blank line, and the result stripped. -/
def extractAnswerText (body : BodyContent) : String :=
  let pChunks := (body.paragraphs.map (fun p => cleanText p)).filter (fun t => t ≠ "")
  let listChunks := body.lists.filterMap (fun lis =>
    let items := ((lis.map (fun li => cleanText li)).filter (fun t => t ≠ "")).map
      (fun t => bulletPrefix ++ t)
    if items.isEmpty then none else some (joinSep "\n" items))
  let chunks := pChunks ++ listChunks
  let chunks :=
    if chunks.isEmpty then
      (if cleanText body.raw ≠ "" then [cleanText body.raw] else [])
    else chunks
  pyStrip (joinSep "\n\n" chunks)

/-- The body of the accordion loop for one `<li>` (faqs.py lines 52-77):
skip when no heading, skip when no body, skip when the assembled answer
is empty; otherwise keep the (possibly empty) cleaned question. Lines
60-61 (`question = question or ""` when the `¿...?` regex misses) leave
`question` unchanged in every case and are embedded as the no-op they
are. -/
def processAccordionLi (li : AccordionLi) : Option Faq :=
  match li.questionText with
  | none => none
  | some qt =>
    let question := cleanText qt
    match li.body with
    | none => none
    | some b =>
      let answer := extractAnswerText b
      if answer = "" then none
      else some { question := question, answer := answer }

/-- The body of the fallback loop for one node (faqs.py lines 93-102):
keep a pair when the cleaned text contains a question mark and both the
question and the sibling answer are non-empty. -/
def processFallbackNode (node : FallbackNode) : Option Faq :=
  let question := cleanText node.text
  if question = "" ∨ ¬ question.data.contains '?' then none
  else
    let answer :=
      match node.siblingText with
      | some t => cleanText t
      | none => ""
    if question ≠ "" ∧ answer ≠ "" then some { question := question, answer := answer }
    else none

/-- The `(question, answer)` pair used as the dedup key. -/
def faqKey (f : Faq) : String × String := (f.question, f.answer)

/-- The dedup loop shared by both strategies (faqs.py lines 79-86 and
104-111): a `seen` set of pairs, keeping each entry whose pair is new. -/
def dedupFaqsAux (seen : List (String × String)) : List Faq → List Faq
  | [] => []
  | f :: rest =>
    if faqKey f ∈ seen then dedupFaqsAux seen rest
    else f :: dedupFaqsAux (faqKey f :: seen) rest

def dedupFaqs (faqs : List Faq) : List Faq := dedupFaqsAux [] faqs

/-- The raw accordion extraction before dedup: every kept item of every
root, in document order. -/
def accordionRawFaqs (page : FaqPage) : List Faq :=
  (page.accordionRoots.map (fun root => root.filterMap processAccordionLi)).flatten

/-- `extract_faqs_from_nx_accordion` (faqs.py lines 42-86). -/
def extract_faqs_from_nx_accordion (page : FaqPage) : List Faq :=
  if page.accordionRoots.isEmpty then []
  else dedupFaqs (accordionRawFaqs page)

/-- The raw fallback extraction before dedup. -/
def fallbackRawFaqs (page : FaqPage) : List Faq :=
  page.fallbackNodes.filterMap processFallbackNode

/-- `extract_faqs_fallback` (faqs.py lines 89-111). -/
def extract_faqs_fallback (page : FaqPage) : List Faq :=
  dedupFaqs (fallbackRawFaqs page)

/-- `extract_faqs` (faqs.py lines 114-119): the structured result when
non-empty, else the fallback result; never a merge of both. -/
def extract_faqs (page : FaqPage) : List Faq :=
  let faqs := extract_faqs_from_nx_accordion page
  if faqs.isEmpty then extract_faqs_fallback page else faqs

/-- Specification-side dedup: keep the first occurrence of each entry,
drop the later duplicates. States what "no duplicates, first-occurrence
order preserved" means. -/
def firstOccurrences : List Faq → List Faq
  | [] => []
  | f :: rest => f :: firstOccurrences (rest.filter (fun g => g ≠ f))
termination_by l => l.length
decreasing_by simp_wf; exact Nat.lt_succ_of_le (List.length_filter_le _ _)

/-!
### Static configuration (config.py)

The read-only default tables, as `JValue` objects. `OFFER_CATALOGS` and
`PRICE_SPEC_DEFAULT` are not embedded: no claim exercises the offer
catalog attachment, and `PRICE_SPEC_DEFAULT` is imported but never used
by the builders.
-/

/-- `Optional[str]` as a JSON value (`None` becomes `null`). -/
def jOfOptStr : Option String → JValue
  | none => JValue.null
  | some s => JValue.str s

/-- `value is None` for an embedded value pulled out of a dict. -/
def isNull : JValue → Bool
  | .null => true
  | _ => false

/-- Read a value as a dict. The Python code would raise on a non-dict
here (`.get`/`.items` on it); the claims never reach that branch, and
the static defaults always hold dicts. -/
def asObjD : JValue → Obj
  | .obj o => o
  | _ => []

/-- Read a value as a list (Python would raise on non-iterables). -/
def asArrD : JValue → List JValue
  | .arr xs => xs
  | _ => []

/-- Read a value as a string, with a fallback (only static string
configuration values flow here). -/
def asStrD (v : JValue) (d : String) : String :=
  match v with
  | .str s => s
  | _ => d

/-- Read a value as a number, with a fallback (Python's `timedelta`
would raise on non-numbers). -/
def asRatD (v : JValue) (d : Rat) : Rat :=
  match v with
  | .num q => q
  | _ => d

/-- Python `str(·)`. Exact for strings, `None` and booleans; the number
branch renders integers exactly (no claim stringifies a non-integer),
and container reprs - unreachable from every embedded call site - are
placeholders. -/
def pyStr : JValue → String
  | .null => "None"
  | .bool b => if b then "True" else "False"
  | .num q => if q.den = 1 then toString q.num else toString q
  | .str s => s
  | .arr _ => "<list>"
  | .obj _ => "<dict>"

/-- The calendar values the builders derive from `date.today()`:
`today.isoformat()`, `date(today.year + 1, 12, 31).isoformat()` and
`(today + timedelta(days=d)).isoformat()`. Threaded as data because no
claim depends on calendar arithmetic;
`default_price_valid_until()` is `plusDaysISO 365`. -/
structure Clock where
  todayISO : String
  nextYearEndISO : String
  plusDaysISO : Rat → String

/-- `DEFAULT_AGG_RATING` (config.py lines 18-24). -/
def DEFAULT_AGG_RATING : Obj :=
  [("@type", JValue.str "AggregateRating"),
   ("ratingValue", JValue.num 4.6),
   ("ratingCount", JValue.num 991000),
   ("bestRating", JValue.num 5),
   ("worstRating", JValue.num 1)]

/-- `DEFAULT_LANGUAGE` (config.py line 26). -/
def DEFAULT_LANGUAGE : String := "es-AR"

/-- The shared Naranja X logo object used by the three organizations. -/
def nxLogoURL : String :=
  "https://images.ctfassets.net/yxlyq25bynna/1IxKUBv3dtISflaWQoSIZW/11e239808ff23ee64b26ba44bfcd93a0/Logo_NX.jpeg"

/-- The shared CUIT identifier object. -/
def cuitIdentifier : JValue :=
  JValue.obj
    [("@type", JValue.str "PropertyValue"),
     ("propertyID", JValue.str "CUIT"),
     ("value", JValue.str "30-68537634-9")]

/-- `ORGANIZATIONS` (config.py lines 30-88), an insertion-ordered
key-to-record table. -/
def ORGANIZATIONS : List (String × Obj) :=
  [("tarjeta_naranja",
    [("@type", JValue.str "Organization"),
     ("@id", JValue.str "https://www.naranjax.com/#OrgTarjetaNaranja"),
     ("name", JValue.str "Tarjeta Naranja S.A.U."),
     ("url", JValue.str "https://www.naranjax.com/"),
     ("logo", JValue.obj
       [("@type", JValue.str "ImageObject"),
        ("@id", JValue.str "https://www.naranjax.com/#LogoTarjetaNaranja"),
        ("url", JValue.str nxLogoURL),
        ("contentUrl", JValue.str nxLogoURL)]),
     ("sameAs", JValue.arr []),
     ("identifier", cuitIdentifier)]),
   ("naranja_digital",
    [("@type", JValue.str "Organization"),
     ("@id", JValue.str "https://www.naranjax.com/#OrgNaranjaDigital"),
     ("name", JValue.str "Naranja Digital Compañía Financiera S.A.U."),
     ("url", JValue.str "https://www.naranjax.com/"),
     ("logo", JValue.obj
       [("@type", JValue.str "ImageObject"),
        ("@id", JValue.str "https://www.naranjax.com/#LogoNaranjaDigital"),
        ("url", JValue.str nxLogoURL),
        ("contentUrl", JValue.str nxLogoURL)]),
     ("sameAs", JValue.arr []),
     ("identifier", cuitIdentifier)]),
   ("naranja_x",
    [("@type", JValue.str "Organization"),
     ("@id", JValue.str "https://www.naranjax.com/#OrgNaranjaX"),
     ("name", JValue.str "Naranja X"),
     ("url", JValue.str "https://www.naranjax.com/"),
     ("logo", JValue.obj
       [("@type", JValue.str "ImageObject"),
        ("@id", JValue.str "https://www.naranjax.com/#LogoNaranjaX"),
        ("url", JValue.str nxLogoURL),
        ("contentUrl", JValue.str nxLogoURL)]),
     ("sameAs", JValue.arr
       [JValue.str "https://www.linkedin.com/company/naranja-x/",
        JValue.str "https://twitter.com/naranjax"]),
     ("identifier", cuitIdentifier)])]

/-- `ORGANIZATIONS.get(key)`. -/
def ORGANIZATIONS_get (k : String) : Option Obj :=
  (ORGANIZATIONS.find? (fun kv => kv.1 = k)).map Prod.snd

/-- `ORGANIZATIONS.values()`, in insertion order. -/
def ORGANIZATIONS_values : List Obj := ORGANIZATIONS.map Prod.snd

/-- `NARANJA_X_ADDRESSES` (config.py lines 90-109). -/
def NARANJA_X_ADDRESSES : JValue :=
  JValue.arr
    [JValue.obj
      [("@type", JValue.str "PostalAddress"),
       ("name", JValue.str "Casa Naranja"),
       ("streetAddress", JValue.str "La Tablada 451"),
       ("addressLocality", JValue.str "Córdoba"),
       ("addressRegion", JValue.str "Córdoba"),
       ("postalCode", JValue.str "X5000"),
       ("addressCountry", JValue.str "AR")],
     JValue.obj
      [("@type", JValue.str "PostalAddress"),
       ("name", JValue.str "Naranja X Buenos Aires"),
       ("streetAddress", JValue.str "Leiva 4070"),
       ("addressLocality", JValue.str "Ciudad Autónoma de Buenos Aires"),
       ("addressRegion", JValue.str "Buenos Aires"),
       ("postalCode", JValue.str "C1427BQA"),
       ("addressCountry", JValue.str "AR")]]

/-- `WEBPAGE_DEFAULTS` (config.py lines 111-119). -/
def WEBPAGE_DEFAULTS : Obj :=
  [("@type", JValue.str "WebPage"),
   ("inLanguage", JValue.str DEFAULT_LANGUAGE),
   ("isPartOf", JValue.obj
     [("@type", JValue.str "WebSite"),
      ("@id", JValue.str "https://www.naranjax.com/#website")]),
   ("publisher", JValue.obj
     [("@id", JValue.str "https://www.naranjax.com/#OrgTarjetaNaranja")])]

/-- `PAYMENT_SERVICE_DEFAULTS` (config.py lines 129-138). -/
def PAYMENT_SERVICE_DEFAULTS : Obj :=
  [("area_served", JValue.obj
     [("@type", JValue.str "Country"), ("name", JValue.str "Argentina")]),
   ("provider", JValue.obj [("org_key", JValue.str "naranja_x")]),
   ("offer", JValue.obj
     [("price_currency", JValue.str "ARS"),
      ("eligible_region", JValue.str "AR")])]

/-- `INSURANCE_AGENCY_DEFAULTS` (config.py lines 140-168). -/
def INSURANCE_AGENCY_DEFAULTS : Obj :=
  [("agency", JValue.obj
     [("id_suffix", JValue.str "#insurance-agency"),
      ("area_served", JValue.obj
        [("@type", JValue.str "AdministrativeArea"), ("name", JValue.str "Argentina")]),
      ("addresses", NARANJA_X_ADDRESSES),
      ("identifier", JValue.obj
        [("propertyID", JValue.str "CUIT"), ("value", JValue.str "30-68537634-9")]),
      ("logo", JValue.obj
        [("id", JValue.str nxLogoURL),
         ("url", JValue.str nxLogoURL),
         ("contentUrl", JValue.str nxLogoURL)]),
      ("same_as", JValue.arr [])]),
   ("product", JValue.obj
     [("id_suffix", JValue.str "#producto"),
      ("category", JValue.str "Insurance")]),
   ("offer", JValue.obj
     [("id_suffix", JValue.str "#offer-basica"),
      ("name", JValue.str "Cobertura Básica"),
      ("price_currency", JValue.str "ARS"),
      ("availability", JValue.str "https://schema.org/InStock"),
      ("area_served", JValue.str "AR"),
      ("eligible_region", JValue.str "AR")])]

/-- `FINANCIAL_PRODUCT_ZERO_RATES` (config.py lines 170-174). -/
def FINANCIAL_PRODUCT_ZERO_RATES : Obj :=
  [("TNA", JValue.num 0), ("TEA", JValue.num 0), ("CFT", JValue.num 0)]

/-- `LOAN_OR_CREDIT_DEFAULTS` (config.py lines 176-203). -/
def LOAN_OR_CREDIT_DEFAULTS : Obj :=
  [("amount", JValue.obj
     [("currency", JValue.str "ARS"),
      ("minValue", JValue.num 10000),
      ("maxValue", JValue.num 9000000)]),
   ("currency", JValue.str "ARS"),
   ("loan_term", JValue.obj
     [("@type", JValue.str "QuantitativeValue"),
      ("maxValue", JValue.num 48),
      ("unitText", JValue.str "MONTH")]),
   ("interest_rate", JValue.obj
     [("minValue", JValue.num 55),
      ("maxValue", JValue.num 153),
      ("unitText", JValue.str "PERCENT")]),
   ("annual_percentage_rate", JValue.obj
     [("minValue", JValue.num 91.11),
      ("maxValue", JValue.num 459.39),
      ("unitText", JValue.str "PERCENT")]),
   ("loan_repayment_form", JValue.obj
     [("@type", JValue.str "RepaymentSpecification"),
      ("name", JValue.str "Sistema de amortización francés"),
      ("description", JValue.str
        "Cuotas fijas mensuales con interés fijo durante todo el plazo (método francés).")])]

/-- `FINANCIAL_PRODUCT_DEFAULTS` (config.py lines 205-223). -/
def FINANCIAL_PRODUCT_DEFAULTS : Obj :=
  [("area_served", JValue.str "AR"),
   ("provider", JValue.obj [("org_key", JValue.str "tarjeta_naranja")]),
   ("offer", JValue.obj
     [("price_currency", JValue.str "ARS"),
      ("billing_increment", JValue.str "1"),
      ("min_price", JValue.str "0"),
      ("area_served", JValue.str "AR"),
      ("valid_from_offset", JValue.num 0),
      ("valid_through_offset", JValue.num 30),
      ("description_template", JValue.str "Hasta 3 cuotas sin interés. {rates_text}.")]),
   ("product", JValue.obj [("id_suffix", JValue.str "#financial-product")]),
   ("faq_id_suffix", JValue.str "#FAQPage")]

/-- `INVESTMENT_OR_DEPOSIT_DEFAULTS` (config.py lines 225-269). -/
def INVESTMENT_OR_DEPOSIT_DEFAULTS : Obj :=
  [("area_served", JValue.str "AR"),
   ("globals", JValue.obj
     [("duration", JValue.str ""), ("interest_rate", JValue.str "")]),
   ("provider", JValue.obj
     [("org_key", JValue.str "naranja_x"),
      ("overrides", JValue.obj
        [("logo", JValue.obj
          [("@type", JValue.str "ImageObject"),
           ("@id", JValue.str "https://www.naranjax.com/#LogoNaranjaXInvestment"),
           ("url", JValue.str
             "https://images.ctfassets.net/yxlyq25bynna/5aunl52F9uDLxXLUC8L7O4/b025683cc1824c386a19c478a5dd46ae/isologo-naranjax.png"),
           ("contentUrl", JValue.str
             "https://images.ctfassets.net/yxlyq25bynna/5aunl52F9uDLxXLUC8L7O4/b025683cc1824c386a19c478a5dd46ae/isologo-naranjax.png")])])]),
   ("investment", JValue.obj
     [("id_suffix", JValue.str "#producto"),
      ("types", JValue.arr [JValue.str "InvestmentOrDeposit"]),
      ("alternate_name", JValue.str "Ahorro por objetivos con TNA"),
      ("service_type", JValue.str "Ahorro por objetivos con interés (TNA)"),
      ("audience", JValue.obj
        [("@type", JValue.str "Audience"),
         ("audienceType", JValue.str "Usuarios de banca minorista en Argentina")]),
      ("interest_rate", JValue.obj
        [("type", JValue.str "QuantitativeValue"),
         ("unit_text", JValue.str "TNA")])]),
   ("offer", JValue.obj
     [("id_suffix", JValue.str "#offer"),
      ("price_currency", JValue.str "ARS"),
      ("area_served", JValue.str "AR"),
      ("eligible_region", JValue.str "AR"),
      ("availability", JValue.str "https://schema.org/InStock"),
      ("valid_from_offset", JValue.num 0),
      ("valid_through_offset", JValue.num 28)]),
   ("product", JValue.obj [("id_suffix", JValue.str "#product")]),
   ("faq_id_suffix", JValue.str "#FAQPage")]

/-!
### Organization resolution and shared node builders
(schema/builders.py lines 39-161)
-/

/-- `organization_reference` for a dict argument (builders.py lines
40-41): `{"@id": data.get("@id")}`. -/
def organization_reference_obj (org : Obj) : Obj :=
  [("@id", jGet org "@id")]

/-- `organization_reference` for a key argument (builders.py line 42):
`{"@id": ORGANIZATIONS[key]["@id"]}`. Every embedded call site passes a
key of the static table, so the `KeyError` branch cannot occur; the
model reads through the table with a `null` default. -/
def organization_reference_key (key : String) : Obj :=
  [("@id", jGet ((ORGANIZATIONS_get key).getD []) "@id")]

/-- The shallow one-level merge `base[key].update(value)` /
`base[key] = value` loop body shared by the two override passes of
`resolve_organization`. -/
def orgOverrideStep (b : Obj) (k : String) (v : JValue) : Obj :=
  match v, getField? b k with
  | JValue.obj sub, some (JValue.obj bsub) =>
      setField b k (JValue.obj (updateFields bsub sub))
  | _, _ => setField b k v

/-- `resolve_organization` (builders.py lines 45-71): resolve the base
record by `org_key` (else the default key), replace it by an `@id`
catalog match when one exists, then apply the top-level config fields
(shallow one-level merge) and the `overrides` sub-block on top. A falsy
or unknown `org_key` resolves to the default record, exactly as
`ORGANIZATIONS.get(org_key, ORGANIZATIONS[default_key])` does. -/
def resolve_organization (config : Option Obj) (default_key : String) : Obj :=
  let cfg := config.getD []
  let orgKey :=
    match getField? cfg "org_key" with
    | some (JValue.str s) => if s ≠ "" then s else default_key
    | _ => default_key
  let base := (ORGANIZATIONS_get orgKey).getD ((ORGANIZATIONS_get default_key).getD [])
  let orgId := if jTruthy (jGet cfg "id") then jGet cfg "id" else jGet cfg "@id"
  let base :=
    if jTruthy orgId then
      match ORGANIZATIONS_values.find? (fun org => jEq (jGet org "@id") orgId) with
      | some matched => if matched.isEmpty then base else matched
      | none => base
    else base
  let base := cfg.foldl
    (fun b kv =>
      if kv.1 = "org_key" ∨ kv.1 = "overrides" then b
      else orgOverrideStep b kv.1 kv.2)
    base
  match getField? cfg "overrides" with
  | some (JValue.obj ovr) =>
    if ovr.isEmpty then base
    else ovr.foldl (fun b kv => orgOverrideStep b kv.1 kv.2) base
  | _ => base

/-- `append_organization` (builders.py lines 74-80): append the
organization node unless its truthy `@id` is already in the running
`added_ids` set; record a truthy `@id` after appending. Set membership
uses Python `==`, i.e. structural equality. -/
def append_organization (graph : List JValue) (org_data : Obj)
    (added_ids : List JValue) : List JValue × List JValue :=
  let orgId := jGet org_data "@id"
  if jTruthy orgId ∧ added_ids.any (fun x => jEq x orgId) then (graph, added_ids)
  else
    (graph ++ [JValue.obj org_data],
     if jTruthy orgId then added_ids ++ [orgId] else added_ids)

/-- The recurring `if value: node[key] = value` assignment (Python
truthiness guard). -/
def setIfTruthy (node : Obj) (k : String) (v : JValue) : Obj :=
  if jTruthy v then setField node k v else node

/-- The recurring `if opt_str: node[key] = f(opt_str)` assignment for an
`Optional[str]` guard. -/
def setIfStr (node : Obj) (k : String) (o : Option String) (f : String → JValue) : Obj :=
  match o with
  | some u => if u ≠ "" then setField node k (f u) else node
  | none => node

/-- Assignment guarded by an optional value already computed (`if x is
kept: node[key] = x`). -/
def setIfSome (node : Obj) (k : String) : Option JValue → Obj
  | some v => setField node k v
  | none => node

/-- The recurring `if some_dict: node[key] = some_dict` assignment. -/
def setIfObj (node : Obj) (k : String) : Option Obj → Obj
  | some r => if r.isEmpty then node else setField node k (JValue.obj r)
  | none => node

/-- The recurring `if extra: node.update(extra)` epilogue. -/
def updateIf (node : Obj) : Option Obj → Obj
  | some e => if e.isEmpty then node else updateFields node e
  | none => node

/-- The `if faq_page: graph.append(faq_page)` step every builder runs
on the optional FAQ node. -/
def faqSeg : Option Obj → List JValue
  | some f => [JValue.obj f]
  | none => []

/-- `_faq_entities` (builders.py lines 83-97): one `Question` node per
entry whose stripped question and answer are both non-empty. -/
def _faq_entities (faqs : List Faq) : List JValue :=
  faqs.filterMap (fun faq =>
    let question := pyStrip faq.question
    let answer := pyStrip faq.answer
    if question = "" ∨ answer = "" then none
    else some (JValue.obj
      [("@type", JValue.str "Question"),
       ("name", JValue.str question),
       ("acceptedAnswer", JValue.obj
         [("@type", JValue.str "Answer"), ("text", JValue.str answer)])]))

/-- `build_faq_page` (builders.py lines 100-118): `None` when there is
no valid entity, otherwise the `FAQPage` node, updated with `extra`
when that is truthy. -/
def build_faq_page (page_url : String) (faqs : List Faq) (node_id : String)
    (extra : Option Obj) : Option Obj :=
  let entities := _faq_entities faqs
  if entities.isEmpty then none
  else
    let node : Obj :=
      [("@type", JValue.str "FAQPage"),
       ("@id", JValue.str node_id),
       ("inLanguage", JValue.str DEFAULT_LANGUAGE),
       ("mainEntity", JValue.arr entities)]
    some (updateIf node extra)

/-- `build_product_node` (builders.py lines 121-139). -/
def build_product_node (page_url : String) (node_id : String) (name : String)
    (image_url : Option String) (aggregate_rating : Option Obj)
    (description : Option String) (extra : Option Obj) : Obj :=
  let node : Obj :=
    [("@type", JValue.str "Product"),
     ("@id", JValue.str node_id),
     ("name", JValue.str name)]
  let node := setIfStr node "image" image_url (fun u => JValue.str u)
  let node := setIfObj node "aggregateRating" aggregate_rating
  let node := setIfStr node "description" description (fun d => JValue.str d)
  updateIf node extra

/-- `build_offer_node` (builders.py lines 142-148): `@type`/`@id`/`url`
first (the url from `data` when present, else the page url), then every
other `data` field in order. -/
def build_offer_node (page_url : String) (node_id : String) (data : Obj) : Obj :=
  data.foldl (fun n kv => if kv.1 = "url" then n else setField n kv.1 kv.2)
    [("@type", JValue.str "Offer"),
     ("@id", JValue.str node_id),
     ("url", jGetD data "url" (JValue.str page_url))]

/-- The per-request context (models.py lines 9-17), as the orchestrator
fills it. -/
structure SchemaContext where
  page_url : String
  name : String
  description : Option String
  image_url : Option String
  faqs : List Faq
  body_text : Option String
  aggregate_rating : Option Obj

/-- `build_webpage_node` (builders.py lines 151-160). -/
def build_webpage_node (ctx : SchemaContext) (extra : Option Obj) : Obj :=
  let node := WEBPAGE_DEFAULTS
  let node := setField node "@id" (JValue.str (ctx.page_url ++ "#WebPage"))
  let node := setField node "url" (JValue.str ctx.page_url)
  let node := setField node "name" (JValue.str ctx.name)
  let node := setIfStr node "description" ctx.description (fun d => JValue.str d)
  updateIf node extra

/-!
### The eight schema-type graph builders
(schema/builders.py lines 163-1066)

Each builder assembles its node list in source order; `graph.append`
becomes list concatenation, and the `added_orgs` set is threaded
through `append_organization`.
-/

/-- `build_payment_card_graph` (builders.py lines 323-379). -/
def build_payment_card_graph (ctx : SchemaContext) (clock : Clock) : List JValue :=
  let offer_id := ctx.page_url ++ "#Offer"
  let payment_card : Obj :=
    [("@type", JValue.str "PaymentCard"),
     ("@id", JValue.str (ctx.page_url ++ "#PaymentCard")),
     ("url", JValue.str ctx.page_url),
     ("name", JValue.str ctx.name),
     ("description", jOfOptStr ctx.description),
     ("areaServed", JValue.str "AR"),
     ("provider", JValue.arr [JValue.obj (organization_reference_key "tarjeta_naranja")]),
     ("mainEntityOfPage", JValue.str ctx.page_url),
     ("offers", JValue.obj [("@id", JValue.str offer_id)])]
  let payment_card := setIfStr payment_card "image" ctx.image_url (fun u =>
    JValue.obj
      [("@type", JValue.str "ImageObject"),
       ("@id", JValue.str (ctx.page_url ++ "#PaymentCardImage")),
       ("url", JValue.str u)])
  let price_valid_until := clock.plusDaysISO 365
  let offer := build_offer_node ctx.page_url offer_id
    [("name", JValue.str ctx.name),
     ("price", JValue.str "0"),
     ("priceCurrency", JValue.str "ARS"),
     ("availability", JValue.str "https://schema.org/InStock"),
     ("areaServed", JValue.str "AR"),
     ("priceValidUntil", JValue.str price_valid_until)]
  let product := build_product_node ctx.page_url (ctx.page_url ++ "#Product") ctx.name
    ctx.image_url ctx.aggregate_rating ctx.description
    (some [("url", JValue.str ctx.page_url),
           ("offers", JValue.obj [("@id", JValue.str offer_id)])])
  let faq_page := build_faq_page ctx.page_url ctx.faqs (ctx.page_url ++ "#FAQPage") none
  let graph := [JValue.obj payment_card, JValue.obj offer, JValue.obj product]
  let graph := graph ++ faqSeg faq_page
  let graph := graph ++ [JValue.obj (build_webpage_node ctx none)]
  (append_organization graph (resolve_organization (some []) "tarjeta_naranja") []).1

/-- `_quantitative_node` (builders.py lines 400-411, local to the loan
builder): collect the non-`None` values of the four keys after the
`@type`; keep the node when a non-`unitText` value was found or the
node holds more than just its `@type`. -/
def _quantitative_node (cfg : JValue) : Option Obj :=
  match cfg with
  | JValue.obj m =>
    let node0 : Obj := [("@type", jGetD m "@type" (JValue.str "QuantitativeValue"))]
    let r := ["minValue", "maxValue", "unitText", "value"].foldl
      (fun (acc : Obj × Bool) key =>
        let value := jGet m key
        if isNull value then acc
        else (setField acc.1 key value, acc.2 || key ≠ "unitText"))
      (node0, false)
    if r.2 || r.1.length > 1 then some r.1 else none
  | _ => none

/-- `build_loan_or_credit_graph` (builders.py lines 382-510). -/
def build_loan_or_credit_graph (ctx : SchemaContext) (price_spec : Option Obj)
    (loan_defaults : Option Obj) (clock : Clock) : List JValue :=
  let defaults := deepMerge LOAN_OR_CREDIT_DEFAULTS (loan_defaults.getD [])
  let amount_cfg := jGetD defaults "amount" (JValue.obj [])
  let currency_value :=
    if jTruthy (jGet defaults "currency") then jGet defaults "currency"
    else jGet (asObjD amount_cfg) "currency"
  let loan_term_cfg := jGetD defaults "loan_term" (JValue.obj [])
  let interest_rate_cfg := jGetD defaults "interest_rate" (JValue.obj [])
  let apr_cfg := jGetD defaults "annual_percentage_rate" (JValue.obj [])
  let repayment_cfg := jGetD defaults "loan_repayment_form" (JValue.obj [])
  let loan_type_value :=
    if jTruthy (jGet defaults "loan_type") then jGet defaults "loan_type"
    else JValue.str ctx.name
  let offer_id := ctx.page_url ++ "#Offer"
  let loan_node : Obj :=
    [("@type", JValue.str "LoanOrCredit"),
     ("@id", JValue.str (ctx.page_url ++ "#LoanOrCredit")),
     ("url", JValue.str ctx.page_url),
     ("name", JValue.str ctx.name),
     ("provider", JValue.arr
       [JValue.obj (organization_reference_key "naranja_digital"),
        JValue.obj (organization_reference_key "tarjeta_naranja")]),
     ("mainEntityOfPage", JValue.str ctx.page_url),
     ("offers", JValue.obj [("@id", JValue.str offer_id)]),
     ("loanType", loan_type_value)]
  let loan_node := setIfTruthy loan_node "currency" currency_value
  let amount_opt : Option JValue :=
    match amount_cfg with
    | JValue.obj am =>
      if am.isEmpty then none
      else
        let amount_node : Obj := [("@type", JValue.str "MonetaryAmount")]
        let amount_currency := jGetD am "currency" currency_value
        let amount_node := setIfTruthy amount_node "currency" amount_currency
        let amount_node := ["minValue", "maxValue"].foldl
          (fun an key =>
            let value := jGet am key
            if isNull value then an else setField an key value)
          amount_node
        if amount_node.length > 1 then some (JValue.obj amount_node) else none
    | _ => none
  let loan_node := setIfSome loan_node "amount" amount_opt
  let loan_node := setIfSome loan_node "loanTerm"
    ((_quantitative_node loan_term_cfg).map JValue.obj)
  let loan_node := setIfSome loan_node "interestRate"
    ((_quantitative_node interest_rate_cfg).map JValue.obj)
  let loan_node := setIfSome loan_node "annualPercentageRate"
    ((_quantitative_node apr_cfg).map JValue.obj)
  let repayment_opt : Option JValue :=
    match repayment_cfg with
    | JValue.obj rm =>
      if rm.isEmpty then none
      else
        let repayment_node : Obj :=
          [("@type", jGetD rm "@type" (JValue.str "RepaymentSpecification"))]
        let repayment_node := ["name", "description"].foldl
          (fun rn key =>
            let value := jGet rm key
            if jTruthy value then setField rn key value else rn)
          repayment_node
        if repayment_node.length > 1 then some (JValue.obj repayment_node) else none
    | _ => none
  let loan_node := setIfSome loan_node "loanRepaymentForm" repayment_opt
  let loan_node := setIfStr loan_node "image" ctx.image_url (fun u =>
    JValue.obj
      [("@type", JValue.str "ImageObject"),
       ("@id", JValue.str (ctx.page_url ++ "#LoanImage")),
       ("url", JValue.str u)])
  let offer_price :=
    match price_spec with
    | some p =>
      if p.isEmpty then "0"
      else
        match jGet p "price" with
        | JValue.null => "0"
        | JValue.str s => if s = "" then "0" else s
        | v => pyStr v
    | none => "0"
  let price_valid_until := clock.plusDaysISO 365
  let offer := build_offer_node ctx.page_url offer_id
    [("name", JValue.str ctx.name),
     ("priceCurrency", JValue.str "ARS"),
     ("areaServed", JValue.str "AR"),
     ("availability", JValue.str "https://schema.org/InStock"),
     ("priceValidUntil", JValue.str price_valid_until),
     ("price", JValue.str offer_price)]
  let product := build_product_node ctx.page_url (ctx.page_url ++ "#Product") ctx.name
    ctx.image_url ctx.aggregate_rating ctx.description
    (some [("url", JValue.str ctx.page_url),
           ("offers", JValue.obj [("@id", JValue.str offer_id)])])
  let faq_page := build_faq_page ctx.page_url ctx.faqs (ctx.page_url ++ "#FAQPage") none
  let graph := [JValue.obj loan_node, JValue.obj offer, JValue.obj product]
  let graph := graph ++ faqSeg faq_page
  let graph := graph ++ [JValue.obj (build_webpage_node ctx none)]
  let gp1 := append_organization graph (resolve_organization (some []) "naranja_digital") []
  let gp2 := append_organization gp1.1 (resolve_organization (some []) "tarjeta_naranja") gp1.2
  gp2.1

/-- `build_bank_account_graph` (builders.py lines 513-598). -/
def build_bank_account_graph (ctx : SchemaContext) (bank_defaults : Option Obj)
    (clock : Clock) : List JValue :=
  let cfg := bank_defaults.getD []
  let price_currency := jGetD cfg "price_currency" (JValue.str "ARS")
  let valid_from := jGetD cfg "valid_from" (JValue.str clock.todayISO)
  let valid_through := jGetD cfg "valid_through" (JValue.str clock.nextYearEndISO)
  let area_served_place : Obj :=
    [("@type", JValue.str "Place"),
     ("name", JValue.str "Argentina"),
     ("address", JValue.obj
       [("@type", JValue.str "PostalAddress"), ("addressCountry", JValue.str "AR")])]
  let offer_id := ctx.page_url ++ "#Offer"
  let bank_account_offer_price :=
    match jGetD cfg "price" (JValue.str "0") with
    | JValue.null => JValue.str "0"
    | JValue.str s => if s = "" then JValue.str "0" else JValue.str s
    | v => v
  let bank_account : Obj :=
    [("@type", JValue.str "BankAccount"),
     ("@id", JValue.str (ctx.page_url ++ "#bankaccount")),
     ("name", JValue.str ctx.name),
     ("description", jOfOptStr ctx.description),
     ("areaServed", JValue.obj area_served_place),
     ("provider", JValue.obj (organization_reference_key "tarjeta_naranja")),
     ("offers", JValue.obj [("@id", JValue.str offer_id)])]
  let price_valid_until :=
    if jTruthy (jGet cfg "price_valid_until") then jGet cfg "price_valid_until"
    else if jTruthy valid_through then valid_through
    else JValue.str (clock.plusDaysISO 365)
  let offer := build_offer_node ctx.page_url offer_id
    [("priceCurrency", price_currency),
     ("availability", JValue.str "https://schema.org/InStock"),
     ("validFrom", valid_from),
     ("validThrough", valid_through),
     ("areaServed", JValue.obj area_served_place),
     ("eligibleRegion", JValue.str "AR"),
     ("seller", JValue.obj (organization_reference_key "tarjeta_naranja")),
     ("priceValidUntil", price_valid_until),
     ("price", bank_account_offer_price)]
  let product := build_product_node ctx.page_url (ctx.page_url ++ "#Product") ctx.name
    ctx.image_url ctx.aggregate_rating ctx.description
    (some [("url", JValue.str ctx.page_url),
           ("offers", JValue.obj [("@id", JValue.str offer_id)])])
  let faq_page := build_faq_page ctx.page_url ctx.faqs (ctx.page_url ++ "#faq")
    (some [("url", JValue.str ctx.page_url),
           ("name", JValue.str ("Preguntas frecuentes sobre " ++ ctx.name)),
           ("inLanguage", JValue.str DEFAULT_LANGUAGE)])
  let graph := [JValue.obj bank_account, JValue.obj offer, JValue.obj product]
  let graph := graph ++ faqSeg faq_page
  let graph := graph ++ [JValue.obj (build_webpage_node ctx none)]
  (append_organization graph (resolve_organization (some []) "tarjeta_naranja") []).1

/-- ASCII alphanumeric, the `[0-9A-Za-z]` class of the slug regexes. -/
def isAsciiAlnum (c : Char) : Bool :=
  ('0' ≤ c && c ≤ '9') || ('A' ≤ c && c ≤ 'Z') || ('a' ≤ c && c ≤ 'z')

/-- `re.sub(r"[^0-9A-Za-z]+", "-", ·)`: every maximal run of
non-alphanumeric characters becomes one hyphen. -/
def collapseNonAlnumAux (prev : Bool) : List Char → List Char
  | [] => []
  | c :: rest =>
    if isAsciiAlnum c then c :: collapseNonAlnumAux false rest
    else (if prev then [] else ['-']) ++ collapseNonAlnumAux true rest

/-- The identifier slug: `re.sub(r"[^0-9A-Za-z]+", "-", name).strip("-")`. -/
def slugify (s : String) : String :=
  ⟨(((collapseNonAlnumAux false s.data).dropWhile (fun c => c = '-')).reverse.dropWhile
      (fun c => c = '-')).reverse⟩

/-- Strip a trailing run of one character, `str.rstrip(ch)`. -/
def rstripChar (s : String) (c : Char) : String :=
  ⟨(s.data.reverse.dropWhile (fun x => x = c)).reverse⟩

/-- `pat` is an initial segment of the text. -/
def listStartsWith : List Char → List Char → Bool
  | [], _ => true
  | _ :: _, [] => false
  | p :: ps, c :: cs => p == c && listStartsWith ps cs

/-- `str.replace(old, new)`: non-overlapping occurrences, left to
right. Fueled by the text length, which bounds the steps; every
embedded call site passes a non-empty pattern. -/
def replaceSubFuel (pat rep : List Char) : Nat → List Char → List Char
  | _, [] => []
  | 0, l => l
  | Nat.succ fuel, c :: rest =>
    if listStartsWith pat (c :: rest) ∧ pat ≠ [] then
      rep ++ replaceSubFuel pat rep fuel ((c :: rest).drop pat.length)
    else c :: replaceSubFuel pat rep fuel rest

/-- `s.replace(pat, rep)` on strings. -/
def pyReplace (s pat rep : String) : String :=
  ⟨replaceSubFuel pat.data rep.data s.data.length s.data⟩

/-- `f"{value:.2f}"` for the embedded rationals: two decimals, rounded.
CPython rounds floats half-to-even; the static rate tables are exact at
two decimals, so no claim meets a rounding boundary. -/
def formatFix2 (q : Rat) : String :=
  let cents : Int := round (q * 100)
  let sign := if cents < 0 then "-" else ""
  let a := cents.natAbs
  sign ++ toString (a / 100) ++ "." ++ (if a % 100 < 10 then "0" else "") ++ toString (a % 100)

/-- The rate formatting loop of `build_financial_product_graph`
(builders.py lines 695-704): numbers via `.2f` with zero/dot stripping,
other values via `str`, a ` %` suffix when missing, and the parts
joined with commas. -/
def ratesText (rates : Obj) : String :=
  let rate_parts := rates.map (fun kv =>
    let formatted := match kv.2 with
      | JValue.num q => rstripChar (rstripChar (formatFix2 q) '0') '.'
      | v => pyStr v
    let formatted :=
      if formatted ≠ "" ∧ ¬ formatted.endsWith "%" then formatted ++ " %" else formatted
    pyStrip (kv.1 ++ " " ++ formatted))
  joinSep ", " (rate_parts.filter (fun p => p ≠ ""))

/-- `build_payment_service_graph` (builders.py lines 601-673). The
`price_spec` keyword the source accepts is unused in its body. -/
def build_payment_service_graph (ctx : SchemaContext)
    (payment_service_defaults : Option Obj) (clock : Clock) : List JValue :=
  let cfg := deepMerge PAYMENT_SERVICE_DEFAULTS (payment_service_defaults.getD [])
  let area_served := jGetD cfg "area_served"
    (JValue.obj [("@type", JValue.str "Country"), ("name", JValue.str "Argentina")])
  let provider_arg : Option Obj :=
    match getField? cfg "provider" with
    | some (JValue.obj o) => some o
    | _ => none
  let provider := resolve_organization provider_arg "naranja_x"
  let service_node : Obj :=
    [("@type", JValue.str "PaymentService"),
     ("@id", JValue.str (ctx.page_url ++ "#PaymentService")),
     ("name", JValue.str ctx.name),
     ("description", jOfOptStr ctx.description),
     ("areaServed", area_served),
     ("provider", JValue.obj (organization_reference_obj provider)),
     ("offers", JValue.obj [("@id", JValue.str (ctx.page_url ++ "#Offer"))])]
  let service_node := setIfStr service_node "image" ctx.image_url (fun u => JValue.str u)
  let ocfg := asObjD (jGetD cfg "offer" (JValue.obj []))
  let valid_from := jGetD ocfg "valid_from" (JValue.str clock.todayISO)
  let valid_through := jGetD ocfg "valid_through" (JValue.str clock.nextYearEndISO)
  let availability_starts := jGetD ocfg "availability_starts" valid_from
  let price_valid_until :=
    if jTruthy (jGet ocfg "price_valid_until") then jGet ocfg "price_valid_until"
    else JValue.str (clock.plusDaysISO 365)
  let offer_price :=
    let p := jGetD ocfg "price" (JValue.str "0")
    if jTruthy p then p else JValue.str "0"
  let offer := build_offer_node ctx.page_url (ctx.page_url ++ "#Offer")
    [("priceCurrency", jGetD ocfg "price_currency" (JValue.str "ARS")),
     ("areaServed", area_served),
     ("validFrom", valid_from),
     ("validThrough", valid_through),
     ("availabilityStarts", availability_starts),
     ("eligibleRegion", jGetD ocfg "eligible_region" (JValue.str "AR")),
     ("priceValidUntil", price_valid_until),
     ("price", offer_price)]
  let brand_ref := setField (organization_reference_obj provider) "@type"
    (JValue.str "Organization")
  let product := build_product_node ctx.page_url (ctx.page_url ++ "#Product") ctx.name
    ctx.image_url ctx.aggregate_rating ctx.description
    (some [("url", JValue.str ctx.page_url),
           ("brand", JValue.obj brand_ref),
           ("offers", JValue.obj [("@id", JValue.str (ctx.page_url ++ "#Offer"))])])
  let faq_page := build_faq_page ctx.page_url ctx.faqs (ctx.page_url ++ "#FAQPage") none
  let graph := [JValue.obj service_node, JValue.obj offer, JValue.obj product]
  let graph := graph ++ faqSeg faq_page
  let graph := graph ++ [JValue.obj (build_webpage_node ctx none)]
  (append_organization graph provider []).1

/-- `build_financial_product_graph` (builders.py lines 676-801). -/
def build_financial_product_graph (ctx : SchemaContext)
    (financial_product_defaults : Option Obj) (clock : Clock) : List JValue :=
  let defaults := FINANCIAL_PRODUCT_DEFAULTS
  let overrides := financial_product_defaults.getD []
  let area_served := jGetD overrides "area_served" (jGetD defaults "area_served" (JValue.str "AR"))
  let provider_defaults := asObjD (jGetD defaults "provider" (JValue.obj []))
  let provider_overrides := asObjD (jGetD overrides "provider" (JValue.obj []))
  let provider_cfg := deepMerge provider_defaults provider_overrides
  let provider := resolve_organization (some provider_cfg)
    (asStrD (jGetD provider_defaults "org_key" (JValue.str "tarjeta_naranja")) "tarjeta_naranja")
  let rates := asObjD (jGetD overrides "rates" (JValue.obj FINANCIAL_PRODUCT_ZERO_RATES))
  let rates_text := ratesText rates
  let offer_defaults := asObjD (jGetD defaults "offer" (JValue.obj []))
  let offer_overrides := asObjD (jGetD overrides "offer" (JValue.obj []))
  let valid_from :=
    if jTruthy (jGet offer_overrides "valid_from") then jGet offer_overrides "valid_from"
    else JValue.str (clock.plusDaysISO (asRatD (jGetD offer_defaults "valid_from_offset" (JValue.num 0)) 0))
  let valid_through :=
    if jTruthy (jGet offer_overrides "valid_through") then jGet offer_overrides "valid_through"
    else JValue.str (clock.plusDaysISO (asRatD (jGetD offer_defaults "valid_through_offset" (JValue.num 30)) 30))
  let price_currency := jGetD offer_overrides "price_currency"
    (jGetD offer_defaults "price_currency" (JValue.str "ARS"))
  let billing_increment := jGetD offer_overrides "billing_increment"
    (jGetD offer_defaults "billing_increment" (JValue.str "1"))
  let min_price := jGetD offer_overrides "min_price"
    (jGetD offer_defaults "min_price" (JValue.str "0"))
  let offer_area_served := jGetD offer_overrides "area_served"
    (jGetD offer_defaults "area_served" area_served)
  let description_template := jGetD offer_overrides "description_template"
    (jGetD offer_defaults "description_template"
      (JValue.str "Características financieras: {rates_text}."))
  let offer_description :=
    if jTruthy (jGet offer_overrides "description") then jGet offer_overrides "description"
    else JValue.str
      (pyReplace (asStrD description_template "") "{rates_text}" rates_text)
  let identifier :=
    let idv := jGetD overrides "identifier" (jGetD defaults "identifier" JValue.null)
    if jTruthy idv then idv
    else
      let slug := slugify ctx.name
      if slug ≠ "" then JValue.str slug else JValue.null
  let product_defaults := asObjD (jGetD defaults "product" (JValue.obj []))
  let product_overrides := asObjD (jGetD overrides "product" (JValue.obj []))
  let product_id_suffix := jGetD product_overrides "id_suffix"
    (jGetD product_defaults "id_suffix" (JValue.str "#Product"))
  let product_id :=
    if jTruthy (jGet product_overrides "id") then pyStr (jGet product_overrides "id")
    else ctx.page_url ++ pyStr product_id_suffix
  let product_name_value := asStrD
    (jGetD product_overrides "name" (jGetD product_defaults "name" (JValue.str ctx.name)))
    ctx.name
  let faq_id_suffix := jGetD overrides "faq_id_suffix"
    (jGetD defaults "faq_id_suffix" (JValue.str "#FAQPage"))
  let faq_id := ctx.page_url ++ pyStr faq_id_suffix
  let offer_id := ctx.page_url ++ "#Offer"
  let financial_product : Obj :=
    [("@type", JValue.str "FinancialProduct"),
     ("@id", JValue.str (ctx.page_url ++ "#FinancialProduct")),
     ("name", JValue.str ctx.name),
     ("description", jOfOptStr ctx.description),
     ("areaServed", area_served),
     ("provider", JValue.obj (organization_reference_obj provider)),
     ("offers", JValue.obj [("@id", JValue.str offer_id)])]
  let financial_product := setIfStr financial_product "image" ctx.image_url
    (fun u => JValue.str u)
  let financial_product := setIfTruthy financial_product "identifier" identifier
  let graph := [JValue.obj financial_product]
  let gp := append_organization graph provider []
  let graph := gp.1
  let price_valid_until := clock.plusDaysISO 365
  let offer := build_offer_node ctx.page_url offer_id
    [("priceCurrency", price_currency),
     ("areaServed", offer_area_served),
     ("validFrom", valid_from),
     ("validThrough", valid_through),
     ("itemOffered", JValue.obj [("@id", JValue.str product_id)]),
     ("priceValidUntil", JValue.str price_valid_until),
     ("price", min_price),
     ("priceSpecification", JValue.obj
       [("@type", JValue.str "UnitPriceSpecification"),
        ("billingIncrement", billing_increment),
        ("price", min_price),
        ("priceCurrency", price_currency),
        ("description", offer_description)])]
  let product := build_product_node ctx.page_url product_id product_name_value
    ctx.image_url ctx.aggregate_rating ctx.description
    (some [("url", JValue.str ctx.page_url),
           ("offers", JValue.obj [("@id", JValue.str offer_id)])])
  let faq_page := build_faq_page ctx.page_url ctx.faqs faq_id none
  let graph := graph ++ [JValue.obj offer, JValue.obj product]
  let graph := graph ++ faqSeg faq_page
  graph ++ [JValue.obj (build_webpage_node ctx none)]

/-- `build_investment_or_deposit_graph` (builders.py lines 804-955).
Its Offer data (lines 921-934) carries no `price` key. -/
def build_investment_or_deposit_graph (ctx : SchemaContext)
    (investment_defaults : Option Obj) (clock : Clock) : List JValue :=
  let defaults := INVESTMENT_OR_DEPOSIT_DEFAULTS
  let overrides := investment_defaults.getD []
  let area_served := jGetD overrides "area_served" (jGetD defaults "area_served" (JValue.str "AR"))
  let base_globals := asObjD (jGetD defaults "globals" (JValue.obj []))
  let override_globals := asObjD (jGetD overrides "globals" (JValue.obj []))
  let combined_globals := updateFields base_globals override_globals
  let provider_defaults := asObjD (jGetD defaults "provider" (JValue.obj []))
  let provider_overrides := asObjD (jGetD overrides "provider" (JValue.obj []))
  let provider_cfg := deepMerge provider_defaults provider_overrides
  let provider := resolve_organization (some provider_cfg)
    (asStrD (jGetD provider_defaults "org_key" (JValue.str "naranja_x")) "naranja_x")
  let investment_defaults_cfg := asObjD (jGetD defaults "investment" (JValue.obj []))
  let investment_overrides := asObjD (jGetD overrides "investment" (JValue.obj []))
  let investment_types := jGetD investment_overrides "types"
    (jGetD investment_defaults_cfg "types" (JValue.arr [JValue.str "InvestmentOrDeposit"]))
  let investment_types := match investment_types with
    | JValue.str s => JValue.arr [JValue.str s]
    | v => v
  let investment_id_suffix := jGetD investment_overrides "id_suffix"
    (jGetD investment_defaults_cfg "id_suffix" (JValue.str "#investment"))
  let investment_id :=
    if jTruthy (jGet investment_overrides "id") then pyStr (jGet investment_overrides "id")
    else ctx.page_url ++ pyStr investment_id_suffix
  let investment_alternate_name := jGetD investment_overrides "alternate_name"
    (jGetD investment_defaults_cfg "alternate_name" JValue.null)
  let investment_service_type := jGetD investment_overrides "service_type"
    (jGetD investment_defaults_cfg "service_type" JValue.null)
  let investment_audience := jGetD investment_overrides "audience"
    (jGetD investment_defaults_cfg "audience" JValue.null)
  let investment_identifier := jGetD overrides "identifier"
    (jGetD investment_overrides "identifier" JValue.null)
  let investment_identifier :=
    if jTruthy investment_identifier then investment_identifier
    else
      let slug := slugify ctx.name
      if slug ≠ "" then JValue.str slug else JValue.null
  let interest_rate_defaults := asObjD (jGetD investment_defaults_cfg "interest_rate" (JValue.obj []))
  let interest_rate_overrides := asObjD (jGetD investment_overrides "interest_rate" (JValue.obj []))
  let interest_rate_type := jGetD interest_rate_overrides "type"
    (jGetD interest_rate_defaults "type" (JValue.str "QuantitativeValue"))
  let interest_rate_unit := jGetD interest_rate_overrides "unit_text"
    (jGetD interest_rate_defaults "unit_text" (JValue.str "TNA"))
  let default_rate_value := jGetD interest_rate_defaults "value"
    (jGetD combined_globals "interest_rate" (JValue.str ""))
  let interest_rate_value := jGetD interest_rate_overrides "value" default_rate_value
  let offer_defaults_cfg := asObjD (jGetD defaults "offer" (JValue.obj []))
  let offer_overrides := asObjD (jGetD overrides "offer" (JValue.obj []))
  let offer_id_suffix := jGetD offer_overrides "id_suffix"
    (jGetD offer_defaults_cfg "id_suffix" (JValue.str "#offer"))
  let offer_id :=
    if jTruthy (jGet offer_overrides "id") then pyStr (jGet offer_overrides "id")
    else ctx.page_url ++ pyStr offer_id_suffix
  let offer_price_currency := jGetD offer_overrides "price_currency"
    (jGetD offer_defaults_cfg "price_currency" (JValue.str "ARS"))
  let offer_area_served := jGetD offer_overrides "area_served"
    (jGetD offer_defaults_cfg "area_served" area_served)
  let offer_eligible_region := jGetD offer_overrides "eligible_region"
    (jGetD offer_defaults_cfg "eligible_region" area_served)
  let offer_availability := jGetD offer_overrides "availability"
    (jGetD offer_defaults_cfg "availability" (JValue.str "https://schema.org/InStock"))
  let valid_from :=
    if jTruthy (jGet offer_overrides "valid_from") then jGet offer_overrides "valid_from"
    else JValue.str (clock.plusDaysISO (asRatD (jGetD offer_defaults_cfg "valid_from_offset" (JValue.num 0)) 0))
  let valid_through :=
    if jTruthy (jGet offer_overrides "valid_through") then jGet offer_overrides "valid_through"
    else JValue.str (clock.plusDaysISO (asRatD (jGetD offer_defaults_cfg "valid_through_offset" (JValue.num 0)) 0))
  let offer_name := jGetD offer_overrides "name"
    (if ctx.name ≠ "" then JValue.str ctx.name
     else jGetD investment_overrides "name" (JValue.str ctx.name))
  let offer_duration :=
    let d := jGetD offer_overrides "eligible_duration"
      (jGetD combined_globals "duration" (JValue.str ""))
    if jTruthy d then d else JValue.str ""
  let product_defaults_cfg := asObjD (jGetD defaults "product" (JValue.obj []))
  let product_overrides := asObjD (jGetD overrides "product" (JValue.obj []))
  let product_id_suffix := jGetD product_overrides "id_suffix"
    (jGetD product_defaults_cfg "id_suffix" (JValue.str "#product"))
  let product_id :=
    if jTruthy (jGet product_overrides "id") then pyStr (jGet product_overrides "id")
    else ctx.page_url ++ pyStr product_id_suffix
  let faq_id_suffix := jGetD overrides "faq_id_suffix"
    (jGetD defaults "faq_id_suffix" (JValue.str "#FAQPage"))
  let faq_id := ctx.page_url ++ pyStr faq_id_suffix
  let interest_rate_node : Obj :=
    [("@type", interest_rate_type), ("unitText", interest_rate_unit)]
  let interest_rate_node :=
    match interest_rate_value with
    | JValue.null => interest_rate_node
    | JValue.str s =>
      if s = "" then interest_rate_node
      else setField interest_rate_node "value" (JValue.str s)
    | v => setField interest_rate_node "value" v
  let investment_node : Obj :=
    [("@type", investment_types),
     ("@id", JValue.str investment_id),
     ("name", JValue.str ctx.name),
     ("description", jOfOptStr ctx.description),
     ("areaServed", area_served),
     ("mainEntityOfPage", JValue.str ctx.page_url),
     ("provider", JValue.obj provider),
     ("offers", JValue.obj [("@id", JValue.str offer_id)]),
     ("interestRate", JValue.obj interest_rate_node)]
  let investment_node := setIfTruthy investment_node "alternateName" investment_alternate_name
  let investment_node := setIfTruthy investment_node "serviceType" investment_service_type
  let investment_node := setIfTruthy investment_node "audience" investment_audience
  let investment_node := setIfStr investment_node "image" ctx.image_url (fun u => JValue.str u)
  let investment_node := setIfTruthy investment_node "identifier" investment_identifier
  let graph := [JValue.obj investment_node]
  let gp := append_organization graph provider []
  let graph := gp.1
  let price_valid_until := clock.plusDaysISO 365
  let offer := build_offer_node ctx.page_url offer_id
    [("name", offer_name),
     ("priceCurrency", offer_price_currency),
     ("areaServed", offer_area_served),
     ("eligibleRegion", offer_eligible_region),
     ("availability", offer_availability),
     ("validFrom", valid_from),
     ("validThrough", valid_through),
     ("priceValidUntil", JValue.str price_valid_until),
     ("eligibleDuration", offer_duration)]
  let product := build_product_node ctx.page_url product_id ctx.name
    ctx.image_url ctx.aggregate_rating ctx.description
    (some [("url", JValue.str ctx.page_url),
           ("offers", JValue.obj [("@id", JValue.str offer_id)])])
  let faq_page := build_faq_page ctx.page_url ctx.faqs faq_id none
  let graph := graph ++ [JValue.obj offer, JValue.obj product]
  let graph := graph ++ faqSeg faq_page
  graph ++ [JValue.obj (build_webpage_node ctx none)]

/-- `build_insurance_agency_graph` (builders.py lines 958-1066). The
closing `append_organization` call resolves an organization whose `@id`
is overridden to the agency node's own `@id`. -/
def build_insurance_agency_graph (ctx : SchemaContext)
    (insurance_defaults : Option Obj) (clock : Clock) : List JValue :=
  let defaults := INSURANCE_AGENCY_DEFAULTS
  let overrides := insurance_defaults.getD []
  let agency_base := asObjD (jGetD defaults "agency" (JValue.obj []))
  let agency_overrides := asObjD (jGetD overrides "agency" (JValue.obj []))
  let agency_identifier := updateFields
    (asObjD (jGetD agency_base "identifier" (JValue.obj [])))
    (asObjD (jGetD agency_overrides "identifier" (JValue.obj [])))
  let agency_identifier : Option Obj :=
    if jTruthy (jGet agency_identifier "propertyID") ∧ jTruthy (jGet agency_identifier "value")
    then some agency_identifier else none
  let agency_logo := updateFields
    (asObjD (jGetD agency_base "logo" (JValue.obj [])))
    (asObjD (jGetD agency_overrides "logo" (JValue.obj [])))
  let agency_logo :=
    match ctx.image_url with
    | some u =>
      if ¬ jTruthy (jGet agency_logo "url") ∧ u ≠ "" then
        setField agency_logo "url" (JValue.str u)
      else agency_logo
    | none => agency_logo
  let agency_same_as := jGetD agency_overrides "same_as"
    (jGetD agency_base "same_as" (JValue.arr []))
  let agency_same_as := match agency_same_as with
    | JValue.str s => JValue.arr [JValue.str s]
    | v => v
  let area_served := jGetD overrides "area_served"
    (jGetD agency_base "area_served" (JValue.str "AR"))
  let addresses := jGetD overrides "addresses" (jGetD agency_base "addresses" JValue.null)
  let agency_id_suffix := jGetD agency_overrides "id_suffix"
    (jGetD agency_base "id_suffix" (JValue.str "#insurance-agency"))
  let agency_id :=
    if jTruthy (jGet agency_overrides "id") then pyStr (jGet agency_overrides "id")
    else ctx.page_url ++ pyStr agency_id_suffix
  let agency_node : Obj :=
    [("@type", JValue.str "InsuranceAgency"),
     ("@id", JValue.str agency_id),
     ("name", JValue.str ctx.name),
     ("description", jOfOptStr ctx.description),
     ("areaServed", area_served),
     ("url", JValue.str ctx.page_url)]
  let agency_node := setIfSome agency_node "identifier"
    (agency_identifier.map JValue.obj)
  let agency_node := setIfObj agency_node "logo" (some agency_logo)
  let agency_node := setIfTruthy agency_node "address" addresses
  let agency_node := setIfTruthy agency_node "sameAs" agency_same_as
  let offer_defaults := asObjD (jGetD defaults "offer" (JValue.obj []))
  let offer_overrides := asObjD (jGetD overrides "offer" (JValue.obj []))
  let offer_id_suffix := jGetD offer_overrides "id_suffix"
    (jGetD offer_defaults "id_suffix" (JValue.str "#offer"))
  let offer_id :=
    if jTruthy (jGet offer_overrides "id") then pyStr (jGet offer_overrides "id")
    else ctx.page_url ++ pyStr offer_id_suffix
  let offer_name := jGetD offer_overrides "name"
    (jGetD offer_defaults "name" (JValue.str ctx.name))
  let offer_price_currency := jGetD offer_overrides "price_currency"
    (jGetD offer_defaults "price_currency" (JValue.str "ARS"))
  let offer_availability := jGetD offer_overrides "availability"
    (jGetD offer_defaults "availability" (JValue.str "https://schema.org/InStock"))
  let offer_area_served := jGetD offer_overrides "area_served"
    (jGetD offer_defaults "area_served" (JValue.str "AR"))
  let offer_eligible_region := jGetD offer_overrides "eligible_region"
    (jGetD offer_defaults "eligible_region" (JValue.str "AR"))
  let offer_price :=
    let p := jGetD offer_overrides "price" (jGetD offer_defaults "price" (JValue.str "0"))
    if jTruthy p then p else JValue.str "0"
  let price_valid_until :=
    if jTruthy (jGet offer_overrides "price_valid_until") then
      jGet offer_overrides "price_valid_until"
    else JValue.str (clock.plusDaysISO 365)
  let offer := build_offer_node ctx.page_url offer_id
    [("name", offer_name),
     ("priceCurrency", offer_price_currency),
     ("availability", offer_availability),
     ("areaServed", offer_area_served),
     ("eligibleRegion", offer_eligible_region),
     ("priceValidUntil", price_valid_until),
     ("price", offer_price)]
  let product_defaults := asObjD (jGetD defaults "product" (JValue.obj []))
  let product_overrides := asObjD (jGetD overrides "product" (JValue.obj []))
  let product_id_suffix := jGetD product_overrides "id_suffix"
    (jGetD product_defaults "id_suffix" (JValue.str "#producto"))
  let product_id :=
    if jTruthy (jGet product_overrides "id") then pyStr (jGet product_overrides "id")
    else ctx.page_url ++ pyStr product_id_suffix
  let product := build_product_node ctx.page_url product_id ctx.name
    ctx.image_url ctx.aggregate_rating ctx.description
    (some [("url", JValue.str ctx.page_url),
           ("offers", JValue.obj [("@id", JValue.str offer_id)])])
  let product_category := jGetD product_overrides "category"
    (jGetD product_defaults "category" JValue.null)
  let product := setIfTruthy product "category" product_category
  let faq_page := build_faq_page ctx.page_url ctx.faqs (ctx.page_url ++ "#FAQPage") none
  let graph := [JValue.obj agency_node, JValue.obj offer, JValue.obj product]
  let graph := graph ++ faqSeg faq_page
  let graph := graph ++ [JValue.obj (build_webpage_node ctx none)]
  (append_organization graph
    (resolve_organization (some [("@id", JValue.str agency_id)]) "naranja_x") []).1

/-- Python `\w` word characters as counted by the blog builder's
`re.findall(r"\w+", body)`. ASCII alphanumerics and the underscore are
exact; other non-ASCII code points are approximated as word characters
(no claim evaluates a word count over non-ASCII text). -/
def isPyWordChar (c : Char) : Bool :=
  isAsciiAlnum c || c = '_' || (127 < c.toNat && !isPyWs c)

/-- `len(re.findall(r"\w+", ·))`: the number of maximal word-character
runs. -/
def countWordRuns (l : List Char) : Nat :=
  (l.foldl
    (fun (acc : Nat × Bool) c =>
      if isPyWordChar c then (if acc.2 then acc else (acc.1 + 1, true))
      else (acc.1, false))
    (0, false)).1

/-- `build_blog_posting_graph` (builders.py lines 163-240). -/
def build_blog_posting_graph (ctx : SchemaContext) (blog_defaults : Option Obj)
    (clock : Clock) : List JValue :=
  let cfg := blog_defaults.getD []
  let author_cfg := if jTruthy (jGet cfg "author") then asObjD (jGet cfg "author") else []
  let publisher_cfg := if jTruthy (jGet cfg "publisher") then asObjD (jGet cfg "publisher") else []
  let author_org := resolve_organization (some author_cfg) "naranja_x"
  let publisher_org := resolve_organization (some publisher_cfg) "naranja_x"
  let editor_names :=
    if jTruthy (jGet cfg "editors") then jGet cfg "editors"
    else JValue.arr [JValue.str "Natalí Ciappini", JValue.str "Francisco Piccini"]
  let editors := (asArrD editor_names).filterMap (fun nm =>
    if jTruthy nm then
      some (JValue.obj [("@type", JValue.str "Person"), ("name", nm)])
    else none)
  let article_body := ctx.body_text.getD ""
  let word_count : Option Nat :=
    if article_body ≠ "" then some (countWordRuns article_body.data) else none
  let author_ref := setField (organization_reference_obj author_org) "@type"
    (JValue.str "Organization")
  let publisher_ref := setField (organization_reference_obj publisher_org) "@type"
    (JValue.str "Organization")
  let blog_posting : Obj :=
    [("@type", JValue.str "BlogPosting"),
     ("@id", JValue.str (ctx.page_url ++ "#BlogPosting")),
     ("url", JValue.str ctx.page_url),
     ("headline", jGetD cfg "headline" (JValue.str ctx.name)),
     ("description", jGetD cfg "description" (jOfOptStr ctx.description)),
     ("mainEntityOfPage", JValue.obj
       [("@type", JValue.str "WebPage"),
        ("@id", JValue.str (ctx.page_url ++ "#WebPage"))]),
     ("author", JValue.obj author_ref),
     ("publisher", JValue.obj publisher_ref),
     ("inLanguage", jGetD cfg "in_language" (JValue.str DEFAULT_LANGUAGE))]
  let blog_posting :=
    if editors.isEmpty then blog_posting
    else setField blog_posting "editor" (JValue.arr editors)
  let blog_posting := setIfStr blog_posting "image" ctx.image_url
    (fun u => JValue.arr [JValue.str u])
  let blog_posting :=
    if article_body ≠ "" then setField blog_posting "articleBody" (JValue.str article_body)
    else blog_posting
  let blog_posting := setIfSome blog_posting "wordCount"
    (word_count.bind (fun n => if n = 0 then none else some (JValue.num n)))
  let date_published :=
    if jTruthy (jGet cfg "date_published") then jGet cfg "date_published"
    else jGet cfg "datePublished"
  let blog_posting :=
    if jTruthy date_published then setField blog_posting "datePublished" date_published
    else blog_posting
  let date_modified :=
    if jTruthy (jGet cfg "date_modified") then jGet cfg "date_modified"
    else jGet cfg "dateModified"
  let blog_posting :=
    if jTruthy date_modified then setField blog_posting "dateModified" date_modified
    else blog_posting
  let article_section :=
    if jTruthy (jGet cfg "article_section") then jGet cfg "article_section"
    else jGet cfg "articleSection"
  let blog_posting :=
    if jTruthy article_section then setField blog_posting "articleSection" article_section
    else blog_posting
  let keywords := jGet cfg "keywords"
  let blog_posting :=
    if jTruthy keywords then setField blog_posting "keywords" keywords else blog_posting
  let extra_fields := if jTruthy (jGet cfg "extra") then asObjD (jGet cfg "extra") else []
  let blog_posting :=
    if extra_fields.isEmpty then blog_posting else updateFields blog_posting extra_fields
  let webpage_overrides : Obj :=
    [("publisher", JValue.obj publisher_ref),
     ("inLanguage", jGetD cfg "in_language" (JValue.str DEFAULT_LANGUAGE))]
  let graph := [JValue.obj blog_posting,
    JValue.obj (build_webpage_node ctx (some webpage_overrides))]
  let gp1 := append_organization graph author_org []
  let gp2 := append_organization gp1.1 publisher_org gp1.2
  gp2.1

/-!
### Builder dispatch (service/workflow.py)
-/

/-- The keyword-argument bag `build_schema_from_url` forwards to every
builder; each builder reads its own arguments (the Python `**_` ignores
the rest). -/
structure BuilderArgs where
  price_spec : Option Obj := none
  bank_defaults : Option Obj := none
  payment_service_defaults : Option Obj := none
  insurance_defaults : Option Obj := none
  loan_defaults : Option Obj := none
  financial_product_defaults : Option Obj := none
  investment_defaults : Option Obj := none
  blog_defaults : Option Obj := none

/-- The uniform builder signature of the registry. -/
def BuilderFn := SchemaContext → BuilderArgs → Clock → List JValue

/-- `SCHEMA_BUILDERS` (builders.py lines 1069-1078): the fixed registry
of the eight schema types, in source order. -/
def SCHEMA_BUILDERS : List (String × BuilderFn) :=
  [("payment_card", fun ctx _ clock => build_payment_card_graph ctx clock),
   ("loan_or_credit", fun ctx args clock =>
     build_loan_or_credit_graph ctx args.price_spec args.loan_defaults clock),
   ("bank_account", fun ctx args clock =>
     build_bank_account_graph ctx args.bank_defaults clock),
   ("payment_service", fun ctx args clock =>
     build_payment_service_graph ctx args.payment_service_defaults clock),
   ("investment_or_deposit", fun ctx args clock =>
     build_investment_or_deposit_graph ctx args.investment_defaults clock),
   ("insurance_agency", fun ctx args clock =>
     build_insurance_agency_graph ctx args.insurance_defaults clock),
   ("financial_product", fun ctx args clock =>
     build_financial_product_graph ctx args.financial_product_defaults clock),
   ("blog_posting", fun ctx args clock =>
     build_blog_posting_graph ctx args.blog_defaults clock)]

/-- `SCHEMA_BUILDERS.get(key)`. -/
def lookupBuilder (k : String) : Option BuilderFn :=
  (SCHEMA_BUILDERS.find? (fun kv => kv.1 = k)).map Prod.snd

/-- `re.sub(r"(?<!^)(?=[A-Z])", "_", s)`: an underscore before every
capital letter that is not the first character. -/
def insertCamelUnderscores : List Char → List Char
  | [] => []
  | c :: rest => c :: rest.flatMap (fun d => if 'A' ≤ d ∧ d ≤ 'Z' then ['_', d] else [d])

/-- `str.lower()` restricted to ASCII, as the registry keys exercise. -/
def pyLowerChar (c : Char) : Char :=
  if 'A' ≤ c ∧ c ≤ 'Z' then Char.ofNat (c.toNat + 32) else c

/-- `_schema_type_key` (workflow.py lines 23-24):
`re.sub(r"(?<!^)(?=[A-Z])", "_", s).lower().replace("-", "_").strip()`. -/
def _schema_type_key (s : String) : String :=
  pyStrip ⟨((insertCamelUnderscores s.data).map pyLowerChar).map
    (fun c => if c = '-' then '_' else c)⟩

/-- Lines 72-75 of workflow.py: when the caller passes no
`aggregate_rating`, the built-in `DEFAULT_AGG_RATING` block is used;
the block is copied and given an `@type` default, and an empty dict
degrades to `None`. -/
def resolveAggRating (aggregate_rating : Option Obj) : Option Obj :=
  let agg_source := match aggregate_rating with
    | some a => a
    | none => DEFAULT_AGG_RATING
  if agg_source.isEmpty then none
  else some (setdefault agg_source "@type" (JValue.str "AggregateRating"))

/-- The dispatch slice of `build_schema_from_url` (workflow.py lines
77-102): an unknown normalized schema-type key raises before any
builder runs and no graph is produced; a known key returns the selected
builder's graph. Fetching, extraction and the optional offer-catalog
attachment sit outside the dispatched claims. -/
def buildGraphForType (schema_type : String) (ctx : SchemaContext)
    (args : BuilderArgs) (clock : Clock) : Except String (List JValue) :=
  match lookupBuilder (_schema_type_key schema_type) with
  | none => Except.error ("schema_type desconocido: " ++ schema_type)
  | some b => Except.ok (b ctx args clock)

/-!
### Concrete evaluation fixtures
-/

/-- A concrete clock for evaluating the builders on fixed dates. -/
def fixedClock : Clock :=
  { todayISO := "2026-10-12",
    nextYearEndISO := "2027-12-31",
    plusDaysISO := fun _ => "2027-10-12" }

/-- A concrete request context with the workflow's default aggregate
rating resolved in. -/
def fixedCtx : SchemaContext :=
  { page_url := "https://example.com/p",
    name := "Prod",
    description := some "Desc",
    image_url := none,
    faqs := [],
    body_text := none,
    aggregate_rating := resolveAggRating none }

/-- The fixed context with one well-formed FAQ pair. -/
def faqCtx : SchemaContext :=
  { page_url := "https://example.com/p",
    name := "Prod",
    description := some "Desc",
    image_url := none,
    faqs := [{ question := "Q?", answer := "A" }],
    body_text := none,
    aggregate_rating := resolveAggRating none }

/-- An accordion item whose heading is pure whitespace but whose body
carries text. -/
def blankQuestionLi : AccordionLi :=
  { questionText := some "   ",
    body := some { paragraphs := ["Hello"], lists := [], raw := "" } }

/-- A page holding only the blank-question accordion item. -/
def blankQuestionPage : FaqPage :=
  { accordionRoots := [[blankQuestionLi]], fallbackNodes := [] }

/-- A page whose only FAQ source is one well-formed fallback pair. -/
def helloPage : FaqPage :=
  { accordionRoots := [],
    fallbackNodes := [{ text := "Q?", siblingText := some "A" }] }

/-- A loan override whose merged `loan_term` carries a unit text and no
numeric value. -/
def unitOnlyLoanDefaults : Obj :=
  [("loan_term", JValue.obj [("maxValue", JValue.null)])]

/-!
### Identifier bookkeeping for the graph claims

Every `@id` a builder emits is either a suffix appended to the page url
or an absolute constant; `tagVal` interprets such a tag, and
`tagCompatAll` is a decidable sufficient condition for the interpreted
identifiers to be pairwise distinct for every page url.
-/

/-- Interpret an identifier tag: a suffix of the page url, or an
absolute constant. -/
def tagVal (pu : String) : Bool × String → String
  | (true, s) => pu ++ s
  | (false, c) => c

/-- Two tags that interpret to distinct identifiers for every page
url: distinct suffixes, distinct constants, or a suffix no constant
ends with. -/
def tagCompat : Bool × String → Bool × String → Bool
  | (true, a), (true, b) => a ≠ b
  | (true, a), (false, c) => ¬ (a.data <:+ c.data)
  | (false, c), (true, a) => ¬ (a.data <:+ c.data)
  | (false, c), (false, d) => c ≠ d

/-- Pairwise `tagCompat` over a tag list. -/
def tagCompatAll : List (Bool × String) → Bool
  | [] => true
  | x :: rest => rest.all (tagCompat x) && tagCompatAll rest

/-- The validity notion of `_faq_entities`: both components non-empty
after trimming. -/
def validFaqPair (f : Faq) : Bool :=
  ¬(pyStrip f.question = "" ∨ pyStrip f.answer = "")

/-- The per-node facts the graph claims track: a `FAQPage`-typed node
carries the context's FAQ entities and exists only when there is at
least one; an `Offer`-typed node carries the given `price` field value;
a `Product`-typed node carries the context's aggregate rating. -/
def NodeFacts (ctx : SchemaContext) (price : Option JValue) (x : JValue) : Prop :=
  (typeOf x = some "FAQPage" →
    ∃ fs, x = JValue.obj fs
      ∧ getField? fs "mainEntity" = some (JValue.arr (_faq_entities ctx.faqs))
      ∧ _faq_entities ctx.faqs ≠ [])
  ∧ (typeOf x = some "Offer" →
    ∃ fs, x = JValue.obj fs ∧ getField? fs "price" = price)
  ∧ (typeOf x = some "Product" →
    ∀ r : Obj, ctx.aggregate_rating = some r → r ≠ [] →
      ∃ fs, x = JValue.obj fs ∧ getField? fs "aggregateRating" = some (JValue.obj r))

/-- `NodeFacts` over a whole graph. -/
def GraphFacts (ctx : SchemaContext) (price : Option JValue) (graph : List JValue) : Prop :=
  ∀ x ∈ graph, NodeFacts ctx price x

/-! ## Helper lemmas about the embedding -/

section FieldLemmas

theorem getField?_setField_self (fields : Obj) (k : String) (v : JValue) :
    getField? (setField fields k v) k = some v := by
  induction fields with
  | nil => simp [setField, getField?]
  | cons kv rest ih =>
    obtain ⟨k', v'⟩ := kv
    by_cases h : k' = k
    · simp [setField, getField?, h]
    · simp [setField, getField?, h, ih]

theorem getField?_setField_ne (fields : Obj) (k k' : String) (v : JValue)
    (h : k' ≠ k) : getField? (setField fields k v) k' = getField? fields k' := by
  induction fields with
  | nil => simp [setField, getField?, Ne.symm h]
  | cons kv rest ih =>
    obtain ⟨k0, v0⟩ := kv
    by_cases h0 : k0 = k
    · subst h0
      simp [setField, getField?, Ne.symm h]
    · by_cases h1 : k0 = k'
      · simp [setField, getField?, h0, h1, h]
      · simp [setField, getField?, h0, h1, ih]

theorem getField?_updateFields_not_mem (data node : Obj) (k : String)
    (h : ∀ p ∈ data, p.1 ≠ k) :
    getField? (updateFields node data) k = getField? node k := by
  induction data generalizing node with
  | nil => rfl
  | cons kv rest ih =>
    have hk : kv.1 ≠ k := h kv (List.mem_cons_self _ _)
    have hrest : ∀ p ∈ rest, p.1 ≠ k := fun p hp => h p (List.mem_cons_of_mem _ hp)
    simpa [updateFields] using
      (ih (setField node kv.1 kv.2) hrest).trans
        (getField?_setField_ne node kv.1 k kv.2 (fun hh => hk hh.symm))

end FieldLemmas

theorem deepMerge_nil (d : Obj) : deepMerge d [] = d := rfl

theorem deepMerge_cons (b : Obj) (k : String) (v : JValue) (rest : Obj) :
    deepMerge b ((k, v) :: rest) = deepMerge (deepMergeStep b k v) rest := rfl

theorem getField?_deepMergeStep_ne (b : Obj) (k k' : String) (v : JValue)
    (h : k' ≠ k) : getField? (deepMergeStep b k v) k' = getField? b k' := by
  cases v with
  | obj m' =>
    simp only [deepMergeStep]
    cases hb : getField? b k with
    | some w => cases w <;> rw [getField?_setField_ne _ _ _ _ h]
    | none => rw [getField?_setField_ne _ _ _ _ h]
  | null => simp only [deepMergeStep]; rw [getField?_setField_ne _ _ _ _ h]
  | bool x => simp only [deepMergeStep]; rw [getField?_setField_ne _ _ _ _ h]
  | num x => simp only [deepMergeStep]; rw [getField?_setField_ne _ _ _ _ h]
  | str x => simp only [deepMergeStep]; rw [getField?_setField_ne _ _ _ _ h]
  | arr x => simp only [deepMergeStep]; rw [getField?_setField_ne _ _ _ _ h]

theorem getField?_deepMergeStep_leaf (b : Obj) (k : String) (v : JValue)
    (hleaf : ∀ m, v ≠ JValue.obj m) :
    getField? (deepMergeStep b k v) k = some v := by
  cases v with
  | obj m' => exact absurd rfl (hleaf m')
  | null => simp only [deepMergeStep]; rw [getField?_setField_self]
  | bool x => simp only [deepMergeStep]; rw [getField?_setField_self]
  | num x => simp only [deepMergeStep]; rw [getField?_setField_self]
  | str x => simp only [deepMergeStep]; rw [getField?_setField_self]
  | arr x => simp only [deepMergeStep]; rw [getField?_setField_self]

theorem getField?_deepMergeStep_obj (b : Obj) (k : String) (m m' : Obj)
    (hb : getField? b k = some (JValue.obj m)) :
    getField? (deepMergeStep b k (JValue.obj m')) k
      = some (JValue.obj (deepMerge m m')) := by
  simp only [deepMergeStep, hb]
  rw [getField?_setField_self]

theorem getField?_deepMerge_not_mem (o : Obj) (b : Obj) (k : String)
    (h : k ∉ keysOf o) : getField? (deepMerge b o) k = getField? b k := by
  induction o generalizing b with
  | nil => rw [deepMerge_nil]
  | cons kv rest ih =>
    obtain ⟨k0, v0⟩ := kv
    have hk0 : k ≠ k0 := fun hh => h (by simp [keysOf, hh])
    have hrest : k ∉ keysOf rest := fun hh => h (by simp [keysOf] at hh ⊢; exact .inr hh)
    rw [deepMerge_cons, ih _ hrest, getField?_deepMergeStep_ne _ _ _ _ hk0]

theorem getField?_deepMerge_replace (o : Obj) (b : Obj) (k : String) (v : JValue)
    (hnodup : (keysOf o).Nodup) (hmem : (k, v) ∈ o) (hleaf : ∀ m, v ≠ JValue.obj m) :
    getField? (deepMerge b o) k = some v := by
  induction o generalizing b with
  | nil => cases hmem
  | cons kv rest ih =>
    obtain ⟨k0, v0⟩ := kv
    rcases List.mem_cons.mp hmem with heq | hrest
    · cases heq
      have hknotin : k ∉ keysOf rest := by
        intro hk
        rw [keysOf, List.mem_map] at hk
        obtain ⟨⟨a, b'⟩, hab, hfst⟩ := hk
        cases hfst
        simp [keysOf] at hnodup
        exact hnodup.1 b' hab
      rw [deepMerge_cons, getField?_deepMerge_not_mem _ _ _ hknotin,
        getField?_deepMergeStep_leaf _ _ _ hleaf]
    · have hnodup' : (keysOf rest).Nodup := by
        simp [keysOf] at hnodup
        exact hnodup.2
      rw [deepMerge_cons]
      exact ih _ hnodup' hrest

theorem getField?_deepMerge_recursive (o : Obj) (b : Obj) (k : String) (m m' : Obj)
    (hnodup : (keysOf o).Nodup) (hmem : (k, JValue.obj m') ∈ o)
    (hb : getField? b k = some (JValue.obj m)) :
    getField? (deepMerge b o) k = some (JValue.obj (deepMerge m m')) := by
  induction o generalizing b with
  | nil => cases hmem
  | cons kv rest ih =>
    obtain ⟨k0, v0⟩ := kv
    rcases List.mem_cons.mp hmem with heq | hrest
    · cases heq
      have hknotin : k ∉ keysOf rest := by
        intro hk
        rw [keysOf, List.mem_map] at hk
        obtain ⟨⟨a, b'⟩, hab, hfst⟩ := hk
        cases hfst
        simp [keysOf] at hnodup
        exact hnodup.1 b' hab
      rw [deepMerge_cons, getField?_deepMerge_not_mem _ _ _ hknotin,
        getField?_deepMergeStep_obj _ _ _ _ hb]
    · have hnodup' : (keysOf rest).Nodup := by
        simp [keysOf] at hnodup
        exact hnodup.2
      have hkne : k ≠ k0 := by
        intro hh
        subst hh
        simp [keysOf] at hnodup
        exact hnodup.1 _ hrest
      rw [deepMerge_cons]
      exact ih _ hnodup' hrest
        (by rw [getField?_deepMergeStep_ne _ _ _ _ hkne, hb])

section CleanTextLemmas

theorem mem_collapseWsAux (l : List Char) :
    ∀ prev c, c ∈ collapseWsAux prev l → c = ' ' ∨ (c ∈ l ∧ isPyWs c = false) := by
  induction l with
  | nil => intro prev c hc; simp [collapseWsAux] at hc
  | cons d rest ih =>
    intro prev c hc
    by_cases hd : isPyWs d
    · simp only [collapseWsAux, if_pos hd, List.mem_append] at hc
      rcases hc with hc | hc
      · left
        cases prev <;> simp_all
      · rcases ih true c hc with h | h
        · exact Or.inl h
        · exact Or.inr ⟨List.mem_cons_of_mem _ h.1, h.2⟩
    · simp only [collapseWsAux, if_neg hd, List.mem_cons] at hc
      rcases hc with rfl | hc
      · exact Or.inr ⟨List.mem_cons_self _ _, by simpa using hd⟩
      · rcases ih false c hc with h | h
        · exact Or.inl h
        · exact Or.inr ⟨List.mem_cons_of_mem _ h.1, h.2⟩

theorem head?_collapseWsAux_true (l : List Char) :
    ∀ c, (collapseWsAux true l).head? = some c → isPyWs c = false := by
  induction l with
  | nil => intro c hc; simp [collapseWsAux] at hc
  | cons d rest ih =>
    intro c hc
    by_cases hd : isPyWs d
    · simp only [collapseWsAux, if_pos hd, if_pos rfl, List.nil_append] at hc
      exact ih c hc
    · simp only [collapseWsAux, if_neg hd, List.head?_cons, Option.some.injEq] at hc
      subst hc
      simpa using hd

theorem head?_collapseWsAux_false (l : List Char) :
    (collapseWsAux false l).head? = none ∨ (collapseWsAux false l).head? = some ' ' ∨
      (collapseWsAux false l).head? = l.head? := by
  cases l with
  | nil => exact Or.inl rfl
  | cons d rest =>
    by_cases hd : isPyWs d
    · exact Or.inr (Or.inl (by simp [collapseWsAux, hd]))
    · exact Or.inr (Or.inr (by simp [collapseWsAux, hd]))

theorem chain'_ws_collapseWsAux (l : List Char) :
    ∀ prev, (collapseWsAux prev l).Chain' NoWsPair := by
  induction l with
  | nil => intro prev; simp [collapseWsAux]
  | cons d rest ih =>
    intro prev
    by_cases hd : isPyWs d
    · cases prev with
      | true => simpa [collapseWsAux, hd] using ih true
      | false =>
        simp only [collapseWsAux, if_pos hd, if_neg (by simp : ¬False = true)]
        refine List.chain'_cons'.mpr ⟨?_, ih true⟩
        intro y hy
        have := head?_collapseWsAux_true rest y (by simpa using hy)
        exact fun hcon => by simp [this] at hcon
    · simp only [collapseWsAux, if_neg hd]
      refine List.chain'_cons'.mpr ⟨?_, ih false⟩
      intro y _
      exact fun hcon => by simp_all

theorem chain'_noCompose_collapseWsAux (l : List Char) (h : l.Chain' NoCompose) :
    ∀ prev, (collapseWsAux prev l).Chain' NoCompose := by
  induction l with
  | nil => intro prev; simp [collapseWsAux]
  | cons d rest ih =>
    intro prev
    have htail : rest.Chain' NoCompose := h.tail
    by_cases hd : isPyWs d
    · cases prev with
      | true => simpa [collapseWsAux, hd] using ih htail true
      | false =>
        simp only [collapseWsAux, if_pos hd, if_neg (by simp : ¬False = true)]
        refine List.chain'_cons'.mpr ⟨?_, ih htail true⟩
        intro y _
        intro hcon
        have : (' ' : Char) = 'e' := hcon.1
        simp at this
    · simp only [collapseWsAux, if_neg hd]
      refine List.chain'_cons'.mpr ⟨?_, ih htail false⟩
      intro y hy
      rcases head?_collapseWsAux_false rest with h0 | h0 | h0
      · simp [h0] at hy
      · rw [h0] at hy
        intro hcon
        have h2 : ' ' = y := by simpa using hy
        rw [← h2] at hcon
        exact absurd hcon.2 (by decide)
      · rw [h0] at hy
        cases rest with
        | nil => simp at hy
        | cons e rest' =>
          have h2 : e = y := by simpa using hy
          rw [← h2]
          exact (List.chain'_cons.mp h).1

theorem mem_composeChars : ∀ (l : List Char) (c : Char), c ∈ composeChars l → c ∈ l ∨ c = 'é'
  | [], c => by simp [composeChars]
  | [d], c => by simp [composeChars]; tauto
  | c1 :: c2 :: rest, c => by
    by_cases h : c1 = 'e' ∧ c2 = acuteChar
    · simp only [composeChars, if_pos h, List.mem_cons]
      intro hc
      rcases hc with rfl | hc
      · exact Or.inr rfl
      · rcases mem_composeChars rest c hc with h' | h'
        · exact Or.inl (by simp [h'])
        · exact Or.inr h'
    · simp only [composeChars, if_neg h, List.mem_cons]
      intro hc
      rcases hc with rfl | hc
      · exact Or.inl (by simp)
      · rcases mem_composeChars (c2 :: rest) c hc with h' | h'
        · exact Or.inl (by simp [List.mem_cons] at h' ⊢; tauto)
        · exact Or.inr h'

theorem head?_composeChars (l : List Char) :
    (composeChars l).head? = l.head? ∨ (composeChars l).head? = some 'é' := by
  match l with
  | [] => exact Or.inl rfl
  | [c] => exact Or.inl rfl
  | c1 :: c2 :: rest =>
    by_cases h : c1 = 'e' ∧ c2 = acuteChar
    · exact Or.inr (by simp [composeChars, if_pos h])
    · exact Or.inl (by simp [composeChars, if_neg h])

theorem chain'_composeChars : ∀ l : List Char, (composeChars l).Chain' NoCompose
  | [] => by simp [composeChars]
  | [c] => by simp [composeChars]
  | c1 :: c2 :: rest => by
    by_cases h : c1 = 'e' ∧ c2 = acuteChar
    · rw [composeChars, if_pos h]
      refine List.chain'_cons'.mpr ⟨?_, chain'_composeChars rest⟩
      intro y _
      intro hcon
      have : ('é' : Char) = 'e' := hcon.1
      simp at this
    · rw [composeChars, if_neg h]
      refine List.chain'_cons'.mpr ⟨?_, chain'_composeChars (c2 :: rest)⟩
      intro y hy
      rcases head?_composeChars (c2 :: rest) with h0 | h0
      · rw [h0] at hy
        have h2 : c2 = y := by simpa using hy
        rw [← h2]
        exact h
      · rw [h0] at hy
        have h2 : 'é' = y := by simpa using hy
        intro hcon
        rw [← h2] at hcon
        exact absurd hcon.2 (by decide)

theorem composeChars_id : ∀ l : List Char, l.Chain' NoCompose → composeChars l = l
  | [], _ => rfl
  | [c], _ => rfl
  | c1 :: c2 :: rest, h => by
    have h1 : NoCompose c1 c2 := (List.chain'_cons.mp h).1
    rw [composeChars, if_neg h1, composeChars_id (c2 :: rest) (List.chain'_cons.mp h).2]

theorem head?_dropWhile (p : Char → Bool) :
    ∀ (l : List Char) (x : Char), (l.dropWhile p).head? = some x → p x = false := by
  intro l
  induction l with
  | nil => intro x hx; simp [List.dropWhile] at hx
  | cons c rest ih =>
    intro x hx
    by_cases h : p c
    · rw [List.dropWhile_cons, if_pos h] at hx
      exact ih x hx
    · rw [List.dropWhile_cons, if_neg h] at hx
      have : x = c := by simpa using hx.symm
      subst this
      simpa using h

theorem dropWhile_head_false (p : Char → Bool) (l : List Char)
    (h : ∀ c, l.head? = some c → p c = false) : l.dropWhile p = l := by
  cases l with
  | nil => rfl
  | cons c rest =>
    rw [List.dropWhile_cons, if_neg (by simp [h c rfl])]

theorem mem_stripChars (l : List Char) (c : Char) (hc : c ∈ stripChars l) : c ∈ l := by
  unfold stripChars at hc
  rw [List.mem_reverse] at hc
  have h1 := (List.dropWhile_suffix (l := (l.dropWhile isPyWs).reverse) isPyWs).sublist.mem hc
  rw [List.mem_reverse] at h1
  exact (List.dropWhile_suffix isPyWs).sublist.mem h1

theorem chain'_stripChars (R : Char → Char → Prop) (l : List Char)
    (h : l.Chain' R) : (stripChars l).Chain' R := by
  unfold stripChars
  have h1 : (l.dropWhile isPyWs).Chain' R := h.suffix (List.dropWhile_suffix isPyWs)
  have h2 : ((l.dropWhile isPyWs).reverse).Chain' (flip R) :=
    List.chain'_reverse.mpr h1
  have h3 : (((l.dropWhile isPyWs).reverse).dropWhile isPyWs).Chain' (flip R) :=
    h2.suffix (List.dropWhile_suffix isPyWs)
  exact List.chain'_reverse.mpr h3

theorem head?_stripChars (l : List Char) (c : Char)
    (hc : (stripChars l).head? = some c) : isPyWs c = false := by
  unfold stripChars at hc
  rw [List.head?_reverse] at hc
  rcases List.eq_nil_or_concat ((l.dropWhile isPyWs).reverse.dropWhile isPyWs) with
    hnil | ⟨u', d, hud⟩
  · rw [hnil] at hc; simp at hc
  · obtain ⟨pre, hpre⟩ := List.dropWhile_suffix (l := (l.dropWhile isPyWs).reverse) isPyWs
    have hune : (l.dropWhile isPyWs).reverse.dropWhile isPyWs ≠ [] := by rw [hud]; simp
    have h1 : ((l.dropWhile isPyWs).reverse.dropWhile isPyWs).getLast?
        = (l.dropWhile isPyWs).reverse.getLast? := by
      conv_rhs => rw [← hpre]
      exact (List.getLast?_append_of_ne_nil pre hune).symm
    rw [h1, List.getLast?_reverse] at hc
    exact head?_dropWhile isPyWs l c hc

theorem getLast?_stripChars (l : List Char) (c : Char)
    (hc : (stripChars l).getLast? = some c) : isPyWs c = false := by
  unfold stripChars at hc
  rw [List.getLast?_reverse] at hc
  exact head?_dropWhile isPyWs _ c hc

theorem map_self_of_eq (f : Char → Char) (l : List Char) (h : ∀ c ∈ l, f c = c) :
    l.map f = l := by
  induction l with
  | nil => rfl
  | cons c rest ih =>
    rw [List.map_cons, h c (List.mem_cons_self _ _),
      ih (fun x hx => h x (List.mem_cons_of_mem _ hx))]

theorem compatChar_cases (b : Char) : compatChar b = ' ' ∨ compatChar b = b := by
  unfold compatChar
  split
  · exact Or.inl rfl
  · exact Or.inr rfl

theorem compatChar_eq_self (c : Char) (h : isPyWs c = true → c = ' ') :
    compatChar c = c := by
  unfold compatChar
  split
  · next hcond =>
    have hws : isPyWs c = true := by
      simp only [Bool.or_eq_true, Bool.and_eq_true, decide_eq_true_eq] at hcond
      simp only [isPyWs, Bool.or_eq_true, Bool.and_eq_true, decide_eq_true_eq]
      omega
    have hsp := h hws
    subst hsp
    simp at *
  · rfl

theorem collapseWsAux_fixed (l : List Char)
    (hws : ∀ c ∈ l, isPyWs c = true → c = ' ')
    (hch : l.Chain' NoWsPair) :
    collapseWsAux false l = l ∧
      ((∀ c, l.head? = some c → isPyWs c = false) → collapseWsAux true l = l) := by
  induction l with
  | nil => exact ⟨rfl, fun _ => rfl⟩
  | cons c rest ih =>
    have hws' : ∀ x ∈ rest, isPyWs x = true → x = ' ' :=
      fun x hx => hws x (List.mem_cons_of_mem _ hx)
    obtain ⟨ihf, iht⟩ := ih hws' hch.tail
    by_cases hc : isPyWs c
    · have hcsp : c = ' ' := hws c (List.mem_cons_self _ _) hc
      have hhead : ∀ x, rest.head? = some x → isPyWs x = false := by
        intro x hx
        have hpair := (List.chain'_cons'.mp hch).1 x (by simp [hx])
        by_contra hxx
        exact hpair ⟨hc, by simpa using hxx⟩
      refine ⟨?_, ?_⟩
      · simp only [collapseWsAux, if_pos hc]
        rw [iht hhead]
        simp [hcsp]
      · intro hhd
        have := hhd c rfl
        rw [hc] at this
        cases this
    · have step : ∀ prev : Bool, collapseWsAux prev (c :: rest) = c :: rest := by
        intro prev
        simp only [collapseWsAux, if_neg hc]
        rw [ihf]
      exact ⟨step false, fun _ => step true⟩

theorem cleanTextChars_fixed (l : List Char) (h : CleanForm l) : cleanTextChars l = l := by
  obtain ⟨h1, h2, h3, h4, h5, h6⟩ := h
  have hnbsp : nbspChar ∉ l := by
    intro hmem
    have := h1 _ hmem (by decide)
    exact absurd this (by decide)
  have hcompat : l.map compatChar = l :=
    map_self_of_eq _ _ (fun c hc => compatChar_eq_self c (h1 c hc))
  have hcompose : composeChars l = l := composeChars_id l h6
  have hrepl : replaceChar nbspChar ' ' l = l := by
    unfold replaceChar
    refine map_self_of_eq _ _ (fun c hc => ?_)
    rw [if_neg]
    intro heq
    subst heq
    exact hnbsp hc
  have hrm : removeChar zwspChar l = l := by
    unfold removeChar
    refine List.filter_eq_self.mpr (fun a ha => ?_)
    simp only [ne_eq, decide_eq_true_eq]
    intro heq
    subst heq
    exact h5 ha
  have hcoll : collapseWs l = l := (collapseWsAux_fixed l h1 h2).1
  have hstrip : stripChars l = l := by
    unfold stripChars
    rw [dropWhile_head_false _ _ h3]
    rw [dropWhile_head_false _ _ (fun c hc => h4 c (by rwa [List.head?_reverse] at hc))]
    exact List.reverse_reverse l
  unfold cleanTextChars nfkc
  rw [hcompat, hcompose, hrepl, hrm, hcoll, hstrip]

theorem wsForm_cleanTextChars (l : List Char) :
    (∀ c ∈ cleanTextChars l, isPyWs c = true → c = ' ') ∧
    (cleanTextChars l).Chain' NoWsPair ∧
    (∀ c, (cleanTextChars l).head? = some c → isPyWs c = false) ∧
    (∀ c, (cleanTextChars l).getLast? = some c → isPyWs c = false) := by
  unfold cleanTextChars collapseWs
  refine ⟨?_, ?_, ?_, ?_⟩
  · intro c hc hws
    have hc' := mem_stripChars _ _ hc
    rcases mem_collapseWsAux _ _ _ hc' with h | h
    · exact h
    · rw [h.2] at hws; cases hws
  · exact chain'_stripChars _ _ (chain'_ws_collapseWsAux _ false)
  · exact fun c hc => head?_stripChars _ c hc
  · exact fun c hc => getLast?_stripChars _ c hc

theorem zwsp_not_mem_cleanTextChars (l : List Char) : zwspChar ∉ cleanTextChars l := by
  intro hmem
  unfold cleanTextChars collapseWs at hmem
  have hc' := mem_stripChars _ _ hmem
  rcases mem_collapseWsAux _ _ _ hc' with h | h
  · exact absurd h (by decide)
  · have hin := h.1
    unfold removeChar at hin
    have := List.of_mem_filter hin
    simp at this

theorem cleanForm_cleanTextChars (l : List Char) (hz : zwspChar ∉ l) :
    CleanForm (cleanTextChars l) := by
  obtain ⟨w1, w2, w3, w4⟩ := wsForm_cleanTextChars l
  refine ⟨w1, w2, w3, w4, zwsp_not_mem_cleanTextChars l, ?_⟩
  have hzz : zwspChar ∉ replaceChar nbspChar ' ' (nfkc l) := by
    intro hmem
    unfold replaceChar at hmem
    rcases List.mem_map.mp hmem with ⟨a, ha, hfa⟩
    by_cases haeq : a = nbspChar
    · rw [if_pos haeq] at hfa
      exact absurd hfa (by decide)
    · rw [if_neg haeq] at hfa
      subst hfa
      unfold nfkc at ha
      rcases mem_composeChars _ _ ha with hmm | hmm
      · rcases List.mem_map.mp hmm with ⟨b, hb, hcb⟩
        rcases compatChar_cases b with hcc | hcc
        · rw [hcc] at hcb
          exact absurd hcb (by decide)
        · rw [hcc] at hcb
          subst hcb
          exact hz hb
      · exact absurd hmm (by decide)
  have hrm : removeChar zwspChar (replaceChar nbspChar ' ' (nfkc l))
      = replaceChar nbspChar ' ' (nfkc l) := by
    unfold removeChar
    refine List.filter_eq_self.mpr (fun a ha => ?_)
    simp only [ne_eq, decide_eq_true_eq]
    intro heq
    subst heq
    exact hzz ha
  have hchain : (replaceChar nbspChar ' ' (nfkc l)).Chain' NoCompose := by
    unfold replaceChar
    rw [List.chain'_map]
    refine (chain'_composeChars (l.map compatChar)).imp (fun a b hab => ?_)
    intro hcon
    apply hab
    constructor
    · by_cases ha : a = nbspChar
      · rw [if_pos ha] at hcon
        exact absurd hcon.1 (by decide)
      · rw [if_neg ha] at hcon
        exact hcon.1
    · by_cases hb : b = nbspChar
      · rw [if_pos hb] at hcon
        exact absurd hcon.2 (by decide)
      · rw [if_neg hb] at hcon
        exact hcon.2
  unfold cleanTextChars collapseWs
  apply chain'_stripChars
  apply chain'_noCompose_collapseWsAux
  rw [hrm]
  exact hchain

theorem cleanText_idem_of_no_zwsp (s : String) (h : zwspChar ∉ s.data) :
    cleanText (cleanText s) = cleanText s := by
  show (⟨cleanTextChars (cleanTextChars s.data)⟩ : String) = ⟨cleanTextChars s.data⟩
  rw [cleanTextChars_fixed _ (cleanForm_cleanTextChars _ h)]

end CleanTextLemmas

section FaqLemmas

theorem faqKey_inj {f g : Faq} (h : faqKey f = faqKey g) : f = g := by
  cases f
  cases g
  simp only [faqKey, Prod.mk.injEq] at h
  simp [h.1, h.2]

theorem dedupFaqsAux_eq (l : List Faq) :
    ∀ seen, dedupFaqsAux seen l
      = firstOccurrences (l.filter (fun f => faqKey f ∉ seen)) := by
  induction l with
  | nil => intro seen; simp [dedupFaqsAux, firstOccurrences]
  | cons f rest ih =>
    intro seen
    by_cases hf : faqKey f ∈ seen
    · rw [show (dedupFaqsAux seen (f :: rest)) = dedupFaqsAux seen rest by
        simp [dedupFaqsAux, hf]]
      rw [show ((f :: rest).filter (fun g => faqKey g ∉ seen))
          = rest.filter (fun g => faqKey g ∉ seen) by simp [hf]]
      exact ih seen
    · rw [show (dedupFaqsAux seen (f :: rest))
          = f :: dedupFaqsAux (faqKey f :: seen) rest by simp [dedupFaqsAux, hf]]
      rw [show ((f :: rest).filter (fun g => faqKey g ∉ seen))
          = f :: rest.filter (fun g => faqKey g ∉ seen) by simp [hf]]
      rw [firstOccurrences]
      rw [ih (faqKey f :: seen)]
      congr 1
      rw [List.filter_filter]
      congr 1
      apply List.filter_congr
      intro g _
      have hiff : (faqKey g ∉ faqKey f :: seen) ↔ (g ≠ f ∧ faqKey g ∉ seen) := by
        simp only [List.mem_cons, not_or]
        constructor
        · intro hg
          exact ⟨fun hgf => hg.1 (by rw [hgf]), hg.2⟩
        · intro hg
          exact ⟨fun hk => hg.1 (faqKey_inj hk), hg.2⟩
      rw [show (decide (faqKey g ∉ faqKey f :: seen))
          = decide (g ≠ f ∧ faqKey g ∉ seen) from decide_eq_decide.mpr hiff]
      exact Bool.decide_and _ _

theorem dedupFaqs_eq_firstOccurrences (l : List Faq) :
    dedupFaqs l = firstOccurrences l := by
  rw [dedupFaqs, dedupFaqsAux_eq]
  congr 1
  apply List.filter_eq_self.mpr
  intro a _
  simp

theorem dedupFaqsAux_nodup (l : List Faq) :
    ∀ seen, (dedupFaqsAux seen l).Nodup ∧
      ∀ f ∈ dedupFaqsAux seen l, faqKey f ∉ seen := by
  induction l with
  | nil => intro seen; exact ⟨List.nodup_nil, by simp [dedupFaqsAux]⟩
  | cons f rest ih =>
    intro seen
    by_cases hf : faqKey f ∈ seen
    · simpa [dedupFaqsAux, hf] using ih seen
    · obtain ⟨hnd, hnin⟩ := ih (faqKey f :: seen)
      simp only [dedupFaqsAux, if_neg hf]
      refine ⟨List.nodup_cons.mpr ⟨?_, hnd⟩, ?_⟩
      · intro hmem
        exact (hnin f hmem) (List.mem_cons_self _ _)
      · intro g hg
        rcases List.mem_cons.mp hg with rfl | hg'
        · exact hf
        · intro hsg
          exact (hnin g hg') (List.mem_cons_of_mem _ hsg)

theorem dedupFaqs_nodup (l : List Faq) : (dedupFaqs l).Nodup :=
  (dedupFaqsAux_nodup l []).1

theorem mem_dedupFaqsAux (l : List Faq) :
    ∀ seen f, f ∈ dedupFaqsAux seen l → f ∈ l := by
  induction l with
  | nil => intro seen f h; simp [dedupFaqsAux] at h
  | cons g rest ih =>
    intro seen f h
    by_cases hg : faqKey g ∈ seen
    · simp only [dedupFaqsAux, if_pos hg] at h
      exact List.mem_cons_of_mem _ (ih _ _ h)
    · simp only [dedupFaqsAux, if_neg hg] at h
      rcases List.mem_cons.mp h with rfl | h'
      · exact List.mem_cons_self _ _
      · exact List.mem_cons_of_mem _ (ih _ _ h')

theorem mem_dedupFaqs (l : List Faq) (f : Faq) (h : f ∈ dedupFaqs l) : f ∈ l :=
  mem_dedupFaqsAux l [] f h

theorem extract_accordion_eq_dedup (page : FaqPage) :
    extract_faqs_from_nx_accordion page = dedupFaqs (accordionRawFaqs page) := by
  unfold extract_faqs_from_nx_accordion
  by_cases h : page.accordionRoots.isEmpty
  · rw [if_pos h]
    have : page.accordionRoots = [] := List.isEmpty_iff.mp h
    simp [accordionRawFaqs, this, dedupFaqs, dedupFaqsAux]
  · rw [if_neg h]

theorem processAccordionLi_answer (li : AccordionLi) (f : Faq)
    (h : processAccordionLi li = some f) : f.answer ≠ "" := by
  unfold processAccordionLi at h
  cases hq : li.questionText with
  | none => rw [hq] at h; cases h
  | some qt =>
    rw [hq] at h
    cases hb : li.body with
    | none => simp [hb] at h
    | some b =>
      simp only [hb] at h
      by_cases ha : extractAnswerText b = ""
      · rw [if_pos ha] at h; cases h
      · rw [if_neg ha] at h
        cases h
        simpa using ha

theorem processFallbackNode_props (node : FallbackNode) (f : Faq)
    (h : processFallbackNode node = some f) : f.question ≠ "" ∧ f.answer ≠ "" := by
  unfold processFallbackNode at h
  by_cases h1 : cleanText node.text = "" ∨ ¬ (cleanText node.text).data.contains '?'
  · rw [if_pos h1] at h; cases h
  · rw [if_neg h1] at h
    by_cases h2 : cleanText node.text ≠ "" ∧
        (match node.siblingText with
         | some t => cleanText t
         | none => "") ≠ ""
    · rw [if_pos h2] at h
      cases h
      exact h2
    · rw [if_neg h2] at h; cases h

theorem mem_accordionRaw_answer (page : FaqPage) (f : Faq)
    (h : f ∈ accordionRawFaqs page) : f.answer ≠ "" := by
  unfold accordionRawFaqs at h
  rw [List.mem_flatten] at h
  obtain ⟨chunk, hchunk, hf⟩ := h
  rw [List.mem_map] at hchunk
  obtain ⟨root, _, rfl⟩ := hchunk
  rw [List.mem_filterMap] at hf
  obtain ⟨li, _, hli⟩ := hf
  exact processAccordionLi_answer li f hli

theorem mem_fallbackRaw_props (page : FaqPage) (f : Faq)
    (h : f ∈ fallbackRawFaqs page) : f.question ≠ "" ∧ f.answer ≠ "" := by
  unfold fallbackRawFaqs at h
  rw [List.mem_filterMap] at h
  obtain ⟨node, _, hnode⟩ := h
  exact processFallbackNode_props node f hnode

end FaqLemmas

section NodeLemmas

theorem not_mem_keysOf (data : Obj) (k : String) (h : k ∉ keysOf data) :
    ∀ p ∈ data, p.1 ≠ k := by
  intro p hp heq
  exact h (by rw [keysOf, List.mem_map]; exact ⟨p, hp, heq⟩)

/-- The conditional-assignment combinators leave other keys alone. -/
theorem getField?_setIfTruthy_ne (node : Obj) (k k' : String) (v : JValue)
    (h : k' ≠ k) : getField? (setIfTruthy node k v) k' = getField? node k' := by
  unfold setIfTruthy
  split
  · exact getField?_setField_ne _ _ _ _ h
  · rfl

theorem getField?_setIfStr_ne (node : Obj) (k k' : String) (o : Option String)
    (f : String → JValue) (h : k' ≠ k) :
    getField? (setIfStr node k o f) k' = getField? node k' := by
  cases o with
  | none => rfl
  | some u =>
    simp only [setIfStr]
    split
    · exact getField?_setField_ne _ _ _ _ h
    · rfl

theorem getField?_setIfSome_ne (node : Obj) (k k' : String) (o : Option JValue)
    (h : k' ≠ k) : getField? (setIfSome node k o) k' = getField? node k' := by
  cases o with
  | none => rfl
  | some v => exact getField?_setField_ne _ _ _ _ h

theorem getField?_setIfObj_ne (node : Obj) (k k' : String) (o : Option Obj)
    (h : k' ≠ k) : getField? (setIfObj node k o) k' = getField? node k' := by
  cases o with
  | none => rfl
  | some r =>
    simp only [setIfObj]
    split
    · rfl
    · exact getField?_setField_ne _ _ _ _ h

theorem getField?_updateIf_not_mem (node : Obj) (o : Option Obj) (k : String)
    (h : ∀ e, o = some e → k ∉ keysOf e) :
    getField? (updateIf node o) k = getField? node k := by
  cases o with
  | none => rfl
  | some e =>
    simp only [updateIf]
    split
    · rfl
    · exact getField?_updateFields_not_mem _ _ _ (not_mem_keysOf _ _ (h e rfl))

/-- The url-skipping field fold of `build_offer_node`. -/
theorem getField?_offerFold_not_mem (data : Obj) (node : Obj) (k : String)
    (h : k ∉ keysOf data) :
    getField? (data.foldl (fun n kv => if kv.1 = "url" then n else setField n kv.1 kv.2) node) k
      = getField? node k := by
  induction data generalizing node with
  | nil => rfl
  | cons kv rest ih =>
    obtain ⟨k0, v0⟩ := kv
    have hk0 : k0 ≠ k := not_mem_keysOf _ _ h (k0, v0) (List.mem_cons_self _ _)
    have hrest : k ∉ keysOf rest := fun hh => h (by simp [keysOf] at hh ⊢; exact .inr hh)
    by_cases hurl : k0 = "url"
    · simpa [hurl] using ih node hrest
    · simp only [List.foldl_cons, if_neg hurl]
      rw [ih _ hrest, getField?_setField_ne _ _ _ _ (fun hh => hk0 hh.symm)]

theorem getField?_offerFold_mem (data : Obj) (node : Obj) (k : String) (v : JValue)
    (hnodup : (keysOf data).Nodup) (hmem : (k, v) ∈ data) (hurl : k ≠ "url") :
    getField? (data.foldl (fun n kv => if kv.1 = "url" then n else setField n kv.1 kv.2) node) k
      = some v := by
  induction data generalizing node with
  | nil => cases hmem
  | cons kv rest ih =>
    obtain ⟨k0, v0⟩ := kv
    rcases List.mem_cons.mp hmem with heq | hrest
    · cases heq
      have hknotin : k ∉ keysOf rest := by
        intro hk
        rw [keysOf, List.mem_map] at hk
        obtain ⟨⟨a, b'⟩, hab, hfst⟩ := hk
        cases hfst
        simp [keysOf] at hnodup
        exact hnodup.1 b' hab
      simp only [List.foldl_cons, if_neg hurl]
      rw [getField?_offerFold_not_mem _ _ _ hknotin, getField?_setField_self]
    · have hnodup' : (keysOf rest).Nodup := by
        simp [keysOf] at hnodup
        exact hnodup.2
      by_cases hu0 : k0 = "url"
      · simpa [hu0] using ih node hnodup' hrest
      · simp only [List.foldl_cons, if_neg hu0]
        exact ih _ hnodup' hrest

theorem getField?_build_offer_node (pu ni : String) (data : Obj) (k : String) (v : JValue)
    (hnodup : (keysOf data).Nodup) (hmem : (k, v) ∈ data) (hurl : k ≠ "url") :
    getField? (build_offer_node pu ni data) k = some v := by
  unfold build_offer_node
  exact getField?_offerFold_mem data _ k v hnodup hmem hurl

theorem getField?_build_offer_node_absent (pu ni : String) (data : Obj) (k : String)
    (h : k ∉ keysOf data) (h1 : k ≠ "@type") (h2 : k ≠ "@id") (h3 : k ≠ "url") :
    getField? (build_offer_node pu ni data) k = none := by
  unfold build_offer_node
  rw [getField?_offerFold_not_mem _ _ _ h]
  simp [getField?, Ne.symm h1, Ne.symm h2, Ne.symm h3]

theorem getField?_build_offer_node_type (pu ni : String) (data : Obj)
    (h : "@type" ∉ keysOf data) :
    getField? (build_offer_node pu ni data) "@type" = some (JValue.str "Offer") := by
  unfold build_offer_node
  rw [getField?_offerFold_not_mem _ _ _ h]
  simp [getField?]

theorem typeOf_build_offer_node (pu ni : String) (data : Obj)
    (h : "@type" ∉ keysOf data) :
    typeOf (JValue.obj (build_offer_node pu ni data)) = some "Offer" := by
  simp [typeOf, getField?_build_offer_node_type pu ni data h]

theorem idOf?_build_offer_node (pu ni : String) (data : Obj)
    (h : "@id" ∉ keysOf data) :
    idOf? (JValue.obj (build_offer_node pu ni data)) = some ni := by
  have h1 : getField? (build_offer_node pu ni data) "@id" = some (JValue.str ni) := by
    unfold build_offer_node
    rw [getField?_offerFold_not_mem _ _ _ h]
    simp [getField?]
  simp [idOf?, h1]

/-- `build_product_node` keeps the fields of the base node that its
conditional assignments and the extra update do not touch. -/
theorem getField?_build_product_node_base (pu ni nm : String) (iu : Option String)
    (ar : Option Obj) (de : Option String) (ex : Option Obj) (k : String)
    (hk1 : k ≠ "image") (hk2 : k ≠ "aggregateRating") (hk3 : k ≠ "description")
    (hex : ∀ e, ex = some e → k ∉ keysOf e) :
    getField? (build_product_node pu ni nm iu ar de ex) k
      = getField? [("@type", JValue.str "Product"), ("@id", JValue.str ni),
          ("name", JValue.str nm)] k := by
  unfold build_product_node
  rw [getField?_updateIf_not_mem _ _ _ hex,
    getField?_setIfStr_ne _ _ _ _ _ hk3,
    getField?_setIfObj_ne _ _ _ _ hk2,
    getField?_setIfStr_ne _ _ _ _ _ hk1]

theorem typeOf_build_product_node (pu ni nm : String) (iu : Option String)
    (ar : Option Obj) (de : Option String) (ex : Option Obj)
    (hex : ∀ e, ex = some e → "@type" ∉ keysOf e) :
    typeOf (JValue.obj (build_product_node pu ni nm iu ar de ex)) = some "Product" := by
  have h1 := getField?_build_product_node_base pu ni nm iu ar de ex "@type"
    (by decide) (by decide) (by decide) hex
  simp [typeOf, h1, getField?]

theorem idOf?_build_product_node (pu ni nm : String) (iu : Option String)
    (ar : Option Obj) (de : Option String) (ex : Option Obj)
    (hex : ∀ e, ex = some e → "@id" ∉ keysOf e) :
    idOf? (JValue.obj (build_product_node pu ni nm iu ar de ex)) = some ni := by
  have h1 := getField?_build_product_node_base pu ni nm iu ar de ex "@id"
    (by decide) (by decide) (by decide) hex
  simp [idOf?, h1, getField?]

theorem aggregateRating_build_product_node (pu ni nm : String) (iu : Option String)
    (r : Obj) (de : Option String) (ex : Option Obj)
    (hr : ¬ r.isEmpty) (hex : ∀ e, ex = some e → "aggregateRating" ∉ keysOf e) :
    getField? (build_product_node pu ni nm iu (some r) de ex) "aggregateRating"
      = some (JValue.obj r) := by
  unfold build_product_node
  rw [getField?_updateIf_not_mem _ _ _ hex,
    getField?_setIfStr_ne _ _ _ _ _ (by decide)]
  simp only [setIfObj]
  rw [if_neg hr, getField?_setField_self]

/-- `build_webpage_node` keeps `@type`, `@id` and every field untouched
by its assignments and extra update. -/
theorem getField?_build_webpage_node_base (ctx : SchemaContext) (ex : Option Obj) (k : String)
    (hk1 : k ≠ "@id") (hk2 : k ≠ "url") (hk3 : k ≠ "name") (hk4 : k ≠ "description")
    (hex : ∀ e, ex = some e → k ∉ keysOf e) :
    getField? (build_webpage_node ctx ex) k = getField? WEBPAGE_DEFAULTS k := by
  unfold build_webpage_node
  rw [getField?_updateIf_not_mem _ _ _ hex,
    getField?_setIfStr_ne _ _ _ _ _ hk4,
    getField?_setField_ne _ _ _ _ hk3,
    getField?_setField_ne _ _ _ _ hk2,
    getField?_setField_ne _ _ _ _ hk1]

theorem typeOf_build_webpage_node (ctx : SchemaContext) (ex : Option Obj)
    (hex : ∀ e, ex = some e → "@type" ∉ keysOf e) :
    typeOf (JValue.obj (build_webpage_node ctx ex)) = some "WebPage" := by
  have h1 := getField?_build_webpage_node_base ctx ex "@type"
    (by decide) (by decide) (by decide) (by decide) hex
  simp [typeOf, h1, WEBPAGE_DEFAULTS, getField?]

theorem idOf?_build_webpage_node (ctx : SchemaContext) (ex : Option Obj)
    (hex : ∀ e, ex = some e → "@id" ∉ keysOf e) :
    idOf? (JValue.obj (build_webpage_node ctx ex)) = some (ctx.page_url ++ "#WebPage") := by
  have h1 : getField? (build_webpage_node ctx ex) "@id"
      = some (JValue.str (ctx.page_url ++ "#WebPage")) := by
    unfold build_webpage_node
    rw [getField?_updateIf_not_mem _ _ _ hex,
      getField?_setIfStr_ne _ _ _ _ _ (by decide),
      getField?_setField_ne _ _ _ _ (by decide),
      getField?_setField_ne _ _ _ _ (by decide),
      getField?_setField_self]
  simp [idOf?, h1]

end NodeLemmas

section GraphLemmas

theorem string_append_right_inj (s : String) {a b : String} (h : s ++ a = s ++ b) :
    a = b := by
  have h2 : (s ++ a).data = (s ++ b).data := congrArg String.data h
  rw [String.data_append, String.data_append] at h2
  exact String.ext (List.append_cancel_left h2)

theorem append_ne_of_ne_suffix (pu a c : String) (h : ¬ (a.data <:+ c.data)) :
    pu ++ a ≠ c := by
  intro he
  apply h
  rw [← he, String.data_append]
  exact List.suffix_append _ _

theorem append_ne_empty (pu a : String) (h : a ≠ "") : pu ++ a ≠ "" := by
  intro he
  have h2 : (pu ++ a).data = ("" : String).data := congrArg String.data he
  rw [String.data_append] at h2
  exact h (String.ext (List.append_eq_nil.mp h2).2)

theorem tagVal_ne (pu : String) (x y : Bool × String) (h : tagCompat x y = true) :
    tagVal pu x ≠ tagVal pu y := by
  match x, y with
  | (true, a), (true, b) =>
    simp only [tagCompat, decide_eq_true_eq] at h
    exact fun he => h (string_append_right_inj pu he)
  | (true, a), (false, c) =>
    simp only [tagCompat, decide_eq_true_eq] at h
    exact append_ne_of_ne_suffix pu a c h
  | (false, c), (true, a) =>
    simp only [tagCompat, decide_eq_true_eq] at h
    exact fun he => append_ne_of_ne_suffix pu a c h he.symm
  | (false, c), (false, d) =>
    simp only [tagCompat, decide_eq_true_eq] at h
    exact h

theorem nodup_tagVal (pu : String) (tags : List (Bool × String))
    (h : tagCompatAll tags = true) : (tags.map (tagVal pu)).Nodup := by
  induction tags with
  | nil => exact List.nodup_nil
  | cons x rest ih =>
    simp only [tagCompatAll, Bool.and_eq_true, List.all_eq_true] at h
    refine List.nodup_cons.mpr ⟨?_, ih h.2⟩
    intro hmem
    rcases List.mem_map.mp hmem with ⟨y, hy, he⟩
    exact tagVal_ne pu x y (h.1 y hy) he.symm

theorem append_organization_fresh (graph : List JValue) (org : Obj) (ids : List JValue)
    (h : ids.any (fun x => jEq x (jGet org "@id")) = false) :
    (append_organization graph org ids).1 = graph ++ [JValue.obj org] := by
  simp only [append_organization]
  rw [if_neg]
  intro hc
  rw [h] at hc
  exact absurd hc.2 (by simp)

theorem append_organization_nil_ids (graph : List JValue) (org : Obj) :
    (append_organization graph org []).1 = graph ++ [JValue.obj org] :=
  append_organization_fresh graph org [] rfl

theorem append_organization_seen (graph : List JValue) (org : Obj) (ids : List JValue)
    (ht : jTruthy (jGet org "@id") = true)
    (h : ids.any (fun x => jEq x (jGet org "@id")) = true) :
    (append_organization graph org ids).1 = graph := by
  simp only [append_organization]
  rw [if_pos ⟨ht, h⟩]

theorem append_organization_snd (graph : List JValue) (org : Obj) (ids : List JValue) :
    (append_organization graph org ids).2
      = (if jTruthy (jGet org "@id") ∧ ids.any (fun x => jEq x (jGet org "@id")) then ids
         else if jTruthy (jGet org "@id") then ids ++ [jGet org "@id"] else ids) := by
  simp only [append_organization]
  split <;> rfl

theorem mem_append_organization (x : JValue) (g : List JValue) (org : Obj)
    (ids : List JValue) (hx : x ∈ (append_organization g org ids).1) :
    x ∈ g ∨ x = JValue.obj org := by
  simp only [append_organization] at hx
  split at hx
  · exact Or.inl hx
  · rcases List.mem_append.mp hx with h | h
    · exact Or.inl h
    · simp only [List.mem_singleton] at h
      exact Or.inr h

theorem build_faq_page_none_iff (pu : String) (faqs : List Faq) (nid : String)
    (extra : Option Obj) :
    build_faq_page pu faqs nid extra = none ↔ _faq_entities faqs = [] := by
  simp only [build_faq_page]
  by_cases h : (_faq_entities faqs).isEmpty
  · rw [if_pos h]
    simp [List.isEmpty_iff.mp h]
  · rw [if_neg h]
    constructor
    · intro hc
      exact Option.noConfusion hc
    · intro hc
      exact absurd (List.isEmpty_iff.mpr hc) h

theorem build_faq_page_some (pu : String) (faqs : List Faq) (nid : String)
    (extra : Option Obj) (f : Obj)
    (h : build_faq_page pu faqs nid extra = some f) :
    _faq_entities faqs ≠ []
    ∧ f = updateIf
        [("@type", JValue.str "FAQPage"), ("@id", JValue.str nid),
         ("inLanguage", JValue.str DEFAULT_LANGUAGE),
         ("mainEntity", JValue.arr (_faq_entities faqs))] extra := by
  simp only [build_faq_page] at h
  by_cases hh : (_faq_entities faqs).isEmpty
  · rw [if_pos hh] at h
    exact absurd h (by simp)
  · rw [if_neg hh] at h
    exact ⟨fun hc => hh (List.isEmpty_iff.mpr hc), (Option.some.inj h).symm⟩

theorem _faq_entities_eq_nil_iff (faqs : List Faq) :
    _faq_entities faqs = [] ↔ ∀ f ∈ faqs, validFaqPair f = false := by
  simp only [_faq_entities, List.filterMap_eq_nil_iff]
  constructor
  · intro h f hf
    have hx := h f hf
    by_cases hq : pyStrip f.question = "" ∨ pyStrip f.answer = ""
    · simp [validFaqPair, hq]
    · rw [if_neg hq] at hx
      exact absurd hx (by simp)
  · intro h f hf
    have hv := h f hf
    by_cases hq : pyStrip f.question = "" ∨ pyStrip f.answer = ""
    · rw [if_pos hq]
    · exact absurd hv (by simp [validFaqPair, hq])

theorem _faq_entities_length (faqs : List Faq) :
    (_faq_entities faqs).length = (faqs.filter validFaqPair).length := by
  induction faqs with
  | nil => rfl
  | cons f rest ih =>
    by_cases h : pyStrip f.question = "" ∨ pyStrip f.answer = ""
    · have hv : validFaqPair f = false := by simp [validFaqPair, h]
      simp only [_faq_entities, List.filterMap_cons, if_pos h, List.filter_cons, hv]
      simpa [_faq_entities] using ih
    · have hv : validFaqPair f = true := by simp [validFaqPair, h]
      simp only [_faq_entities, List.filterMap_cons, if_neg h, List.filter_cons, hv]
      simpa [_faq_entities] using ih

theorem some_ne_of_ne {t t' : String} (h : t ≠ t') : some t ≠ some t' :=
  fun hc => h (Option.some.inj hc)

theorem nodeFacts_of_other (ctx : SchemaContext) (price : Option JValue) (x : JValue)
    (t : String) (ht : typeOf x = some t)
    (h1 : t ≠ "FAQPage") (h2 : t ≠ "Offer") (h3 : t ≠ "Product") :
    NodeFacts ctx price x :=
  ⟨fun h => absurd (ht.symm.trans h) (some_ne_of_ne h1),
   fun h => absurd (ht.symm.trans h) (some_ne_of_ne h2),
   fun h => absurd (ht.symm.trans h) (some_ne_of_ne h3)⟩

theorem nodeFacts_of_none (ctx : SchemaContext) (price : Option JValue) (x : JValue)
    (ht : typeOf x = none) : NodeFacts ctx price x :=
  ⟨fun h => absurd (ht.symm.trans h) (fun hc => Option.noConfusion hc),
   fun h => absurd (ht.symm.trans h) (fun hc => Option.noConfusion hc),
   fun h => absurd (ht.symm.trans h) (fun hc => Option.noConfusion hc)⟩

theorem nodeFacts_of_offer (ctx : SchemaContext) (price : Option JValue) (fs : Obj)
    (ht : typeOf (JValue.obj fs) = some "Offer")
    (hp : getField? fs "price" = price) :
    NodeFacts ctx price (JValue.obj fs) :=
  ⟨fun h => absurd (ht.symm.trans h) (some_ne_of_ne (by decide)),
   fun _ => ⟨fs, rfl, hp⟩,
   fun h => absurd (ht.symm.trans h) (some_ne_of_ne (by decide))⟩

theorem nodeFacts_of_product (ctx : SchemaContext) (price : Option JValue) (fs : Obj)
    (ht : typeOf (JValue.obj fs) = some "Product")
    (hp : ∀ r : Obj, ctx.aggregate_rating = some r → r ≠ [] →
      getField? fs "aggregateRating" = some (JValue.obj r)) :
    NodeFacts ctx price (JValue.obj fs) :=
  ⟨fun h => absurd (ht.symm.trans h) (some_ne_of_ne (by decide)),
   fun h => absurd (ht.symm.trans h) (some_ne_of_ne (by decide)),
   fun _ r har hr => ⟨fs, rfl, hp r har hr⟩⟩

theorem nodeFacts_of_faq (ctx : SchemaContext) (price : Option JValue) (fs : Obj)
    (hm : getField? fs "mainEntity" = some (JValue.arr (_faq_entities ctx.faqs)))
    (hne : _faq_entities ctx.faqs ≠ [])
    (ht : typeOf (JValue.obj fs) = some "FAQPage") :
    NodeFacts ctx price (JValue.obj fs) :=
  ⟨fun _ => ⟨fs, rfl, hm, hne⟩,
   fun h => absurd (ht.symm.trans h) (some_ne_of_ne (by decide)),
   fun h => absurd (ht.symm.trans h) (some_ne_of_ne (by decide))⟩

theorem typeOf_obj_eq (fs : Obj) (t : String)
    (h : getField? fs "@type" = some (JValue.str t)) :
    typeOf (JValue.obj fs) = some t := by
  simp [typeOf, h]

theorem nodeFacts_of_faqSeg (ctx : SchemaContext) (price : Option JValue) (x : JValue)
    (nid : String) (extra : Option Obj)
    (hex1 : ∀ e, extra = some e → "mainEntity" ∉ keysOf e)
    (hex2 : ∀ e, extra = some e → "@type" ∉ keysOf e)
    (hx : x ∈ faqSeg (build_faq_page ctx.page_url ctx.faqs nid extra)) :
    NodeFacts ctx price x := by
  cases hbf : build_faq_page ctx.page_url ctx.faqs nid extra with
  | none =>
    rw [hbf] at hx
    cases hx
  | some f =>
    rw [hbf] at hx
    simp only [faqSeg, List.mem_singleton] at hx
    subst hx
    obtain ⟨hne, hf⟩ := build_faq_page_some _ _ _ _ _ hbf
    subst hf
    refine nodeFacts_of_faq _ _ _ ?_ hne (typeOf_obj_eq _ _ ?_)
    · rw [getField?_updateIf_not_mem _ _ _ hex1]
      rfl
    · rw [getField?_updateIf_not_mem _ _ _ hex2]
      rfl

theorem resolve_organization_id_override (s : String) (hne : s ≠ "")
    (h1 : "https://www.naranjax.com/#OrgTarjetaNaranja" ≠ s)
    (h2 : "https://www.naranjax.com/#OrgNaranjaDigital" ≠ s)
    (h3 : "https://www.naranjax.com/#OrgNaranjaX" ≠ s) :
    resolve_organization (some [("@id", JValue.str s)]) "naranja_x"
      = setField ((ORGANIZATIONS_get "naranja_x").getD []) "@id" (JValue.str s) := by
  have htr : jTruthy (JValue.str s) = true := by
    simp [jTruthy, hne]
  have hfind : ORGANIZATIONS_values.find?
      (fun org => jEq (jGet org "@id") (JValue.str s)) = none := by
    rw [List.find?_eq_none]
    intro org horg hc
    simp only [ORGANIZATIONS_values, ORGANIZATIONS, List.map_cons, List.map_nil,
      List.mem_cons, List.not_mem_nil, or_false] at horg
    rcases horg with rfl | rfl | rfl
    · exact h1 (eq_of_beq hc)
    · exact h2 (eq_of_beq hc)
    · exact h3 (eq_of_beq hc)
  simp only [resolve_organization, Option.getD_some,
    show getField? [("@id", JValue.str s)] "org_key" = none from rfl,
    show jGet [("@id", JValue.str s)] "id" = JValue.null from rfl,
    show jGet [("@id", JValue.str s)] "@id" = JValue.str s from rfl,
    show jTruthy JValue.null = false from rfl,
    show getField? [("@id", JValue.str s)] "overrides" = none from rfl,
    Bool.false_eq_true, if_false, htr, if_true, hfind]
  rfl

theorem graphFacts_payment_card (ctx : SchemaContext) (clock : Clock) :
    GraphFacts ctx (some (JValue.str "0")) (build_payment_card_graph ctx clock) := by
  intro x hx
  simp only [build_payment_card_graph] at hx
  rw [append_organization_nil_ids] at hx
  rcases List.mem_append.mp hx with hx1 | horg
  · rcases List.mem_append.mp hx1 with hx2 | hwp
    · rcases List.mem_append.mp hx2 with hx3 | hseg
      · simp only [List.mem_cons, List.not_mem_nil, or_false] at hx3
        rcases hx3 with h | h | h
        · subst h
          refine nodeFacts_of_other _ _ _ "PaymentCard"
            (typeOf_obj_eq _ _ ?_) (by decide) (by decide) (by decide)
          rw [getField?_setIfStr_ne _ _ _ _ _ (by decide)]
          rfl
        · subst h
          refine nodeFacts_of_offer _ _ _ (typeOf_build_offer_node _ _ _ ?_) ?_
          · exact (by decide : ("@type" : String) ∉
              (["name", "price", "priceCurrency", "availability", "areaServed",
                "priceValidUntil"] : List String))
          · refine getField?_build_offer_node _ _ _ "price" _ ?_ (by simp) (by decide)
            exact (by decide : (["name", "price", "priceCurrency", "availability",
              "areaServed", "priceValidUntil"] : List String).Nodup)
        · subst h
          refine nodeFacts_of_product _ _ _ ?_ ?_
          · refine typeOf_build_product_node _ _ _ _ _ _ _ (fun e he => ?_)
            injection he with he2
            subst he2
            exact (by decide : ("@type" : String) ∉ (["url", "offers"] : List String))
          · intro r har hr
            rw [har]
            refine aggregateRating_build_product_node _ _ _ _ _ _ _
              (fun hh => hr (List.isEmpty_iff.mp hh)) (fun e he => ?_)
            injection he with he2
            subst he2
            exact (by decide : ("aggregateRating" : String) ∉
              (["url", "offers"] : List String))
      · exact nodeFacts_of_faqSeg _ _ _ _ _
          (fun e he => Option.noConfusion he) (fun e he => Option.noConfusion he) hseg
    · simp only [List.mem_singleton] at hwp
      subst hwp
      exact nodeFacts_of_other _ _ _ "WebPage"
        (typeOf_build_webpage_node ctx none (fun e he => Option.noConfusion he))
        (by decide) (by decide) (by decide)
  · simp only [List.mem_singleton] at horg
    subst horg
    exact nodeFacts_of_other _ _ _ "Organization" (by decide)
      (by decide) (by decide) (by decide)

theorem getField?_ite_setField_ne (c : Prop) [Decidable c] (n : Obj) (k k' : String)
    (v : JValue) (h : k' ≠ k) :
    getField? (if c then setField n k v else n) k' = getField? n k' := by
  split
  · exact getField?_setField_ne _ _ _ _ h
  · rfl

theorem getField?_ite_else_setField_ne (c : Prop) [Decidable c] (n : Obj) (k k' : String)
    (v : JValue) (h : k' ≠ k) :
    getField? (if c then n else setField n k v) k' = getField? n k' := by
  split
  · rfl
  · exact getField?_setField_ne _ _ _ _ h

theorem getField?_ite_update_not_mem (c : Prop) [Decidable c] (n e : Obj) (k : String)
    (h : k ∉ keysOf e) :
    getField? (if c then n else updateFields n e) k = getField? n k := by
  split
  · rfl
  · exact getField?_updateFields_not_mem _ _ _ (not_mem_keysOf _ _ h)

theorem typeOf_obj_arr (fs : Obj) (xs : List JValue)
    (h : getField? fs "@type" = some (JValue.arr xs)) : typeOf (JValue.obj fs) = none := by
  simp [typeOf, h]

theorem graphFacts_loan (ctx : SchemaContext) (clock : Clock) :
    GraphFacts ctx (some (JValue.str "0"))
      (build_loan_or_credit_graph ctx none none clock) := by
  intro x hx
  simp only [build_loan_or_credit_graph] at hx
  rw [append_organization_nil_ids,
    show ∀ g : List JValue,
        (append_organization g (resolve_organization (some []) "naranja_digital") []).2
          = [JValue.str "https://www.naranjax.com/#OrgNaranjaDigital"] from fun g => rfl,
    append_organization_fresh _ _ _ (by decide)] at hx
  rcases List.mem_append.mp hx with hx0 | horg2
  · rcases List.mem_append.mp hx0 with hx1 | horg1
    · rcases List.mem_append.mp hx1 with hx2 | hwp
      · rcases List.mem_append.mp hx2 with hx3 | hseg
        · simp only [List.mem_cons, List.not_mem_nil, or_false] at hx3
          rcases hx3 with h | h | h
          · subst h
            refine nodeFacts_of_other _ _ _ "LoanOrCredit"
              (typeOf_obj_eq _ _ ?_) (by decide) (by decide) (by decide)
            rw [getField?_setIfStr_ne _ _ _ _ _ (by decide),
              getField?_setIfSome_ne _ _ _ _ (by decide),
              getField?_setIfSome_ne _ _ _ _ (by decide),
              getField?_setIfSome_ne _ _ _ _ (by decide),
              getField?_setIfSome_ne _ _ _ _ (by decide),
              getField?_setIfSome_ne _ _ _ _ (by decide),
              getField?_setIfTruthy_ne _ _ _ _ (by decide)]
            rfl
          · subst h
            refine nodeFacts_of_offer _ _ _ (typeOf_build_offer_node _ _ _ ?_) ?_
            · exact (by decide : ("@type" : String) ∉
                (["name", "priceCurrency", "areaServed", "availability",
                  "priceValidUntil", "price"] : List String))
            · have h0 := getField?_build_offer_node ctx.page_url (ctx.page_url ++ "#Offer")
                [("name", JValue.str ctx.name),
                 ("priceCurrency", JValue.str "ARS"),
                 ("areaServed", JValue.str "AR"),
                 ("availability", JValue.str "https://schema.org/InStock"),
                 ("priceValidUntil", JValue.str (clock.plusDaysISO 365)),
                 ("price", JValue.str "0")]
                "price" (JValue.str "0")
                (by exact (by decide : (["name", "priceCurrency", "areaServed",
                  "availability", "priceValidUntil", "price"] : List String).Nodup))
                (by simp) (by decide)
              exact h0
          · subst h
            refine nodeFacts_of_product _ _ _ ?_ ?_
            · refine typeOf_build_product_node _ _ _ _ _ _ _ (fun e he => ?_)
              injection he with he2
              subst he2
              exact (by decide : ("@type" : String) ∉ (["url", "offers"] : List String))
            · intro r har hr
              rw [har]
              refine aggregateRating_build_product_node _ _ _ _ _ _ _
                (fun hh => hr (List.isEmpty_iff.mp hh)) (fun e he => ?_)
              injection he with he2
              subst he2
              exact (by decide : ("aggregateRating" : String) ∉
                (["url", "offers"] : List String))
        · exact nodeFacts_of_faqSeg _ _ _ _ _
            (fun e he => Option.noConfusion he) (fun e he => Option.noConfusion he) hseg
      · simp only [List.mem_singleton] at hwp
        subst hwp
        exact nodeFacts_of_other _ _ _ "WebPage"
          (typeOf_build_webpage_node ctx none (fun e he => Option.noConfusion he))
          (by decide) (by decide) (by decide)
    · simp only [List.mem_singleton] at horg1
      subst horg1
      exact nodeFacts_of_other _ _ _ "Organization" (by decide)
        (by decide) (by decide) (by decide)
  · simp only [List.mem_singleton] at horg2
    subst horg2
    exact nodeFacts_of_other _ _ _ "Organization" (by decide)
      (by decide) (by decide) (by decide)

theorem graphFacts_bank (ctx : SchemaContext) (clock : Clock) :
    GraphFacts ctx (some (JValue.str "0"))
      (build_bank_account_graph ctx none clock) := by
  intro x hx
  simp only [build_bank_account_graph] at hx
  rw [append_organization_nil_ids] at hx
  rcases List.mem_append.mp hx with hx1 | horg
  · rcases List.mem_append.mp hx1 with hx2 | hwp
    · rcases List.mem_append.mp hx2 with hx3 | hseg
      · simp only [List.mem_cons, List.not_mem_nil, or_false] at hx3
        rcases hx3 with h | h | h
        · subst h
          exact nodeFacts_of_other _ _ _ "BankAccount"
            (typeOf_obj_eq _ _ rfl) (by decide) (by decide) (by decide)
        · subst h
          refine nodeFacts_of_offer _ _ _ (typeOf_build_offer_node _ _ _ ?_) ?_
          · exact (by decide : ("@type" : String) ∉
              (["priceCurrency", "availability", "validFrom", "validThrough",
                "areaServed", "eligibleRegion", "seller", "priceValidUntil",
                "price"] : List String))
          · have h0 := getField?_build_offer_node ctx.page_url (ctx.page_url ++ "#Offer")
              [("priceCurrency", JValue.str "ARS"),
               ("availability", JValue.str "https://schema.org/InStock"),
               ("validFrom", JValue.str clock.todayISO),
               ("validThrough", JValue.str clock.nextYearEndISO),
               ("areaServed", JValue.obj
                 [("@type", JValue.str "Place"), ("name", JValue.str "Argentina"),
                  ("address", JValue.obj
                    [("@type", JValue.str "PostalAddress"),
                     ("addressCountry", JValue.str "AR")])]),
               ("eligibleRegion", JValue.str "AR"),
               ("seller", JValue.obj (organization_reference_key "tarjeta_naranja")),
               ("priceValidUntil",
                 if jTruthy (JValue.str clock.nextYearEndISO) then
                   JValue.str clock.nextYearEndISO
                 else JValue.str (clock.plusDaysISO 365)),
               ("price", JValue.str "0")]
              "price" (JValue.str "0")
              (by exact (by decide : (["priceCurrency", "availability", "validFrom",
                "validThrough", "areaServed", "eligibleRegion", "seller",
                "priceValidUntil", "price"] : List String).Nodup))
              (by simp) (by decide)
            exact h0
        · subst h
          refine nodeFacts_of_product _ _ _ ?_ ?_
          · refine typeOf_build_product_node _ _ _ _ _ _ _ (fun e he => ?_)
            injection he with he2
            subst he2
            exact (by decide : ("@type" : String) ∉ (["url", "offers"] : List String))
          · intro r har hr
            rw [har]
            refine aggregateRating_build_product_node _ _ _ _ _ _ _
              (fun hh => hr (List.isEmpty_iff.mp hh)) (fun e he => ?_)
            injection he with he2
            subst he2
            exact (by decide : ("aggregateRating" : String) ∉
              (["url", "offers"] : List String))
      · refine nodeFacts_of_faqSeg _ _ _ _ _ (fun e he => ?_) (fun e he => ?_) hseg
        · injection he with he2
          subst he2
          exact (by decide : ("mainEntity" : String) ∉
            (["url", "name", "inLanguage"] : List String))
        · injection he with he2
          subst he2
          exact (by decide : ("@type" : String) ∉
            (["url", "name", "inLanguage"] : List String))
    · simp only [List.mem_singleton] at hwp
      subst hwp
      exact nodeFacts_of_other _ _ _ "WebPage"
        (typeOf_build_webpage_node ctx none (fun e he => Option.noConfusion he))
        (by decide) (by decide) (by decide)
  · simp only [List.mem_singleton] at horg
    subst horg
    exact nodeFacts_of_other _ _ _ "Organization" (by decide)
      (by decide) (by decide) (by decide)

theorem graphFacts_service (ctx : SchemaContext) (clock : Clock) :
    GraphFacts ctx (some (JValue.str "0"))
      (build_payment_service_graph ctx none clock) := by
  intro x hx
  simp only [build_payment_service_graph] at hx
  rw [append_organization_nil_ids] at hx
  rcases List.mem_append.mp hx with hx1 | horg
  · rcases List.mem_append.mp hx1 with hx2 | hwp
    · rcases List.mem_append.mp hx2 with hx3 | hseg
      · simp only [List.mem_cons, List.not_mem_nil, or_false] at hx3
        rcases hx3 with h | h | h
        · subst h
          refine nodeFacts_of_other _ _ _ "PaymentService"
            (typeOf_obj_eq _ _ ?_) (by decide) (by decide) (by decide)
          rw [getField?_setIfStr_ne _ _ _ _ _ (by decide)]
          rfl
        · subst h
          refine nodeFacts_of_offer _ _ _ (typeOf_build_offer_node _ _ _ ?_) ?_
          · exact (by decide : ("@type" : String) ∉
              (["priceCurrency", "areaServed", "validFrom", "validThrough",
                "availabilityStarts", "eligibleRegion", "priceValidUntil",
                "price"] : List String))
          · have h0 := getField?_build_offer_node ctx.page_url (ctx.page_url ++ "#Offer")
              [("priceCurrency", JValue.str "ARS"),
               ("areaServed", JValue.obj
                 [("@type", JValue.str "Country"), ("name", JValue.str "Argentina")]),
               ("validFrom", JValue.str clock.todayISO),
               ("validThrough", JValue.str clock.nextYearEndISO),
               ("availabilityStarts", JValue.str clock.todayISO),
               ("eligibleRegion", JValue.str "AR"),
               ("priceValidUntil", JValue.str (clock.plusDaysISO 365)),
               ("price", JValue.str "0")]
              "price" (JValue.str "0")
              (by exact (by decide : (["priceCurrency", "areaServed", "validFrom",
                "validThrough", "availabilityStarts", "eligibleRegion",
                "priceValidUntil", "price"] : List String).Nodup))
              (by simp) (by decide)
            exact h0
        · subst h
          refine nodeFacts_of_product _ _ _ ?_ ?_
          · refine typeOf_build_product_node _ _ _ _ _ _ _ (fun e he => ?_)
            injection he with he2
            subst he2
            exact (by decide : ("@type" : String) ∉
              (["url", "brand", "offers"] : List String))
          · intro r har hr
            rw [har]
            refine aggregateRating_build_product_node _ _ _ _ _ _ _
              (fun hh => hr (List.isEmpty_iff.mp hh)) (fun e he => ?_)
            injection he with he2
            subst he2
            exact (by decide : ("aggregateRating" : String) ∉
              (["url", "brand", "offers"] : List String))
      · exact nodeFacts_of_faqSeg _ _ _ _ _
          (fun e he => Option.noConfusion he) (fun e he => Option.noConfusion he) hseg
    · simp only [List.mem_singleton] at hwp
      subst hwp
      exact nodeFacts_of_other _ _ _ "WebPage"
        (typeOf_build_webpage_node ctx none (fun e he => Option.noConfusion he))
        (by decide) (by decide) (by decide)
  · simp only [List.mem_singleton] at horg
    subst horg
    exact nodeFacts_of_other _ _ _ "Organization" (by decide)
      (by decide) (by decide) (by decide)

theorem graphFacts_financial (ctx : SchemaContext) (clock : Clock) :
    GraphFacts ctx (some (JValue.str "0"))
      (build_financial_product_graph ctx none clock) := by
  intro x hx
  simp only [build_financial_product_graph] at hx
  rw [append_organization_nil_ids] at hx
  rcases List.mem_append.mp hx with hx1 | hwp
  · rcases List.mem_append.mp hx1 with hx2 | hseg
    · rcases List.mem_append.mp hx2 with hx3 | hop
      · rcases List.mem_append.mp hx3 with hfp | horg
        · simp only [List.mem_singleton] at hfp
          subst hfp
          refine nodeFacts_of_other _ _ _ "FinancialProduct"
            (typeOf_obj_eq _ _ ?_) (by decide) (by decide) (by decide)
          rw [getField?_setIfTruthy_ne _ _ _ _ (by decide),
            getField?_setIfStr_ne _ _ _ _ _ (by decide)]
          rfl
        · simp only [List.mem_singleton] at horg
          subst horg
          exact nodeFacts_of_other _ _ _ "Organization" (by decide)
            (by decide) (by decide) (by decide)
      · simp only [List.mem_cons, List.not_mem_nil, or_false] at hop
        rcases hop with h | h
        · subst h
          refine nodeFacts_of_offer _ _ _ (typeOf_build_offer_node _ _ _ ?_) ?_
          · exact (by decide : ("@type" : String) ∉
              (["priceCurrency", "areaServed", "validFrom", "validThrough",
                "itemOffered", "priceValidUntil", "price",
                "priceSpecification"] : List String))
          · have h0 := getField?_build_offer_node ctx.page_url (ctx.page_url ++ "#Offer")
              [("priceCurrency", JValue.str "ARS"),
               ("areaServed", JValue.str "AR"),
               ("validFrom", JValue.str (clock.plusDaysISO 0)),
               ("validThrough", JValue.str (clock.plusDaysISO 30)),
               ("itemOffered", JValue.obj
                 [("@id", JValue.str (ctx.page_url ++ "#financial-product"))]),
               ("priceValidUntil", JValue.str (clock.plusDaysISO 365)),
               ("price", JValue.str "0"),
               ("priceSpecification", JValue.obj
                 [("@type", JValue.str "UnitPriceSpecification"),
                  ("billingIncrement", JValue.str "1"),
                  ("price", JValue.str "0"),
                  ("priceCurrency", JValue.str "ARS"),
                  ("description", JValue.str
                    (pyReplace "Hasta 3 cuotas sin interés. \x7brates_text\x7d."
                      "\x7brates_text\x7d" (ratesText FINANCIAL_PRODUCT_ZERO_RATES)))])]
              "price" (JValue.str "0")
              (by exact (by decide : (["priceCurrency", "areaServed", "validFrom",
                "validThrough", "itemOffered", "priceValidUntil", "price",
                "priceSpecification"] : List String).Nodup))
              (by simp) (by decide)
            exact h0
        · subst h
          refine nodeFacts_of_product _ _ _ ?_ ?_
          · refine typeOf_build_product_node _ _ _ _ _ _ _ (fun e he => ?_)
            injection he with he2
            subst he2
            exact (by decide : ("@type" : String) ∉ (["url", "offers"] : List String))
          · intro r har hr
            rw [har]
            refine aggregateRating_build_product_node _ _ _ _ _ _ _
              (fun hh => hr (List.isEmpty_iff.mp hh)) (fun e he => ?_)
            injection he with he2
            subst he2
            exact (by decide : ("aggregateRating" : String) ∉
              (["url", "offers"] : List String))
    · exact nodeFacts_of_faqSeg _ _ _ _ _
        (fun e he => Option.noConfusion he) (fun e he => Option.noConfusion he) hseg
  · simp only [List.mem_singleton] at hwp
    subst hwp
    exact nodeFacts_of_other _ _ _ "WebPage"
      (typeOf_build_webpage_node ctx none (fun e he => Option.noConfusion he))
      (by decide) (by decide) (by decide)

theorem graphFacts_investment (ctx : SchemaContext) (clock : Clock) :
    GraphFacts ctx none (build_investment_or_deposit_graph ctx none clock) := by
  intro x hx
  simp only [build_investment_or_deposit_graph] at hx
  rw [append_organization_nil_ids] at hx
  rcases List.mem_append.mp hx with hx1 | hwp
  · rcases List.mem_append.mp hx1 with hx2 | hseg
    · rcases List.mem_append.mp hx2 with hx3 | hop
      · rcases List.mem_append.mp hx3 with hinv | horg
        · simp only [List.mem_singleton] at hinv
          subst hinv
          refine nodeFacts_of_none _ _ _
            (typeOf_obj_arr _ [JValue.str "InvestmentOrDeposit"] ?_)
          rw [getField?_setIfTruthy_ne _ _ _ _ (by decide),
            getField?_setIfStr_ne _ _ _ _ _ (by decide),
            getField?_setIfTruthy_ne _ _ _ _ (by decide),
            getField?_setIfTruthy_ne _ _ _ _ (by decide),
            getField?_setIfTruthy_ne _ _ _ _ (by decide)]
          rfl
        · simp only [List.mem_singleton] at horg
          subst horg
          exact nodeFacts_of_other _ _ _ "Organization" (by decide)
            (by decide) (by decide) (by decide)
      · simp only [List.mem_cons, List.not_mem_nil, or_false] at hop
        rcases hop with h | h
        · subst h
          refine nodeFacts_of_offer _ _ _ (typeOf_build_offer_node _ _ _ ?_) ?_
          · exact (by decide : ("@type" : String) ∉
              (["name", "priceCurrency", "areaServed", "eligibleRegion",
                "availability", "validFrom", "validThrough", "priceValidUntil",
                "eligibleDuration"] : List String))
          · refine getField?_build_offer_node_absent _ _ _ "price" ?_
              (by decide) (by decide) (by decide)
            exact (by decide : ("price" : String) ∉
              (["name", "priceCurrency", "areaServed", "eligibleRegion",
                "availability", "validFrom", "validThrough", "priceValidUntil",
                "eligibleDuration"] : List String))
        · subst h
          refine nodeFacts_of_product _ _ _ ?_ ?_
          · refine typeOf_build_product_node _ _ _ _ _ _ _ (fun e he => ?_)
            injection he with he2
            subst he2
            exact (by decide : ("@type" : String) ∉ (["url", "offers"] : List String))
          · intro r har hr
            rw [har]
            refine aggregateRating_build_product_node _ _ _ _ _ _ _
              (fun hh => hr (List.isEmpty_iff.mp hh)) (fun e he => ?_)
            injection he with he2
            subst he2
            exact (by decide : ("aggregateRating" : String) ∉
              (["url", "offers"] : List String))
    · exact nodeFacts_of_faqSeg _ _ _ _ _
        (fun e he => Option.noConfusion he) (fun e he => Option.noConfusion he) hseg
  · simp only [List.mem_singleton] at hwp
    subst hwp
    exact nodeFacts_of_other _ _ _ "WebPage"
      (typeOf_build_webpage_node ctx none (fun e he => Option.noConfusion he))
      (by decide) (by decide) (by decide)

theorem graphFacts_insurance (ctx : SchemaContext) (clock : Clock) :
    GraphFacts ctx (some (JValue.str "0"))
      (build_insurance_agency_graph ctx none clock) := by
  intro x hx
  simp only [build_insurance_agency_graph] at hx
  rw [append_organization_nil_ids] at hx
  rcases List.mem_append.mp hx with hx1 | horg
  · rcases List.mem_append.mp hx1 with hx2 | hwp
    · rcases List.mem_append.mp hx2 with hx3 | hseg
      · simp only [List.mem_cons, List.not_mem_nil, or_false] at hx3
        rcases hx3 with h | h | h
        · subst h
          refine nodeFacts_of_other _ _ _ "InsuranceAgency"
            (typeOf_obj_eq _ _ ?_) (by decide) (by decide) (by decide)
          rw [getField?_setIfTruthy_ne _ _ _ _ (by decide),
            getField?_setIfTruthy_ne _ _ _ _ (by decide),
            getField?_setIfObj_ne _ _ _ _ (by decide),
            getField?_setIfSome_ne _ _ _ _ (by decide)]
          rfl
        · subst h
          refine nodeFacts_of_offer _ _ _ (typeOf_build_offer_node _ _ _ ?_) ?_
          · exact (by decide : ("@type" : String) ∉
              (["name", "priceCurrency", "availability", "areaServed",
                "eligibleRegion", "priceValidUntil", "price"] : List String))
          · have h0 := getField?_build_offer_node ctx.page_url
              (ctx.page_url ++ "#offer-basica")
              [("name", JValue.str "Cobertura Básica"),
               ("priceCurrency", JValue.str "ARS"),
               ("availability", JValue.str "https://schema.org/InStock"),
               ("areaServed", JValue.str "AR"),
               ("eligibleRegion", JValue.str "AR"),
               ("priceValidUntil", JValue.str (clock.plusDaysISO 365)),
               ("price", JValue.str "0")]
              "price" (JValue.str "0")
              (by exact (by decide : (["name", "priceCurrency", "availability",
                "areaServed", "eligibleRegion", "priceValidUntil",
                "price"] : List String).Nodup))
              (by simp) (by decide)
            exact h0
        · subst h
          refine nodeFacts_of_product _ _ _ (typeOf_obj_eq _ _ ?_) ?_
          · rw [getField?_setIfTruthy_ne _ _ _ _ (by decide),
              getField?_build_product_node_base _ _ _ _ _ _ _ _
                (by decide) (by decide) (by decide) (fun e he => ?_)]
            · rfl
            · injection he with he2
              subst he2
              exact (by decide : ("@type" : String) ∉ (["url", "offers"] : List String))
          · intro r har hr
            rw [getField?_setIfTruthy_ne _ _ _ _ (by decide), har]
            refine aggregateRating_build_product_node _ _ _ _ _ _ _
              (fun hh => hr (List.isEmpty_iff.mp hh)) (fun e he => ?_)
            injection he with he2
            subst he2
            exact (by decide : ("aggregateRating" : String) ∉
              (["url", "offers"] : List String))
      · exact nodeFacts_of_faqSeg _ _ _ _ _
          (fun e he => Option.noConfusion he) (fun e he => Option.noConfusion he) hseg
    · simp only [List.mem_singleton] at hwp
      subst hwp
      exact nodeFacts_of_other _ _ _ "WebPage"
        (typeOf_build_webpage_node ctx none (fun e he => Option.noConfusion he))
        (by decide) (by decide) (by decide)
  · simp only [List.mem_singleton] at horg
    subst horg
    refine nodeFacts_of_other _ _ _ "Organization"
      (typeOf_obj_eq _ _ ?_) (by decide) (by decide) (by decide)
    show getField?
        (resolve_organization
          (some [("@id", JValue.str (ctx.page_url ++ "#insurance-agency"))]) "naranja_x")
        "@type" = some (JValue.str "Organization")
    rw [resolve_organization_id_override (ctx.page_url ++ "#insurance-agency")
      (append_ne_empty ctx.page_url "#insurance-agency" (by decide))
      (Ne.symm (append_ne_of_ne_suffix ctx.page_url "#insurance-agency" _ (by decide)))
      (Ne.symm (append_ne_of_ne_suffix ctx.page_url "#insurance-agency" _ (by decide)))
      (Ne.symm (append_ne_of_ne_suffix ctx.page_url "#insurance-agency" _ (by decide))),
      getField?_setField_ne _ _ _ _ (by decide)]
    rfl

theorem graphFacts_blog (ctx : SchemaContext) (clock : Clock) :
    GraphFacts ctx (some (JValue.str "0"))
      (build_blog_posting_graph ctx none clock) := by
  intro x hx
  simp only [build_blog_posting_graph] at hx
  rcases mem_append_organization x _ _ _ hx with hx0 | horgP
  case inr =>
    subst horgP
    exact nodeFacts_of_other _ _ _ "Organization" (by decide)
      (by decide) (by decide) (by decide)
  rcases mem_append_organization x _ _ _ hx0 with hx1 | horg
  · simp only [List.mem_cons, List.not_mem_nil, or_false] at hx1
    rcases hx1 with h | h
    · subst h
      refine nodeFacts_of_other _ _ _ "BlogPosting"
        (typeOf_obj_eq _ _ ?_) (by decide) (by decide) (by decide)
      rw [getField?_ite_update_not_mem _ _ _ _
          (by exact (by decide : ("@type" : String) ∉ ([] : List String))),
        getField?_ite_setField_ne _ _ _ _ _ (by decide),
        getField?_ite_setField_ne _ _ _ _ _ (by decide),
        getField?_ite_setField_ne _ _ _ _ _ (by decide),
        getField?_ite_setField_ne _ _ _ _ _ (by decide),
        getField?_setIfSome_ne _ _ _ _ (by decide),
        getField?_ite_setField_ne _ _ _ _ _ (by decide),
        getField?_setIfStr_ne _ _ _ _ _ (by decide),
        getField?_ite_else_setField_ne _ _ _ _ _ (by decide)]
      rfl
    · subst h
      refine nodeFacts_of_other _ _ _ "WebPage"
        (typeOf_build_webpage_node ctx _ (fun e he => ?_)) (by decide) (by decide) (by decide)
      injection he with he2
      subst he2
      exact (by decide : ("@type" : String) ∉ (["publisher", "inLanguage"] : List String))
  · subst horg
    exact nodeFacts_of_other _ _ _ "Organization" (by decide)
      (by decide) (by decide) (by decide)

theorem idOf?_obj_eq (fs : Obj) (s : String)
    (h : getField? fs "@id" = some (JValue.str s)) : idOf? (JValue.obj fs) = some s := by
  simp [idOf?, h]

theorem nodup_ids_payment_card (ctx : SchemaContext) (clock : Clock) :
    (idsOf (build_payment_card_graph ctx clock)).Nodup := by
  simp only [build_payment_card_graph]
  rw [append_organization_nil_ids]
  cases hbf : build_faq_page ctx.page_url ctx.faqs (ctx.page_url ++ "#FAQPage") none with
  | none =>
    simp only [faqSeg, idsOf, List.filterMap_append, List.filterMap_nil]
    rw [List.filterMap_cons_some (idOf?_obj_eq _ _ (by
        rw [getField?_setIfStr_ne _ _ _ _ _ (by decide)]
        rfl)),
      List.filterMap_cons_some (idOf?_build_offer_node _ _ _
        (by exact (by decide : ("@id" : String) ∉
          (["name", "price", "priceCurrency", "availability", "areaServed",
            "priceValidUntil"] : List String)))),
      List.filterMap_cons_some (idOf?_build_product_node _ _ _ _ _ _ _
        (fun e he => by
          injection he with he2
          subst he2
          exact (by decide : ("@id" : String) ∉ (["url", "offers"] : List String)))),
      List.filterMap_cons_some (idOf?_build_webpage_node _ _
        (fun e he => Option.noConfusion he)),
      List.filterMap_cons_some
        (show idOf? (JValue.obj (resolve_organization (some []) "tarjeta_naranja"))
            = some "https://www.naranjax.com/#OrgTarjetaNaranja" from rfl),
      List.filterMap_nil]
    exact nodup_tagVal ctx.page_url
      [(true, "#PaymentCard"), (true, "#Offer"), (true, "#Product"),
       (true, "#WebPage"), (false, "https://www.naranjax.com/#OrgTarjetaNaranja")]
      (by decide)
  | some f =>
    obtain ⟨hne, hf⟩ := build_faq_page_some _ _ _ _ _ hbf
    rw [hf]
    simp only [faqSeg, idsOf, List.filterMap_append]
    rw [List.filterMap_cons_some (idOf?_obj_eq _ _ (by
        rw [getField?_setIfStr_ne _ _ _ _ _ (by decide)]
        rfl)),
      List.filterMap_cons_some (idOf?_build_offer_node _ _ _
        (by exact (by decide : ("@id" : String) ∉
          (["name", "price", "priceCurrency", "availability", "areaServed",
            "priceValidUntil"] : List String)))),
      List.filterMap_cons_some (idOf?_build_product_node _ _ _ _ _ _ _
        (fun e he => by
          injection he with he2
          subst he2
          exact (by decide : ("@id" : String) ∉ (["url", "offers"] : List String)))),
      List.filterMap_cons_some (idOf?_obj_eq _ _ (by
        rw [getField?_updateIf_not_mem _ _ _ (fun e he => Option.noConfusion he)]
        rfl)),
      List.filterMap_cons_some (idOf?_build_webpage_node _ _
        (fun e he => Option.noConfusion he)),
      List.filterMap_cons_some
        (show idOf? (JValue.obj (resolve_organization (some []) "tarjeta_naranja"))
            = some "https://www.naranjax.com/#OrgTarjetaNaranja" from rfl),
      List.filterMap_nil]
    exact nodup_tagVal ctx.page_url
      [(true, "#PaymentCard"), (true, "#Offer"), (true, "#Product"), (true, "#FAQPage"),
       (true, "#WebPage"), (false, "https://www.naranjax.com/#OrgTarjetaNaranja")]
      (by decide)

theorem nodup_ids_loan (ctx : SchemaContext) (clock : Clock) :
    (idsOf (build_loan_or_credit_graph ctx none none clock)).Nodup := by
  simp only [build_loan_or_credit_graph]
  rw [append_organization_nil_ids,
    show ∀ g : List JValue,
        (append_organization g (resolve_organization (some []) "naranja_digital") []).2
          = [JValue.str "https://www.naranjax.com/#OrgNaranjaDigital"] from fun g => rfl,
    append_organization_fresh _ _ _ (by decide)]
  cases hbf : build_faq_page ctx.page_url ctx.faqs (ctx.page_url ++ "#FAQPage") none with
  | none =>
    simp only [faqSeg, idsOf, List.filterMap_append, List.filterMap_nil]
    rw [List.filterMap_cons_some (idOf?_obj_eq _ _ (by
        rw [getField?_setIfStr_ne _ _ _ _ _ (by decide),
          getField?_setIfSome_ne _ _ _ _ (by decide),
          getField?_setIfSome_ne _ _ _ _ (by decide),
          getField?_setIfSome_ne _ _ _ _ (by decide),
          getField?_setIfSome_ne _ _ _ _ (by decide),
          getField?_setIfSome_ne _ _ _ _ (by decide),
          getField?_setIfTruthy_ne _ _ _ _ (by decide)]
        rfl)),
      List.filterMap_cons_some (idOf?_build_offer_node _ _ _
        (by exact (by decide : ("@id" : String) ∉
          (["name", "priceCurrency", "areaServed", "availability",
            "priceValidUntil", "price"] : List String)))),
      List.filterMap_cons_some (idOf?_build_product_node _ _ _ _ _ _ _
        (fun e he => by
          injection he with he2
          subst he2
          exact (by decide : ("@id" : String) ∉ (["url", "offers"] : List String)))),
      List.filterMap_cons_some (idOf?_build_webpage_node _ _
        (fun e he => Option.noConfusion he)),
      List.filterMap_cons_some (idOf?_obj_eq _ _
        (by exact (rfl : _ = some (JValue.str "https://www.naranjax.com/#OrgNaranjaDigital")))),
      List.filterMap_cons_some (idOf?_obj_eq _ _
        (by exact (rfl : _ = some (JValue.str "https://www.naranjax.com/#OrgTarjetaNaranja")))),
      List.filterMap_nil]
    exact nodup_tagVal ctx.page_url
      [(true, "#LoanOrCredit"), (true, "#Offer"), (true, "#Product"),
       (true, "#WebPage"), (false, "https://www.naranjax.com/#OrgNaranjaDigital"),
       (false, "https://www.naranjax.com/#OrgTarjetaNaranja")]
      (by decide)
  | some f =>
    obtain ⟨hne, hf⟩ := build_faq_page_some _ _ _ _ _ hbf
    rw [hf]
    simp only [faqSeg, idsOf, List.filterMap_append]
    rw [List.filterMap_cons_some (idOf?_obj_eq _ _ (by
        rw [getField?_setIfStr_ne _ _ _ _ _ (by decide),
          getField?_setIfSome_ne _ _ _ _ (by decide),
          getField?_setIfSome_ne _ _ _ _ (by decide),
          getField?_setIfSome_ne _ _ _ _ (by decide),
          getField?_setIfSome_ne _ _ _ _ (by decide),
          getField?_setIfSome_ne _ _ _ _ (by decide),
          getField?_setIfTruthy_ne _ _ _ _ (by decide)]
        rfl)),
      List.filterMap_cons_some (idOf?_build_offer_node _ _ _
        (by exact (by decide : ("@id" : String) ∉
          (["name", "priceCurrency", "areaServed", "availability",
            "priceValidUntil", "price"] : List String)))),
      List.filterMap_cons_some (idOf?_build_product_node _ _ _ _ _ _ _
        (fun e he => by
          injection he with he2
          subst he2
          exact (by decide : ("@id" : String) ∉ (["url", "offers"] : List String)))),
      List.filterMap_cons_some (idOf?_obj_eq _ _ (by
        rw [getField?_updateIf_not_mem _ _ _ (fun e he => Option.noConfusion he)]
        rfl)),
      List.filterMap_cons_some (idOf?_build_webpage_node _ _
        (fun e he => Option.noConfusion he)),
      List.filterMap_cons_some (idOf?_obj_eq _ _
        (by exact (rfl : _ = some (JValue.str "https://www.naranjax.com/#OrgNaranjaDigital")))),
      List.filterMap_cons_some (idOf?_obj_eq _ _
        (by exact (rfl : _ = some (JValue.str "https://www.naranjax.com/#OrgTarjetaNaranja")))),
      List.filterMap_nil]
    exact nodup_tagVal ctx.page_url
      [(true, "#LoanOrCredit"), (true, "#Offer"), (true, "#Product"), (true, "#FAQPage"),
       (true, "#WebPage"), (false, "https://www.naranjax.com/#OrgNaranjaDigital"),
       (false, "https://www.naranjax.com/#OrgTarjetaNaranja")]
      (by decide)

theorem nodup_ids_bank (ctx : SchemaContext) (clock : Clock) :
    (idsOf (build_bank_account_graph ctx none clock)).Nodup := by
  simp only [build_bank_account_graph]
  rw [append_organization_nil_ids]
  cases hbf : build_faq_page ctx.page_url ctx.faqs (ctx.page_url ++ "#faq")
      (some [("url", JValue.str ctx.page_url),
             ("name", JValue.str ("Preguntas frecuentes sobre " ++ ctx.name)),
             ("inLanguage", JValue.str DEFAULT_LANGUAGE)]) with
  | none =>
    simp only [faqSeg, idsOf, List.filterMap_append, List.filterMap_nil]
    rw [List.filterMap_cons_some (idOf?_obj_eq _ _
        (by exact (rfl : _ = some (JValue.str (ctx.page_url ++ "#bankaccount"))))),
      List.filterMap_cons_some (idOf?_build_offer_node _ _ _
        (by exact (by decide : ("@id" : String) ∉
          (["priceCurrency", "availability", "validFrom", "validThrough",
            "areaServed", "eligibleRegion", "seller", "priceValidUntil",
            "price"] : List String)))),
      List.filterMap_cons_some (idOf?_build_product_node _ _ _ _ _ _ _
        (fun e he => by
          injection he with he2
          subst he2
          exact (by decide : ("@id" : String) ∉ (["url", "offers"] : List String)))),
      List.filterMap_cons_some (idOf?_build_webpage_node _ _
        (fun e he => Option.noConfusion he)),
      List.filterMap_cons_some (idOf?_obj_eq _ _
        (by exact (rfl : _ = some (JValue.str "https://www.naranjax.com/#OrgTarjetaNaranja")))),
      List.filterMap_nil]
    exact nodup_tagVal ctx.page_url
      [(true, "#bankaccount"), (true, "#Offer"), (true, "#Product"),
       (true, "#WebPage"), (false, "https://www.naranjax.com/#OrgTarjetaNaranja")]
      (by decide)
  | some f =>
    obtain ⟨hne, hf⟩ := build_faq_page_some _ _ _ _ _ hbf
    rw [hf]
    simp only [faqSeg, idsOf, List.filterMap_append]
    rw [List.filterMap_cons_some (idOf?_obj_eq _ _
        (by exact (rfl : _ = some (JValue.str (ctx.page_url ++ "#bankaccount"))))),
      List.filterMap_cons_some (idOf?_build_offer_node _ _ _
        (by exact (by decide : ("@id" : String) ∉
          (["priceCurrency", "availability", "validFrom", "validThrough",
            "areaServed", "eligibleRegion", "seller", "priceValidUntil",
            "price"] : List String)))),
      List.filterMap_cons_some (idOf?_build_product_node _ _ _ _ _ _ _
        (fun e he => by
          injection he with he2
          subst he2
          exact (by decide : ("@id" : String) ∉ (["url", "offers"] : List String)))),
      List.filterMap_cons_some (idOf?_obj_eq _ _ (by
        rw [getField?_updateIf_not_mem _ _ _ (fun e he => by
          injection he with he2
          subst he2
          exact (by decide : ("@id" : String) ∉
            (["url", "name", "inLanguage"] : List String)))]
        rfl)),
      List.filterMap_cons_some (idOf?_build_webpage_node _ _
        (fun e he => Option.noConfusion he)),
      List.filterMap_cons_some (idOf?_obj_eq _ _
        (by exact (rfl : _ = some (JValue.str "https://www.naranjax.com/#OrgTarjetaNaranja")))),
      List.filterMap_nil]
    exact nodup_tagVal ctx.page_url
      [(true, "#bankaccount"), (true, "#Offer"), (true, "#Product"), (true, "#faq"),
       (true, "#WebPage"), (false, "https://www.naranjax.com/#OrgTarjetaNaranja")]
      (by decide)

theorem nodup_ids_service (ctx : SchemaContext) (clock : Clock) :
    (idsOf (build_payment_service_graph ctx none clock)).Nodup := by
  simp only [build_payment_service_graph]
  rw [append_organization_nil_ids]
  cases hbf : build_faq_page ctx.page_url ctx.faqs (ctx.page_url ++ "#FAQPage") none with
  | none =>
    simp only [faqSeg, idsOf, List.filterMap_append, List.filterMap_nil]
    rw [List.filterMap_cons_some (idOf?_obj_eq _ _ (by
        rw [getField?_setIfStr_ne _ _ _ _ _ (by decide)]
        rfl)),
      List.filterMap_cons_some (idOf?_build_offer_node _ _ _
        (by exact (by decide : ("@id" : String) ∉
          (["priceCurrency", "areaServed", "validFrom", "validThrough",
            "availabilityStarts", "eligibleRegion", "priceValidUntil",
            "price"] : List String)))),
      List.filterMap_cons_some (idOf?_build_product_node _ _ _ _ _ _ _
        (fun e he => by
          injection he with he2
          subst he2
          exact (by decide : ("@id" : String) ∉
            (["url", "brand", "offers"] : List String)))),
      List.filterMap_cons_some (idOf?_build_webpage_node _ _
        (fun e he => Option.noConfusion he)),
      List.filterMap_cons_some (idOf?_obj_eq _ _
        (by exact (rfl : _ = some (JValue.str "https://www.naranjax.com/#OrgNaranjaX")))),
      List.filterMap_nil]
    exact nodup_tagVal ctx.page_url
      [(true, "#PaymentService"), (true, "#Offer"), (true, "#Product"),
       (true, "#WebPage"), (false, "https://www.naranjax.com/#OrgNaranjaX")]
      (by decide)
  | some f =>
    obtain ⟨hne, hf⟩ := build_faq_page_some _ _ _ _ _ hbf
    rw [hf]
    simp only [faqSeg, idsOf, List.filterMap_append]
    rw [List.filterMap_cons_some (idOf?_obj_eq _ _ (by
        rw [getField?_setIfStr_ne _ _ _ _ _ (by decide)]
        rfl)),
      List.filterMap_cons_some (idOf?_build_offer_node _ _ _
        (by exact (by decide : ("@id" : String) ∉
          (["priceCurrency", "areaServed", "validFrom", "validThrough",
            "availabilityStarts", "eligibleRegion", "priceValidUntil",
            "price"] : List String)))),
      List.filterMap_cons_some (idOf?_build_product_node _ _ _ _ _ _ _
        (fun e he => by
          injection he with he2
          subst he2
          exact (by decide : ("@id" : String) ∉
            (["url", "brand", "offers"] : List String)))),
      List.filterMap_cons_some (idOf?_obj_eq _ _ (by
        rw [getField?_updateIf_not_mem _ _ _ (fun e he => Option.noConfusion he)]
        rfl)),
      List.filterMap_cons_some (idOf?_build_webpage_node _ _
        (fun e he => Option.noConfusion he)),
      List.filterMap_cons_some (idOf?_obj_eq _ _
        (by exact (rfl : _ = some (JValue.str "https://www.naranjax.com/#OrgNaranjaX")))),
      List.filterMap_nil]
    exact nodup_tagVal ctx.page_url
      [(true, "#PaymentService"), (true, "#Offer"), (true, "#Product"), (true, "#FAQPage"),
       (true, "#WebPage"), (false, "https://www.naranjax.com/#OrgNaranjaX")]
      (by decide)

theorem nodup_ids_financial (ctx : SchemaContext) (clock : Clock) :
    (idsOf (build_financial_product_graph ctx none clock)).Nodup := by
  simp only [build_financial_product_graph]
  rw [append_organization_nil_ids]
  cases hbf : build_faq_page ctx.page_url ctx.faqs
      (ctx.page_url ++ pyStr (jGetD ((none : Option Obj).getD []) "faq_id_suffix"
        (jGetD FINANCIAL_PRODUCT_DEFAULTS "faq_id_suffix" (JValue.str "#FAQPage")))) none with
  | none =>
    simp only [faqSeg, idsOf, List.filterMap_append, List.filterMap_nil]
    rw [List.filterMap_cons_some (idOf?_obj_eq _ _ (by
        rw [getField?_setIfTruthy_ne _ _ _ _ (by decide),
          getField?_setIfStr_ne _ _ _ _ _ (by decide)]
        rfl)),
      List.filterMap_cons_some (idOf?_obj_eq _ _
        (by exact (rfl : _ = some (JValue.str "https://www.naranjax.com/#OrgTarjetaNaranja")))),
      List.filterMap_cons_some (idOf?_build_offer_node _ _ _
        (by exact (by decide : ("@id" : String) ∉
          (["priceCurrency", "areaServed", "validFrom", "validThrough",
            "itemOffered", "priceValidUntil", "price",
            "priceSpecification"] : List String)))),
      List.filterMap_cons_some (idOf?_build_product_node _ _ _ _ _ _ _
        (fun e he => by
          injection he with he2
          subst he2
          exact (by decide : ("@id" : String) ∉ (["url", "offers"] : List String)))),
      List.filterMap_cons_some (idOf?_build_webpage_node _ _
        (fun e he => Option.noConfusion he)),
      List.filterMap_nil]
    exact nodup_tagVal ctx.page_url
      [(true, "#FinancialProduct"), (false, "https://www.naranjax.com/#OrgTarjetaNaranja"),
       (true, "#Offer"), (true, "#financial-product"), (true, "#WebPage")]
      (by decide)
  | some f =>
    obtain ⟨hne, hf⟩ := build_faq_page_some _ _ _ _ _ hbf
    rw [hf]
    simp only [faqSeg, idsOf, List.filterMap_append]
    rw [List.filterMap_cons_some (idOf?_obj_eq _ _ (by
        rw [getField?_setIfTruthy_ne _ _ _ _ (by decide),
          getField?_setIfStr_ne _ _ _ _ _ (by decide)]
        rfl)),
      List.filterMap_cons_some (idOf?_obj_eq _ _
        (by exact (rfl : _ = some (JValue.str "https://www.naranjax.com/#OrgTarjetaNaranja")))),
      List.filterMap_cons_some (idOf?_build_offer_node _ _ _
        (by exact (by decide : ("@id" : String) ∉
          (["priceCurrency", "areaServed", "validFrom", "validThrough",
            "itemOffered", "priceValidUntil", "price",
            "priceSpecification"] : List String)))),
      List.filterMap_cons_some (idOf?_build_product_node _ _ _ _ _ _ _
        (fun e he => by
          injection he with he2
          subst he2
          exact (by decide : ("@id" : String) ∉ (["url", "offers"] : List String)))),
      List.filterMap_cons_some (idOf?_obj_eq _ _ (by
        rw [getField?_updateIf_not_mem _ _ _ (fun e he => Option.noConfusion he)]
        exact (rfl : _ = some (JValue.str (ctx.page_url ++ "#FAQPage"))))),
      List.filterMap_cons_some (idOf?_build_webpage_node _ _
        (fun e he => Option.noConfusion he)),
      List.filterMap_nil]
    exact nodup_tagVal ctx.page_url
      [(true, "#FinancialProduct"), (false, "https://www.naranjax.com/#OrgTarjetaNaranja"),
       (true, "#Offer"), (true, "#financial-product"), (true, "#FAQPage"), (true, "#WebPage")]
      (by decide)

theorem nodup_ids_investment (ctx : SchemaContext) (clock : Clock) :
    (idsOf (build_investment_or_deposit_graph ctx none clock)).Nodup := by
  simp only [build_investment_or_deposit_graph]
  rw [append_organization_nil_ids]
  cases hbf : build_faq_page ctx.page_url ctx.faqs
      (ctx.page_url ++ pyStr (jGetD ((none : Option Obj).getD []) "faq_id_suffix"
        (jGetD INVESTMENT_OR_DEPOSIT_DEFAULTS "faq_id_suffix" (JValue.str "#FAQPage")))) none with
  | none =>
    simp only [faqSeg, idsOf, List.filterMap_append, List.filterMap_nil]
    rw [List.filterMap_cons_some (idOf?_obj_eq _ _ (by
        rw [getField?_setIfTruthy_ne _ _ _ _ (by decide),
          getField?_setIfStr_ne _ _ _ _ _ (by decide),
          getField?_setIfTruthy_ne _ _ _ _ (by decide),
          getField?_setIfTruthy_ne _ _ _ _ (by decide),
          getField?_setIfTruthy_ne _ _ _ _ (by decide)]
        exact (rfl : _ = some (JValue.str (ctx.page_url ++ "#producto"))))),
      List.filterMap_cons_some (idOf?_obj_eq _ _
        (by exact (rfl : _ = some (JValue.str "https://www.naranjax.com/#OrgNaranjaX")))),
      List.filterMap_cons_some (idOf?_build_offer_node _ _ _
        (by exact (by decide : ("@id" : String) ∉
          (["name", "priceCurrency", "areaServed", "eligibleRegion",
            "availability", "validFrom", "validThrough", "priceValidUntil",
            "eligibleDuration"] : List String)))),
      List.filterMap_cons_some (idOf?_build_product_node _ _ _ _ _ _ _
        (fun e he => by
          injection he with he2
          subst he2
          exact (by decide : ("@id" : String) ∉ (["url", "offers"] : List String)))),
      List.filterMap_cons_some (idOf?_build_webpage_node _ _
        (fun e he => Option.noConfusion he)),
      List.filterMap_nil]
    exact nodup_tagVal ctx.page_url
      [(true, "#producto"), (false, "https://www.naranjax.com/#OrgNaranjaX"),
       (true, "#offer"), (true, "#product"), (true, "#WebPage")]
      (by decide)
  | some f =>
    obtain ⟨hne, hf⟩ := build_faq_page_some _ _ _ _ _ hbf
    rw [hf]
    simp only [faqSeg, idsOf, List.filterMap_append]
    rw [List.filterMap_cons_some (idOf?_obj_eq _ _ (by
        rw [getField?_setIfTruthy_ne _ _ _ _ (by decide),
          getField?_setIfStr_ne _ _ _ _ _ (by decide),
          getField?_setIfTruthy_ne _ _ _ _ (by decide),
          getField?_setIfTruthy_ne _ _ _ _ (by decide),
          getField?_setIfTruthy_ne _ _ _ _ (by decide)]
        exact (rfl : _ = some (JValue.str (ctx.page_url ++ "#producto"))))),
      List.filterMap_cons_some (idOf?_obj_eq _ _
        (by exact (rfl : _ = some (JValue.str "https://www.naranjax.com/#OrgNaranjaX")))),
      List.filterMap_cons_some (idOf?_build_offer_node _ _ _
        (by exact (by decide : ("@id" : String) ∉
          (["name", "priceCurrency", "areaServed", "eligibleRegion",
            "availability", "validFrom", "validThrough", "priceValidUntil",
            "eligibleDuration"] : List String)))),
      List.filterMap_cons_some (idOf?_build_product_node _ _ _ _ _ _ _
        (fun e he => by
          injection he with he2
          subst he2
          exact (by decide : ("@id" : String) ∉ (["url", "offers"] : List String)))),
      List.filterMap_cons_some (idOf?_obj_eq _ _ (by
        rw [getField?_updateIf_not_mem _ _ _ (fun e he => Option.noConfusion he)]
        exact (rfl : _ = some (JValue.str (ctx.page_url ++ "#FAQPage"))))),
      List.filterMap_cons_some (idOf?_build_webpage_node _ _
        (fun e he => Option.noConfusion he)),
      List.filterMap_nil]
    exact nodup_tagVal ctx.page_url
      [(true, "#producto"), (false, "https://www.naranjax.com/#OrgNaranjaX"),
       (true, "#offer"), (true, "#product"), (true, "#FAQPage"), (true, "#WebPage")]
      (by decide)

theorem nodup_ids_blog (ctx : SchemaContext) (clock : Clock) :
    (idsOf (build_blog_posting_graph ctx none clock)).Nodup := by
  simp only [build_blog_posting_graph]
  rw [append_organization_nil_ids,
    show ∀ g : List JValue,
        (append_organization g (resolve_organization
          (some (if jTruthy (jGet ((none : Option Obj).getD []) "author") = true then
            asObjD (jGet ((none : Option Obj).getD []) "author") else [])) "naranja_x") []).2
          = [JValue.str "https://www.naranjax.com/#OrgNaranjaX"] from fun g => rfl,
    append_organization_seen _ _ _ (by exact rfl) (by exact rfl)]
  simp only [idsOf, List.filterMap_append]
  rw [List.filterMap_cons_some (idOf?_obj_eq _ _ (by
      rw [getField?_ite_update_not_mem _ _ _ _
          (by exact (by decide : ("@id" : String) ∉ ([] : List String))),
        getField?_ite_setField_ne _ _ _ _ _ (by decide),
        getField?_ite_setField_ne _ _ _ _ _ (by decide),
        getField?_ite_setField_ne _ _ _ _ _ (by decide),
        getField?_ite_setField_ne _ _ _ _ _ (by decide),
        getField?_setIfSome_ne _ _ _ _ (by decide),
        getField?_ite_setField_ne _ _ _ _ _ (by decide),
        getField?_setIfStr_ne _ _ _ _ _ (by decide),
        getField?_ite_else_setField_ne _ _ _ _ _ (by decide)]
      rfl)),
    List.filterMap_cons_some (idOf?_build_webpage_node _ _
      (fun e he => by
        injection he with he2
        subst he2
        exact (by decide : ("@id" : String) ∉
          (["publisher", "inLanguage"] : List String)))),
    List.filterMap_cons_some (idOf?_obj_eq _ _
      (by exact (rfl : _ = some (JValue.str "https://www.naranjax.com/#OrgNaranjaX")))),
    List.filterMap_nil]
  exact nodup_tagVal ctx.page_url
    [(true, "#BlogPosting"), (true, "#WebPage"),
     (false, "https://www.naranjax.com/#OrgNaranjaX")]
    (by decide)

theorem not_nodup_ids_insurance (ctx : SchemaContext) (clock : Clock) :
    ¬ (idsOf (build_insurance_agency_graph ctx none clock)).Nodup := by
  intro hnd
  simp only [build_insurance_agency_graph] at hnd
  rw [append_organization_nil_ids] at hnd
  cases hbf : build_faq_page ctx.page_url ctx.faqs (ctx.page_url ++ "#FAQPage") none with
  | none =>
    rw [hbf] at hnd
    simp only [faqSeg, idsOf, List.filterMap_append, List.filterMap_nil] at hnd
    rw [List.filterMap_cons_some (idOf?_obj_eq _ _ (by
        rw [getField?_setIfTruthy_ne _ _ _ _ (by decide),
          getField?_setIfTruthy_ne _ _ _ _ (by decide),
          getField?_setIfObj_ne _ _ _ _ (by decide),
          getField?_setIfSome_ne _ _ _ _ (by decide)]
        exact (rfl : _ = some (JValue.str (ctx.page_url ++ "#insurance-agency"))))),
      List.filterMap_cons_some (idOf?_build_offer_node _ _ _
        (by exact (by decide : ("@id" : String) ∉
          (["name", "priceCurrency", "availability", "areaServed",
            "eligibleRegion", "priceValidUntil", "price"] : List String)))),
      List.filterMap_cons_some (idOf?_obj_eq _ _ (by
        rw [getField?_setIfTruthy_ne _ _ _ _ (by decide),
          getField?_build_product_node_base _ _ _ _ _ _ _ _
            (by decide) (by decide) (by decide) (fun e he => by
              injection he with he2
              subst he2
              exact (by decide : ("@id" : String) ∉ (["url", "offers"] : List String)))]
        exact (rfl : _ = some (JValue.str (ctx.page_url ++ "#producto"))))),
      List.filterMap_cons_some (idOf?_build_webpage_node _ _
        (fun e he => Option.noConfusion he)),
      List.filterMap_cons_some (idOf?_obj_eq _ _ (by
        show getField?
            (resolve_organization
              (some [("@id", JValue.str (ctx.page_url ++ "#insurance-agency"))]) "naranja_x")
            "@id" = some (JValue.str (ctx.page_url ++ "#insurance-agency"))
        rw [resolve_organization_id_override (ctx.page_url ++ "#insurance-agency")
          (append_ne_empty ctx.page_url "#insurance-agency" (by decide))
          (Ne.symm (append_ne_of_ne_suffix ctx.page_url "#insurance-agency" _ (by decide)))
          (Ne.symm (append_ne_of_ne_suffix ctx.page_url "#insurance-agency" _ (by decide)))
          (Ne.symm (append_ne_of_ne_suffix ctx.page_url "#insurance-agency" _ (by decide))),
          getField?_setField_self])),
      List.filterMap_nil] at hnd
    exact (List.nodup_cons.mp hnd).1 (by simp)
  | some f =>
    rw [hbf] at hnd
    obtain ⟨hne, hf⟩ := build_faq_page_some _ _ _ _ _ hbf
    rw [hf] at hnd
    simp only [faqSeg, idsOf, List.filterMap_append] at hnd
    rw [List.filterMap_cons_some (idOf?_obj_eq _ _ (by
        rw [getField?_setIfTruthy_ne _ _ _ _ (by decide),
          getField?_setIfTruthy_ne _ _ _ _ (by decide),
          getField?_setIfObj_ne _ _ _ _ (by decide),
          getField?_setIfSome_ne _ _ _ _ (by decide)]
        exact (rfl : _ = some (JValue.str (ctx.page_url ++ "#insurance-agency"))))),
      List.filterMap_cons_some (idOf?_build_offer_node _ _ _
        (by exact (by decide : ("@id" : String) ∉
          (["name", "priceCurrency", "availability", "areaServed",
            "eligibleRegion", "priceValidUntil", "price"] : List String)))),
      List.filterMap_cons_some (idOf?_obj_eq _ _ (by
        rw [getField?_setIfTruthy_ne _ _ _ _ (by decide),
          getField?_build_product_node_base _ _ _ _ _ _ _ _
            (by decide) (by decide) (by decide) (fun e he => by
              injection he with he2
              subst he2
              exact (by decide : ("@id" : String) ∉ (["url", "offers"] : List String)))]
        exact (rfl : _ = some (JValue.str (ctx.page_url ++ "#producto"))))),
      List.filterMap_cons_some (idOf?_obj_eq _ _ (by
        rw [getField?_updateIf_not_mem _ _ _ (fun e he => Option.noConfusion he)]
        rfl)),
      List.filterMap_cons_some (idOf?_build_webpage_node _ _
        (fun e he => Option.noConfusion he)),
      List.filterMap_cons_some (idOf?_obj_eq _ _ (by
        show getField?
            (resolve_organization
              (some [("@id", JValue.str (ctx.page_url ++ "#insurance-agency"))]) "naranja_x")
            "@id" = some (JValue.str (ctx.page_url ++ "#insurance-agency"))
        rw [resolve_organization_id_override (ctx.page_url ++ "#insurance-agency")
          (append_ne_empty ctx.page_url "#insurance-agency" (by decide))
          (Ne.symm (append_ne_of_ne_suffix ctx.page_url "#insurance-agency" _ (by decide)))
          (Ne.symm (append_ne_of_ne_suffix ctx.page_url "#insurance-agency" _ (by decide)))
          (Ne.symm (append_ne_of_ne_suffix ctx.page_url "#insurance-agency" _ (by decide))),
          getField?_setField_self])),
      List.filterMap_nil] at hnd
    exact (List.nodup_cons.mp hnd).1 (by simp)

end GraphLemmas

/-!
## The claims
-/

/-- C6: `deep_merge` returns the base unchanged for an empty override;
for a key the override binds to a non-mapping value, the merged result
holds the override's value at that key (replace-wins); where both sides
hold nested mappings the merge is recursive. The embedding is pure, so
the source's non-mutation of either input (it deep-copies the base) is
inherent in value semantics: `deepMerge d o` is a fresh value and `d`,
`o` are untouched. -/
theorem claim_C6 :
    (∀ d : Obj, deepMerge d [] = d)
    ∧ (∀ (d o : Obj) (k : String) (v : JValue), (keysOf o).Nodup →
        (k, v) ∈ o → (∀ m, v ≠ JValue.obj m) →
        getField? (deepMerge d o) k = some v)
    ∧ (∀ (d o : Obj) (k : String) (m m' : Obj), (keysOf o).Nodup →
        (k, JValue.obj m') ∈ o → getField? d k = some (JValue.obj m) →
        getField? (deepMerge d o) k = some (JValue.obj (deepMerge m m'))) :=
  ⟨deepMerge_nil,
   fun d o k v h1 h2 h3 => getField?_deepMerge_replace o d k v h1 h2 h3,
   fun d o k m m' h1 h2 h3 => getField?_deepMerge_recursive o d k m m' h1 h2 h3⟩

theorem claim_C6_witness :
    deepMerge [("a", JValue.num 1)] [] = [("a", JValue.num 1)]
    ∧ getField? (deepMerge [("a", JValue.num 1), ("b", JValue.num 2)]
        [("b", JValue.num 3)]) "b" = some (JValue.num 3)
    ∧ getField? (deepMerge [("a", JValue.obj [("x", JValue.num 1), ("y", JValue.num 2)])]
        [("a", JValue.obj [("y", JValue.num 5)])]) "a"
        = some (JValue.obj (deepMerge [("x", JValue.num 1), ("y", JValue.num 2)]
            [("y", JValue.num 5)])) :=
  ⟨claim_C6.1 _,
   claim_C6.2.1 _ _ "b" _ (by decide) (List.mem_singleton.mpr rfl)
     (fun m h => JValue.noConfusion h),
   claim_C6.2.2 _ _ "a" _ _ (by decide) (List.mem_singleton.mpr rfl) rfl⟩

/-- C7: the builder dispatch normalizes the schema-type key, so
camelCase or hyphenated input resolves to the same builder as the
snake-case key; a key whose normal form is outside the eight-entry
registry yields a hard error and no graph, and `"unknown_type"` is such
a key. -/
theorem claim_C7 :
    (∀ st ∈ ["LoanOrCredit", "loan-or-credit", "loan_or_credit"],
        _schema_type_key st = "loan_or_credit")
    ∧ (∀ (st : String) (ctx : SchemaContext) (args : BuilderArgs) (clock : Clock),
        _schema_type_key st = "loan_or_credit" →
        buildGraphForType st ctx args clock
          = Except.ok (build_loan_or_credit_graph ctx args.price_spec args.loan_defaults clock))
    ∧ (∀ (st : String) (ctx : SchemaContext) (args : BuilderArgs) (clock : Clock),
        lookupBuilder (_schema_type_key st) = none →
        ∀ g : List JValue, buildGraphForType st ctx args clock ≠ Except.ok g)
    ∧ lookupBuilder (_schema_type_key "unknown_type") = none := by
  refine ⟨?_, ?_, ?_, rfl⟩
  · intro st hst
    simp only [List.mem_cons, List.not_mem_nil, or_false] at hst
    rcases hst with rfl | rfl | rfl <;> decide
  · intro st ctx args clock h
    unfold buildGraphForType
    rw [h]
    rfl
  · intro st ctx args clock h g
    unfold buildGraphForType
    rw [h]
    exact fun hc => Except.noConfusion hc

theorem claim_C7_witness :
    buildGraphForType "LoanOrCredit" fixedCtx {} fixedClock
      = Except.ok (build_loan_or_credit_graph fixedCtx none none fixedClock)
    ∧ ∀ g : List JValue,
        buildGraphForType "unknown_type" fixedCtx {} fixedClock ≠ Except.ok g :=
  ⟨claim_C7.2.1 "LoanOrCredit" fixedCtx {} fixedClock (by decide),
   fun g => claim_C7.2.2.1 "unknown_type" fixedCtx {} fixedClock claim_C7.2.2.2 g⟩

/-- C8: both FAQ extraction strategies deduplicate by the exact
(question, answer) pair: each strategy's output has no duplicate entry
and equals the first-occurrence subsequence of its raw extraction
order. -/
theorem claim_C8 :
    ∀ page : FaqPage,
      (extract_faqs_from_nx_accordion page).Nodup
      ∧ extract_faqs_from_nx_accordion page = firstOccurrences (accordionRawFaqs page)
      ∧ (extract_faqs_fallback page).Nodup
      ∧ extract_faqs_fallback page = firstOccurrences (fallbackRawFaqs page) := by
  intro page
  refine ⟨?_, ?_, ?_, ?_⟩
  · rw [extract_accordion_eq_dedup]
    exact dedupFaqs_nodup _
  · rw [extract_accordion_eq_dedup, dedupFaqs_eq_firstOccurrences]
  · exact dedupFaqs_nodup _
  · unfold extract_faqs_fallback
    rw [dedupFaqs_eq_firstOccurrences]

/-- C9 (amended): `clean_text` is total, with empty output on empty or
`None` input; its output is whitespace-collapsed — every whitespace
character in it is an ASCII space, no two are adjacent, and none leads
or trails — and a run of non-breaking spaces collapses to one space.
It is idempotent on every input free of the zero-width space; full
idempotence, as the spec states it, fails (see the counterexample). -/
theorem claim_C9 :
    (cleanTextOpt none = "" ∧ cleanText "" = "")
    ∧ (∀ s : String,
        (∀ c ∈ (cleanText s).data, isPyWs c = true → c = ' ')
        ∧ (cleanText s).data.Chain' NoWsPair
        ∧ (∀ c, (cleanText s).data.head? = some c → isPyWs c = false)
        ∧ (∀ c, (cleanText s).data.getLast? = some c → isPyWs c = false))
    ∧ cleanText ⟨['a', nbspChar, nbspChar, 'b']⟩ = "a b"
    ∧ (∀ s : String, zwspChar ∉ s.data → cleanText (cleanText s) = cleanText s) := by
  refine ⟨⟨rfl, rfl⟩, ?_, by decide, cleanText_idem_of_no_zwsp⟩
  intro s
  exact wsForm_cleanTextChars s.data

/-- C9 counterexample: normalizing is not idempotent. A zero-width
space between `e` and a combining acute accent survives the first pass
(NFKC composes nothing, then the zero-width space is removed), and the
second pass composes the now-adjacent pair into the single character
`é`. -/
theorem claim_C9_counterexample :
    cleanText (cleanText ⟨['e', zwspChar, acuteChar]⟩)
      ≠ cleanText ⟨['e', zwspChar, acuteChar]⟩ := by decide

theorem claim_C9_witness :
    zwspChar ∉ ("a  b" : String).data
    ∧ cleanText (cleanText "a  b") = cleanText "a  b" :=
  ⟨by decide, claim_C9.2.2.2 "a  b" (by decide)⟩

/-- C3 (amended): every FAQ entry returned by the extraction entry
point has a non-empty answer, and a non-empty question whenever the
result comes from the fallback strategy (the accordion strategy being
empty). The structured accordion strategy keeps an entry whose cleaned
question is blank — see the counterexample — so the unconditional
non-empty-question half of the spec is false. -/
theorem claim_C3 :
    ∀ (page : FaqPage) (f : Faq), f ∈ extract_faqs page →
      f.answer ≠ ""
      ∧ (extract_faqs_from_nx_accordion page = [] → f.question ≠ "") := by
  intro page f hf
  simp only [extract_faqs] at hf
  by_cases hacc : (extract_faqs_from_nx_accordion page).isEmpty
  · rw [if_pos hacc] at hf
    have hr := mem_fallbackRaw_props page f (mem_dedupFaqs _ _ hf)
    exact ⟨hr.2, fun _ => hr.1⟩
  · rw [if_neg hacc] at hf
    have hf' : f ∈ dedupFaqs (accordionRawFaqs page) := by
      rw [← extract_accordion_eq_dedup]
      exact hf
    refine ⟨mem_accordionRaw_answer page f (mem_dedupFaqs _ _ hf'), ?_⟩
    intro hempty
    exact absurd (List.isEmpty_iff.mpr hempty) hacc

/-- C3 counterexample: an accordion item whose heading cleans to the
empty string is kept with a blank question, not excluded. -/
theorem claim_C3_counterexample :
    extract_faqs blankQuestionPage = [{ question := "", answer := "Hello" }]
    ∧ ({ question := "", answer := "Hello" } : Faq).question = "" :=
  ⟨by decide, rfl⟩

theorem claim_C3_witness :
    ({ question := "Q?", answer := "A" } : Faq) ∈ extract_faqs helloPage
    ∧ ({ question := "Q?", answer := "A" } : Faq).answer ≠ ""
    ∧ ({ question := "Q?", answer := "A" } : Faq).question ≠ "" := by
  have hlist : extract_faqs helloPage = [{ question := "Q?", answer := "A" }] := by decide
  have hmem : ({ question := "Q?", answer := "A" } : Faq) ∈ extract_faqs helloPage := by
    rw [hlist]
    exact List.mem_singleton.mpr rfl
  have h := claim_C3 helloPage _ hmem
  exact ⟨hmem, h.1, h.2 (by decide)⟩

/-- C4 (amended): `_quantitative_node` suppresses the sub-object
precisely when none of `minValue`, `maxValue`, `unitText`, `value`
carries a value. A sub-object holding only a unit text is kept — its
node has the `@type` plus the unit, so `len(node) > 1` — contrary to
the spec's "only a unit and no numeric value is suppressed". -/
theorem claim_C4 :
    (∀ m : Obj, _quantitative_node (JValue.obj m) = none
       ↔ (isNull (jGet m "minValue") = true ∧ isNull (jGet m "maxValue") = true
           ∧ isNull (jGet m "unitText") = true ∧ isNull (jGet m "value") = true))
    ∧ _quantitative_node (JValue.obj [("maxValue", JValue.null),
        ("unitText", JValue.str "MONTH")])
        = some [("@type", JValue.str "QuantitativeValue"),
                ("unitText", JValue.str "MONTH")] := by
  refine ⟨?_, rfl⟩
  intro m
  by_cases h1 : isNull (jGet m "minValue") <;>
    by_cases h2 : isNull (jGet m "maxValue") <;>
      by_cases h3 : isNull (jGet m "unitText") <;>
        by_cases h4 : isNull (jGet m "value") <;>
          simp [_quantitative_node, h1, h2, h3, h4, setField, List.foldl]

/-- C4 counterexample: a loan-term configuration holding only a unit
text is not suppressed, neither by `_quantitative_node` nor in the
LoanOrCredit graph node the builder emits. -/
theorem claim_C4_counterexample :
    (_quantitative_node (JValue.obj [("maxValue", JValue.null),
        ("unitText", JValue.str "MONTH")])).isSome = true
    ∧ hasField ((build_loan_or_credit_graph fixedCtx none (some unitOnlyLoanDefaults)
          fixedClock).headD JValue.null) "loanTerm" = true := by
  constructor <;> decide

theorem claim_C4_witness :
    _quantitative_node (JValue.obj [("@type", JValue.str "QuantitativeValue")]) = none :=
  (claim_C4.1 _).mpr ⟨by decide, by decide, by decide, by decide⟩

/-- C1 (amended): with no price override, every `Offer`-typed node a
builder emits carries the literal string price `"0"` — for seven of the
eight builders. The investment/deposit builder's Offer data carries no
`price` key at all (builders.py lines 921-934), so its Offer node lacks
the field entirely, contrary to the spec's "never absent". -/
theorem claim_C1 :
    (∀ (ctx : SchemaContext) (clock : Clock) (name : String) (b : BuilderFn),
        (name, b) ∈ SCHEMA_BUILDERS → name ≠ "investment_or_deposit" →
        ∀ x ∈ b ctx {} clock, typeOf x = some "Offer" →
          ∃ fs, x = JValue.obj fs ∧ getField? fs "price" = some (JValue.str "0"))
    ∧ (∀ (ctx : SchemaContext) (clock : Clock),
        ∀ x ∈ build_investment_or_deposit_graph ctx none clock,
          typeOf x = some "Offer" →
            ∃ fs, x = JValue.obj fs ∧ getField? fs "price" = none) := by
  constructor
  · intro ctx clock name b hmem hni x hx hty
    have hgf : GraphFacts ctx (some (JValue.str "0")) (b ctx {} clock) := by
      simp only [SCHEMA_BUILDERS, List.mem_cons, List.not_mem_nil, or_false] at hmem
      rcases hmem with h | h | h | h | h | h | h | h <;> cases h
      · exact graphFacts_payment_card ctx clock
      · exact graphFacts_loan ctx clock
      · exact graphFacts_bank ctx clock
      · exact graphFacts_service ctx clock
      · exact absurd rfl hni
      · exact graphFacts_insurance ctx clock
      · exact graphFacts_financial ctx clock
      · exact graphFacts_blog ctx clock
    exact (hgf x hx).2.1 hty
  · intro ctx clock x hx hty
    exact (graphFacts_investment ctx clock x hx).2.1 hty

/-- C1 counterexample: the investment/deposit graph contains an Offer
node with no `price` field at all. -/
theorem claim_C1_counterexample :
    ∃ x ∈ build_investment_or_deposit_graph fixedCtx none fixedClock,
      typeOf x = some "Offer" ∧ hasField x "price" = false := by decide

theorem claim_C1_witness :
    ∃ fs, (build_payment_card_graph fixedCtx fixedClock).get ⟨1, by decide⟩ = JValue.obj fs
      ∧ getField? fs "price" = some (JValue.str "0") :=
  claim_C1.1 fixedCtx fixedClock "payment_card"
    (fun ctx _ clock => build_payment_card_graph ctx clock)
    (List.mem_cons_self _ _) (by decide) _ (List.get_mem _ _ _) (by decide)

/-- C5: for every builder run with default keyword arguments, if no FAQ
pair is valid (non-empty question and answer after trimming) then no
`FAQPage`-typed node appears in the graph; and any `FAQPage`-typed node
carries one `mainEntity` Question per valid pair, existing only when at
least one valid pair does. -/
theorem claim_C5 :
    ∀ (ctx : SchemaContext) (clock : Clock) (name : String) (b : BuilderFn),
      (name, b) ∈ SCHEMA_BUILDERS →
      ((∀ f ∈ ctx.faqs, validFaqPair f = false) →
        ∀ x ∈ b ctx {} clock, typeOf x ≠ some "FAQPage")
      ∧ (∀ x ∈ b ctx {} clock, typeOf x = some "FAQPage" →
          ∃ fs, x = JValue.obj fs
            ∧ getField? fs "mainEntity" = some (JValue.arr (_faq_entities ctx.faqs))
            ∧ (_faq_entities ctx.faqs).length = (ctx.faqs.filter validFaqPair).length
            ∧ _faq_entities ctx.faqs ≠ []) := by
  intro ctx clock name b hmem
  have hgf : ∃ price, GraphFacts ctx price (b ctx {} clock) := by
    simp only [SCHEMA_BUILDERS, List.mem_cons, List.not_mem_nil, or_false] at hmem
    rcases hmem with h | h | h | h | h | h | h | h <;> cases h
    · exact ⟨_, graphFacts_payment_card ctx clock⟩
    · exact ⟨_, graphFacts_loan ctx clock⟩
    · exact ⟨_, graphFacts_bank ctx clock⟩
    · exact ⟨_, graphFacts_service ctx clock⟩
    · exact ⟨_, graphFacts_investment ctx clock⟩
    · exact ⟨_, graphFacts_insurance ctx clock⟩
    · exact ⟨_, graphFacts_financial ctx clock⟩
    · exact ⟨_, graphFacts_blog ctx clock⟩
  obtain ⟨price, hgf⟩ := hgf
  constructor
  · intro hall x hx hty
    obtain ⟨fs, _, _, hne⟩ := (hgf x hx).1 hty
    exact hne ((_faq_entities_eq_nil_iff _).mpr hall)
  · intro x hx hty
    obtain ⟨fs, hxe, hm, hne⟩ := (hgf x hx).1 hty
    exact ⟨fs, hxe, hm, _faq_entities_length ctx.faqs, hne⟩

theorem claim_C5_witness :
    ∃ fs, (build_payment_card_graph faqCtx fixedClock).get ⟨3, by decide⟩ = JValue.obj fs
      ∧ getField? fs "mainEntity" = some (JValue.arr (_faq_entities faqCtx.faqs))
      ∧ (_faq_entities faqCtx.faqs).length = (faqCtx.faqs.filter validFaqPair).length
      ∧ _faq_entities faqCtx.faqs ≠ [] :=
  (claim_C5 faqCtx fixedClock "payment_card"
      (fun ctx _ clock => build_payment_card_graph ctx clock)
      (List.mem_cons_self _ _)).2 _ (List.get_mem _ _ _) (by decide)

/-- C10: when the caller passes no aggregate rating, the workflow
resolves the built-in default block (ratingValue 4.6, ratingCount
991000, bestRating 5, worstRating 1, `@type` AggregateRating) into the
context, and every `Product`-typed node of every builder's graph (with
default keyword arguments) then carries exactly that block; the payment
card graph exhibits such a Product node. -/
theorem claim_C10 :
    resolveAggRating none = some DEFAULT_AGG_RATING
    ∧ (∀ (ctx : SchemaContext) (clock : Clock) (name : String) (b : BuilderFn),
        (name, b) ∈ SCHEMA_BUILDERS →
        ctx.aggregate_rating = resolveAggRating none →
        ∀ x ∈ b ctx {} clock, typeOf x = some "Product" →
          ∃ fs, x = JValue.obj fs
            ∧ getField? fs "aggregateRating" = some (JValue.obj DEFAULT_AGG_RATING))
    ∧ (∃ x ∈ build_payment_card_graph fixedCtx fixedClock, typeOf x = some "Product") := by
  refine ⟨rfl, ?_, by decide⟩
  intro ctx clock name b hmem har x hx hty
  have hgf : ∃ price, GraphFacts ctx price (b ctx {} clock) := by
    simp only [SCHEMA_BUILDERS, List.mem_cons, List.not_mem_nil, or_false] at hmem
    rcases hmem with h | h | h | h | h | h | h | h <;> cases h
    · exact ⟨_, graphFacts_payment_card ctx clock⟩
    · exact ⟨_, graphFacts_loan ctx clock⟩
    · exact ⟨_, graphFacts_bank ctx clock⟩
    · exact ⟨_, graphFacts_service ctx clock⟩
    · exact ⟨_, graphFacts_investment ctx clock⟩
    · exact ⟨_, graphFacts_insurance ctx clock⟩
    · exact ⟨_, graphFacts_financial ctx clock⟩
    · exact ⟨_, graphFacts_blog ctx clock⟩
  obtain ⟨price, hgf⟩ := hgf
  exact (hgf x hx).2.2 hty DEFAULT_AGG_RATING (har.trans rfl) (List.cons_ne_nil _ _)

theorem claim_C10_witness :
    ∃ fs, (build_payment_card_graph fixedCtx fixedClock).get ⟨2, by decide⟩ = JValue.obj fs
      ∧ getField? fs "aggregateRating" = some (JValue.obj DEFAULT_AGG_RATING) :=
  claim_C10.2.1 fixedCtx fixedClock "payment_card"
    (fun ctx _ clock => build_payment_card_graph ctx clock)
    (List.mem_cons_self _ _) rfl _ (List.get_mem _ _ _) (by decide)

/-- C2 (amended): with default keyword arguments, every node identifier
is unique within the produced graph for seven of the eight builders,
and `append_organization` skips an organization whose truthy `@id` was
already recorded (the de-duplication mechanism the spec describes). The
insurance-agency builder breaks the invariant for every context: its
closing `append_organization` call resolves an organization whose `@id`
is overridden to the agency node's own `@id`, so that identifier
appears twice in the graph. -/
theorem claim_C2 :
    (∀ (ctx : SchemaContext) (clock : Clock) (name : String) (b : BuilderFn),
        (name, b) ∈ SCHEMA_BUILDERS → name ≠ "insurance_agency" →
        (idsOf (b ctx {} clock)).Nodup)
    ∧ (∀ (ctx : SchemaContext) (clock : Clock),
        ¬ (idsOf (build_insurance_agency_graph ctx none clock)).Nodup)
    ∧ (∀ (graph : List JValue) (org : Obj) (ids : List JValue),
        jTruthy (jGet org "@id") = true →
        ids.any (fun x => jEq x (jGet org "@id")) = true →
        (append_organization graph org ids).1 = graph) := by
  refine ⟨?_, not_nodup_ids_insurance, append_organization_seen⟩
  intro ctx clock name b hmem hni
  simp only [SCHEMA_BUILDERS, List.mem_cons, List.not_mem_nil, or_false] at hmem
  rcases hmem with h | h | h | h | h | h | h | h <;> cases h
  · exact nodup_ids_payment_card ctx clock
  · exact nodup_ids_loan ctx clock
  · exact nodup_ids_bank ctx clock
  · exact nodup_ids_service ctx clock
  · exact nodup_ids_investment ctx clock
  · exact absurd rfl hni
  · exact nodup_ids_financial ctx clock
  · exact nodup_ids_blog ctx clock

/-- C2 counterexample: the insurance-agency graph repeats the agency
identifier — the closing organization node reuses it. -/
theorem claim_C2_counterexample :
    idsOf (build_insurance_agency_graph fixedCtx none fixedClock)
      = ["https://example.com/p#insurance-agency", "https://example.com/p#offer-basica",
         "https://example.com/p#producto", "https://example.com/p#WebPage",
         "https://example.com/p#insurance-agency"]
    ∧ ¬ (idsOf (build_insurance_agency_graph fixedCtx none fixedClock)).Nodup := by
  constructor <;> decide

theorem claim_C2_witness :
    (idsOf (build_payment_card_graph fixedCtx fixedClock)).Nodup
    ∧ (append_organization [] [("@id", JValue.str "https://example.com/#org")]
        [JValue.str "https://example.com/#org"]).1 = [] :=
  ⟨claim_C2.1 fixedCtx fixedClock "payment_card"
      (fun ctx _ clock => build_payment_card_graph ctx clock)
      (List.mem_cons_self _ _) (by decide),
   claim_C2.2.2 [] _ _ (by decide) (by decide)⟩

end SchemaAutomation
